import Mathlib

/-!
# Print-job checkpoint and recovery of `Firmware/Marlin_main.cpp`

A shallow embedding of the checkpoint / recovery subsystem of the firmware:

* the power-loss path `uvlo_`, entered from `ISR(INT4_vect)`;
* the RAM checkpoint `stop_and_save_print_to_ram` /
  `restore_print_from_ram_and_continue`;
* the recovery at boot: the test of the pending flag in `setup()`,
  `recover_print`, `recover_machine_state_after_power_panic` and the replay
  `restore_print_from_eeprom`.
* the release of a processed command in `loop()`, which moves the SD length
  of the command from the command queue to the planner.

Conventions of the embedding.

* The target is an 8-bit AVR (the file programs `EIMSK`, `EICRB` and an
  `ISR(INT4_vect)`): `int` is 16 bits, `long` is 32 bits.  Machine integers
  are `Nat` / `Int` with an explicit reduction modulo `2 ^ w` at every place
  where the C++ type narrows a value.
* `float` values are rationals (`ℚ`).  The `float` operations of the leveling
  snapshot and of its restore (`uvlo_mesh_value`, `recover_mesh`) are rounded
  to the 32-bit format by `f32`; elsewhere the rounding of the 32-bit format
  is not represented.
* The global variables of the firmware are the fields of `Machine`; a C++
  function `void f(args)` becomes `f : args → Machine → Machine`.
* Every call with an effect outside the RAM variables (EEPROM write, planner
  call, stepper call, interrupt mask), and every call that puts a command in
  the command queue, is appended to `Machine.log` in program order, so that
  ordering properties can be stated on the log.
* Serial output (`SERIAL_ECHO...`, `MYSERIAL.print`, `printf_P`) is not state
  and is left out.
-/

namespace Marlin

/-! ## Machine integers -/

/-- Value of an integer after conversion to `uint8_t`. -/
def to_uint8 (i : Int) : Nat := (i % 256).toNat

/-- Value of an integer after conversion to `uint16_t`. -/
def to_uint16 (i : Int) : Nat := (i % 65536).toNat

/-- Value of an integer after conversion to `uint32_t`. -/
def to_uint32 (i : Int) : Nat := (i % 4294967296).toNat

/-- Value of an integer after conversion to `int16_t` (the 16-bit `int` of
the AVR): two's complement wrap-around into `-32768 .. 32767`. -/
def to_int16 (i : Int) : Int := (i + 32768) % 65536 - 32768

/-- Value of an integer after conversion to the 32-bit `long` of the AVR:
two's complement wrap-around into `-2^31 .. 2^31 - 1`. -/
def to_long (i : Int) : Int := (i + 2147483648) % 4294967296 - 2147483648

/-- The C conversion of a `float` to an integer type truncates toward zero. -/
def float_trunc (q : ℚ) : Int := if 0 ≤ q then ⌊q⌋ else ⌈q⌉

/-! ## The 32-bit `float` -/

/-- Rounding of a rational to the nearest integer, a tie going to the even
one. -/
def round_half_even (q : ℚ) : Int :=
  if q - ⌊q⌋ < 1 / 2 then ⌊q⌋
  else if 1 / 2 < q - ⌊q⌋ then ⌊q⌋ + 1
  else if ⌊q⌋ % 2 = 0 then ⌊q⌋ else ⌊q⌋ + 1

/-- The exponent of the leading bit of a `float` near `q`: the greatest `e`
with `2^e <= |q|`, and -126 for the subnormal range and for 0. -/
def f32_exponent (q : ℚ) : Int := max (Int.log 2 |q|) (-126)

/-- The result of a `float` operation whose exact value is `q`: the AVR
`float` (and `double`) is the IEEE 754 binary32 format, 24 significant bits,
and the arithmetic rounds to the nearest representable value, a tie going to
the even significand. The numbers representable near `q` are the multiples of
`2^(e - 23)` with `e = f32_exponent q`. Overflow to infinity is not
represented. -/
def f32 (q : ℚ) : ℚ :=
  (round_half_even (q / 2 ^ (f32_exponent q - 23)) : ℚ) * 2 ^ (f32_exponent q - 23)

/-! ## Data model -/

/-- The four axes of a position: `X_AXIS`, `Y_AXIS`, `Z_AXIS`, `E_AXIS`. -/
structure Pos where
  x : ℚ
  y : ℚ
  z : ℚ
  e : ℚ
deriving DecidableEq

/-- The fields of a planner block (`block_t`) that this file reads:
`nominal_speed` in mm/sec and `sdlen`, the number of bytes of the SD file
that the block accounts for. -/
structure block_t where
  nominal_speed : ℚ
  sdlen : Nat
deriving DecidableEq

/-- The type byte at the head of an entry of `cmdbuffer`
(`CMDBUFFER_CURRENT_TYPE_*`). -/
inductive CmdType where
  | UNKNOWN
  | USB
  | SDCARD
  | UI
  | CHAIN
  | TO_BE_REMOVED
deriving DecidableEq, Repr

/-- A piece of the text of a command: either literal characters, or an
argument handed to one of the formatting routines (`sprintf_P` with `%lu`,
`%d`, `%s`; `dtostrf`; `ftostr32`; `itostr3`), or the argument of the
preprocessor macro `STRINGIFY` as written. The argument is kept, not
rendered. -/
inductive Tok where
  | lit (s : String)
  | lu (n : Nat)
  | d (i : Int)
  | str (s : String)
  | dtostrf (q : ℚ) (width : Nat) (prec : Nat)
  | ftostr32 (q : ℚ)
  | itostr3 (i : Int)
  | STRINGIFY (expr : String)
deriving DecidableEq

/-- An entry of the command queue `cmdbuffer`: the type byte, the two header
bytes `lo`, `hi` holding the SD length of the command, and its text. -/
structure CmdEntry where
  type : CmdType
  lo : Nat
  hi : Nat
  text : List Tok
deriving DecidableEq

/-- The members of `card` (class `CardReader`) used here. -/
structure CardReader where
  sdprinting : Bool
  sdpos : Nat
deriving DecidableEq

/-- The members of `mbl` (class `mesh_bed_leveling`) used here;
`z_values iy ix` is `mbl.z_values[iy][ix]`. The method `upsample_3x3()` is
implemented in mesh_bed_leveling.cpp, not in `Marlin_main.cpp`: the table it
leaves in `z_values`, as a function of the table it finds, is taken as a
parameter. -/
structure mesh_bed_leveling where
  active : Bool
  z_values : Nat → Nat → ℚ
  upsample_3x3 : (Nat → Nat → ℚ) → Nat → Nat → ℚ

/-- Modelled from the spec: the cells of the persisted record of §6
("fixed-offset non-volatile storage"). The numeric values of the `EEPROM_*`
address macros are declared outside `Marlin_main.cpp`; every named field is a
cell of its own, and the address arithmetic the code does on a base address
(`EEPROM_UVLO_MESH_BED_LEVELING + 2*mesh_point`,
`EEPROM_UVLO_CURRENT_POSITION + 4`, `EEPROM_DIRS + j + 8*i`) is kept as the
byte offset from that base. -/
inductive EepromCell where
  | EEPROM_UVLO
  | EEPROM_FILE_POSITION
  | EEPROM_UVLO_MESH_BED_LEVELING (off : Nat)
  | EEPROM_UVLO_Z_MICROSTEPS
  | EEPROM_UVLO_CURRENT_POSITION (off : Nat)
  | EEPROM_UVLO_CURRENT_POSITION_Z
  | EEPROM_UVLO_CURRENT_POSITION_E
  | EEPROM_UVLO_E_ABS
  | EEPROM_UVLO_FEEDRATE
  | EEPROM_UVLO_TARGET_HOTEND
  | EEPROM_UVLO_TARGET_BED
  | EEPROM_UVLO_FAN_SPEED
  | EEPROM_POWER_COUNT
  | EEPROM_POWER_COUNT_TOT
  | EEPROM_DIR_DEPTH
  | EEPROM_DIRS (off : Nat)
  | EEPROM_FILENAME (off : Nat)
deriving DecidableEq

/-- Content of the EEPROM. Cells accessed with the byte / word / dword
routines hold an unsigned number (`raw`); cells accessed with
`eeprom_update_float` / `eeprom_read_float` hold the float value (`flt`). -/
structure Eeprom where
  raw : EepromCell → Nat
  flt : EepromCell → ℚ

/-- One write access to the EEPROM. -/
inductive EepromWrite where
  | raw (c : EepromCell) (v : Nat)
  | flt (c : EepromCell) (q : ℚ)
deriving DecidableEq

/-- The cell a write goes to. -/
def EepromWrite.cell : EepromWrite → EepromCell
  | .raw c _ => c
  | .flt c _ => c

/-- The EEPROM after one write. -/
def Eeprom.write (m : Eeprom) : EepromWrite → Eeprom
  | .raw c v => { m with raw := fun k => if k = c then v else m.raw k }
  | .flt c q => { m with flt := fun k => if k = c then q else m.flt k }

/-- The EEPROM after a sequence of writes, oldest first. -/
def Eeprom.replay (m : Eeprom) (ws : List EepromWrite) : Eeprom :=
  ws.foldl Eeprom.write m

/-- The calls with an effect outside the RAM variables, as recorded in
`Machine.log`. -/
inductive Event where
  | eeprom (w : EepromWrite)
  | plan_buffer_line (x y z e feed_rate : ℚ) (extruder : Nat)
  | plan_set_e_position (e : ℚ)
  | planner_abort_hard
  | cmdqueue_reset
  | st_synchronize
  | st_reset_timer
  | disable_x
  | disable_y
  | disable_z
  | disable_e0
  | tmc2130_set_current_h (axis : Nat) (current : Nat)
  | tmc2130_set_current_r (axis : Nat) (current : Nat)
  | tmc2130_rd_MSCNT
  | card_setIndex (index : Nat)
  | card_chdir (name : String)
  | cli
  | sei
  | enquecommand (cmd : List Tok)
  | plan_set_position (x y z e : ℚ)
  | world2machine_initialize
  | upsample_3x3
  | babystep_load
  | enable_x
  | enable_y
  | enable_z
  | manage_heater
  | lcd_show_fullscreen_message_yes_no_and_wait_P
deriving DecidableEq

/-- The EEPROM write of an event, when it is one. -/
def Event.write : Event → Option EepromWrite
  | .eeprom w => some w
  | _ => none

/-- The EEPROM writes among a list of events, in order. -/
def eeprom_writes (evs : List Event) : List EepromWrite :=
  evs.filterMap Event.write

/-- Constants and configuration tables that `Marlin_main.cpp` uses and that
are declared in the configuration headers or set at start-up: the macros
`DEFAULT_RETRACTION`, `UVLO_Z_AXIS_SHIFT` and
`AUTOMATIC_UVLO_BED_TEMP_OFFSET`, and the entries `homing_feedrate[Z_AXIS]`,
`axis_steps_per_unit[Z_AXIS]`. -/
structure Config where
  DEFAULT_RETRACTION : ℚ
  UVLO_Z_AXIS_SHIFT : ℚ
  homing_feedrate_Z : ℚ
  axis_steps_per_unit_Z : ℚ
  AUTOMATIC_UVLO_BED_TEMP_OFFSET : ℚ
deriving DecidableEq

/-- The global state of the firmware that the checkpoint code reads or
writes. -/
structure Machine where
  cfg : Config
  /-- file offset right after the command most recently put in the queue -/
  sdpos_atomic : Nat
  /-- planner queue, the block at `block_buffer_tail` first -/
  block_buffer : List block_t
  /-- end position of the planned moves (`position` of the planner) -/
  plan_position : Pos
  /-- logical position of the head as counted by the stepper routine -/
  st_position : Pos
  /-- command queue, the entry at `bufindr` first (`buflen` is its length) -/
  cmdbuffer : List CmdEntry
  cmdbuffer_front_already_processed : Bool
  card : CardReader
  current_position : Pos
  destination : Pos
  feedrate : ℚ
  active_extruder : Nat
  extruder_under_pressure : Bool
  /-- the entry `axis_relative_modes[3]` -/
  axis_relative_modes_E : Bool
  /-- the array `axis_known_position`, indexed by the axis -/
  axis_known_position : Nat → Bool
  target_temperature : Nat → Int
  target_temperature_bed : Int
  /-- the bed temperature `degBed()` reports -/
  current_temperature_bed : ℚ
  fanSpeed : Int
  mbl : mesh_bed_leveling
  /-- the register `MSCNT` of the Z driver, as `tmc2130_rd_MSCNT` returns it -/
  tmc2130_MSCNT_Z : Nat
  saved_printing : Bool
  saved_sdpos : Nat
  saved_pos : Pos
  saved_feedrate2 : ℚ
  saved_active_extruder : Nat
  saved_extruder_under_pressure : Bool
  EIMSK : Nat
  EICRB : Nat
  DDRE : Nat
  PORTE : Nat
  eeprom : Eeprom
  log : List Event

/-- Modelled from the spec: the macro `MESH_MEAS_NUM_X_POINTS` of the
configuration headers; §4.2 samples the mesh "at its 3×3 corner points". -/
def MESH_MEAS_NUM_X_POINTS : Nat := 3

/-- The axis index `X_AXIS` (enum `AxisEnum` of Marlin.h: X, Y, Z, E are
0, 1, 2, 3; `Marlin_main.cpp` itself indexes the E entry of
`axis_relative_modes` as 3). -/
def X_AXIS : Nat := 0

/-- The axis index `Y_AXIS`. -/
def Y_AXIS : Nat := 1

/-- The axis index `Z_AXIS`. -/
def Z_AXIS : Nat := 2

/-- The axis index `E_AXIS`. -/
def E_AXIS : Nat := 3

/-! ## Primitive operations -/

/-- Record a call in the log. -/
@[simps]
def emit (ev : Event) (s : Machine) : Machine :=
  { s with log := s.log ++ [ev] }

/-- Perform one EEPROM write and record it. -/
@[simps]
def eeprom_store (w : EepromWrite) (s : Machine) : Machine :=
  { s with eeprom := s.eeprom.write w, log := s.log ++ [Event.eeprom w] }

/-- The avr-libc routine `eeprom_update_byte(addr, value)`; the value is
converted to `uint8_t`. -/
def eeprom_update_byte (c : EepromCell) (v : Int) (s : Machine) : Machine :=
  eeprom_store (.raw c (to_uint8 v)) s

/-- The avr-libc routine `eeprom_update_word(addr, value)`; the value is
converted to `uint16_t`. -/
def eeprom_update_word (c : EepromCell) (v : Int) (s : Machine) : Machine :=
  eeprom_store (.raw c (to_uint16 v)) s

/-- The avr-libc routine `eeprom_update_dword(addr, value)`; the value is
converted to `uint32_t`. -/
def eeprom_update_dword (c : EepromCell) (v : Int) (s : Machine) : Machine :=
  eeprom_store (.raw c (to_uint32 v)) s

/-- The avr-libc routine `eeprom_update_float(addr, value)`. -/
def eeprom_update_float (c : EepromCell) (q : ℚ) (s : Machine) : Machine :=
  eeprom_store (.flt c q) s

/-- Modelled from the spec: `EEPROM_save_B(pos, int* value)` of the
configuration store, which is not in `Marlin_main.cpp`; it persists the two
bytes of a 16-bit `int` at `pos` (§6: "feedrate, 2-byte signed"). The two
bytes are kept as one 16-bit cell holding the two's complement pattern. -/
def EEPROM_save_B (c : EepromCell) (v : Int) (s : Machine) : Machine :=
  eeprom_store (.raw c (to_uint16 v)) s

/-- The avr-libc routine `eeprom_read_byte`. -/
def eeprom_read_byte (c : EepromCell) (m : Eeprom) : Nat := m.raw c % 256

/-- The avr-libc routine `eeprom_read_word`. -/
def eeprom_read_word (c : EepromCell) (m : Eeprom) : Nat := m.raw c % 65536

/-- The avr-libc routine `eeprom_read_dword`. -/
def eeprom_read_dword (c : EepromCell) (m : Eeprom) : Nat :=
  m.raw c % 4294967296

/-- The avr-libc routine `eeprom_read_float`. -/
def eeprom_read_float (c : EepromCell) (m : Eeprom) : ℚ := m.flt c

/-- Modelled from the spec: `EEPROM_read_B(pos, int* value)` of the
configuration store, the inverse of `EEPROM_save_B`: the two bytes at `pos`
read as a 16-bit signed `int`. -/
def EEPROM_read_B (c : EepromCell) (m : Eeprom) : Int :=
  to_int16 (m.raw c % 65536)

/-- Modelled from the spec: `blocks_queued()` of the planner (planner.h);
true when a motion block is in flight (§4.3 "if one is in flight"). -/
def blocks_queued (block_buffer : List block_t) : Bool := !block_buffer.isEmpty

/-- Modelled from the spec: `planner_calc_sd_length()` of the planner
(planner.cpp), "Σ(sdlen of queued blocks)" of §4.1; the result type at the
call sites is `uint16_t`. -/
def planner_calc_sd_length (block_buffer : List block_t) : Nat :=
  to_uint16 ((block_buffer.map block_t.sdlen).sum)

/-- The SD length an entry of the command queue accounts for: the 16-bit
value of its header bytes when the entry is of type
`CMDBUFFER_CURRENT_TYPE_SDCARD`, nothing otherwise. -/
def CmdEntry.sdlen (c : CmdEntry) : Nat :=
  if c.type = CmdType.SDCARD then c.lo + 256 * c.hi else 0

/-- Modelled from the spec: `cmdqueue_calc_sd_length()` of the command queue
(cmdqueue.cpp), "Σ(sdlen of queued SD-sourced commands)" of §4.1; the result
type at the call sites is `uint16_t`. -/
def cmdqueue_calc_sd_length (cmdbuffer : List CmdEntry) : Nat :=
  to_uint16 ((cmdbuffer.map CmdEntry.sdlen).sum)

/-- Modelled from the spec: `planner_abort_hard()` of the planner
(planner.cpp), `abortAndDrain()` of §6. It drops all queued motion, and, as the
comment at its call in `uvlo_` says, "the planner queue is emptied and the
current_position is set to a current logical coordinate": the position the
stepper routine has reached. -/
@[simps]
def planner_abort_hard (s : Machine) : Machine :=
  { s with block_buffer := []
           plan_position := s.st_position
           current_position := s.st_position
           destination := s.st_position
           log := s.log ++ [.planner_abort_hard] }

/-- Modelled from the spec: `cmdqueue_reset()` of the command queue
(cmdqueue.cpp), `reset()` of §6: empties the command queue. -/
@[simps]
def cmdqueue_reset (s : Machine) : Machine :=
  { s with cmdbuffer := [], log := s.log ++ [.cmdqueue_reset] }

/-- Modelled from the spec: `enquecommand(cmd, from_progmem)` and
`enquecommand_P(cmd)` of the command queue (cmdqueue.cpp): store the command
at the end of the queue; a command made by the firmware itself is not
SD-sourced and carries no SD length. The call is recorded in the log. -/
@[simps]
def enquecommand (cmd : List Tok) (s : Machine) : Machine :=
  { s with cmdbuffer := s.cmdbuffer ++ [{ type := .UI, lo := 0, hi := 0, text := cmd }]
           log := s.log ++ [.enquecommand cmd] }

/-- Modelled from the spec: `repeatcommand_front()` of the command queue
(cmdqueue.cpp): marks the entry at the front of the queue as not yet
processed, so the main loop does not remove it (§4.3 "pushed back to the front
of the command queue so it executes before anything else"). -/
@[simps]
def repeatcommand_front (s : Machine) : Machine :=
  { s with cmdbuffer_front_already_processed := true }

/-- Modelled from the spec: `plan_buffer_line(x, y, z, e, feed_rate,
extruder)` of the planner (planner.cpp): queues one move to the given logical
target. The block it queues is not read from an SD file (`sdlen = 0`); its
nominal speed is the requested feed rate, the planner's speed limiting being
outside this file. -/
@[simps]
def plan_buffer_line (x y z e feed_rate : ℚ) (extruder : Nat) (s : Machine) : Machine :=
  { s with block_buffer := s.block_buffer ++ [{ nominal_speed := feed_rate, sdlen := 0 }]
           plan_position := { x := x, y := y, z := z, e := e }
           log := s.log ++ [.plan_buffer_line x y z e feed_rate extruder] }

/-- Modelled from the spec: `st_synchronize()` of the stepper routine
(stepper.cpp), the blocking wait of §5 "wait until no motion blocks remain":
on return the queued moves have been executed. -/
@[simps]
def st_synchronize (s : Machine) : Machine :=
  { s with block_buffer := []
           st_position := s.plan_position
           log := s.log ++ [.st_synchronize] }

/-- Modelled from the spec: `plan_set_e_position(e)` of the planner
(planner.cpp): declares the current extruder coordinate to be `e` without
moving. -/
@[simps]
def plan_set_e_position (e : ℚ) (s : Machine) : Machine :=
  { s with plan_position := { s.plan_position with e := e }
           st_position := { s.st_position with e := e }
           log := s.log ++ [.plan_set_e_position e] }

/-- Modelled from the spec: `st_get_position_mm(axis)` of the stepper routine:
the position the axis has reached, in mm. -/
def st_get_position_mm (st_position : Pos) (axis : Nat) : ℚ :=
  match axis with
  | 0 => st_position.x
  | 1 => st_position.y
  | 2 => st_position.z
  | _ => st_position.e

/-- Modelled from the spec: `card.setIndex(index)` of the card reader
(cardreader.h): "re-seeks the source file" (§4.3) to byte `index`. -/
@[simps]
def card_setIndex (index : Nat) (s : Machine) : Machine :=
  { s with card := { s.card with sdpos := index }
           log := s.log ++ [.card_setIndex index] }

/-- Modelled from the spec: the macro `IS_SD_PRINTING` (cardreader.h),
"a print is active" of §4.4. -/
def IS_SD_PRINTING (card : CardReader) : Bool := card.sdprinting

/-- The count of Z microsteps `(1024 - z_microsteps + 7) >> 4` that `uvlo_`
and the recovery add to reach a full step. `z_microsteps` is a `uint16_t`,
so on the AVR the sum is computed in 16-bit unsigned arithmetic. -/
def full_step_offset (z_microsteps : Nat) : Nat :=
  to_uint16 (1024 - (z_microsteps : Int) + 7) >>> 4

/-! ## Power-loss checkpoint -/

/-- The local `sd_position` of `uvlo_` when it is written to the EEPROM:
`long sd_position = sdpos_atomic;` followed by the two subtractions and the
clamp `if (sd_position < 0) sd_position = 0;`. -/
def uvlo_sd_position (sdpos_atomic : Nat) (block_buffer : List block_t)
    (cmdbuffer : List CmdEntry) : Int :=
  let sd_position : Int := to_long sdpos_atomic
  let sdlen_planner : Nat := planner_calc_sd_length block_buffer
  let sd_position := to_long (sd_position - sdlen_planner)
  let sdlen_cmdqueue : Nat := cmdqueue_calc_sd_length cmdbuffer
  let sd_position := to_long (sd_position - sdlen_cmdqueue)
  if sd_position < 0 then 0 else sd_position

/-- The expression
`blocks_queued() ? (block_buffer[block_buffer_tail].nominal_speed * 60.f) : feedrate`
of `uvlo_` and of `stop_and_save_print_to_ram`, the feedrate in mm/min: the
first branch is taken when the planner queue has a block at its tail. -/
def feedrate_of_planner (block_buffer : List block_t) (feedrate : ℚ) : ℚ :=
  match block_buffer with
  | b :: _ => b.nominal_speed * 60
  | [] => feedrate

/-- The local `feedrate_bckp` of `uvlo_`, an `int`. -/
def uvlo_feedrate_bckp (block_buffer : List block_t) (feedrate : ℚ) : Int :=
  to_int16 (float_trunc (feedrate_of_planner block_buffer feedrate))

/-- The value `v` of the loop body of `uvlo_` for one mesh point:
`mbl.active ? int16_t(floor(mbl.z_values[iy*3][ix*3] * 1000.f + 0.5f)) : 0`.
The product and the sum are `float` operations, each rounded by `f32`; the
constants `1000.f` and `0.5f` are exact in the format, and so is `floor` of a
`float`. -/
def uvlo_mesh_value (mbl : mesh_bed_leveling) (mesh_point : Nat) : Int :=
  let ix := mesh_point % MESH_MEAS_NUM_X_POINTS
  let iy := mesh_point / MESH_MEAS_NUM_X_POINTS
  if mbl.active then
    to_int16 ⌊f32 (f32 (mbl.z_values (iy * 3) (ix * 3) * 1000) + 1 / 2)⌋
  else 0

/-- The loop `for (mesh_point = 0; mesh_point < 9; ++mesh_point)` of `uvlo_`,
from `mesh_point` on, with `n` iterations left. The mesh is not written in
the loop. -/
def uvlo_store_mesh : Nat → Nat → Machine → Machine
  | 0, _, s => s
  | n + 1, mesh_point, s =>
      uvlo_store_mesh n (mesh_point + 1)
        (eeprom_update_word (.EEPROM_UVLO_MESH_BED_LEVELING (2 * mesh_point))
          (uvlo_mesh_value s.mbl mesh_point) s)

/-- The function `uvlo_()`, with `TMC2130` defined (the function calls
`tmc2130_rd_MSCNT` outside of any `#ifdef` as well). The function ends in an
endless loop; the result is the state in which that loop is entered. The
beeper pin writes of that last part are left out. -/
def uvlo_ (s : Machine) : Machine :=
  let sd_print := s.card.sdprinting
  let s := emit .disable_x s
  let s := emit .disable_y s
  let s := emit .disable_e0 s
  let s := emit (.tmc2130_set_current_h Z_AXIS 20) s
  let s := emit (.tmc2130_set_current_r Z_AXIS 20) s
  let s := emit (.tmc2130_set_current_h E_AXIS 20) s
  let s := emit (.tmc2130_set_current_r E_AXIS 20) s
  let s := emit .tmc2130_rd_MSCNT s
  let z_microsteps : Nat := to_uint16 s.tmc2130_MSCNT_Z
  let sd_position := uvlo_sd_position s.sdpos_atomic s.block_buffer s.cmdbuffer
  let feedrate_bckp := uvlo_feedrate_bckp s.block_buffer s.feedrate
  let s := planner_abort_hard s
  let s := eeprom_update_float .EEPROM_UVLO_CURRENT_POSITION_E (st_get_position_mm s.st_position E_AXIS) s
  let s := eeprom_update_byte .EEPROM_UVLO_E_ABS (bif s.axis_relative_modes_E then 0 else 1) s
  let s := cmdqueue_reset s
  let s := { s with card := { s.card with sdprinting := false } }
  let s := emit .sei s
  let s := plan_buffer_line s.current_position.x s.current_position.y s.current_position.z
    (s.current_position.e - s.cfg.DEFAULT_RETRACTION) 95 s.active_extruder s
  let s := st_synchronize s
  let s := emit .disable_e0 s
  let s := plan_buffer_line s.current_position.x s.current_position.y
    (s.current_position.z + s.cfg.UVLO_Z_AXIS_SHIFT
      + (full_step_offset z_microsteps : ℚ) / s.cfg.axis_steps_per_unit_Z)
    (s.current_position.e - s.cfg.DEFAULT_RETRACTION) 40 s.active_extruder s
  let s := st_synchronize s
  let s := emit .disable_e0 s
  let s := plan_buffer_line s.current_position.x s.current_position.y
    (s.current_position.z + s.cfg.UVLO_Z_AXIS_SHIFT
      + (full_step_offset z_microsteps : ℚ) / s.cfg.axis_steps_per_unit_Z)
    (s.current_position.e - s.cfg.DEFAULT_RETRACTION) 40 s.active_extruder s
  let s := st_synchronize s
  let s := emit .disable_e0 s
  let s := emit .disable_z s
  let s := eeprom_update_dword .EEPROM_FILE_POSITION sd_position s
  let s := uvlo_store_mesh 9 0 s
  let s := eeprom_update_word .EEPROM_UVLO_Z_MICROSTEPS z_microsteps s
  let s := eeprom_update_float (.EEPROM_UVLO_CURRENT_POSITION 0) s.current_position.x s
  let s := eeprom_update_float (.EEPROM_UVLO_CURRENT_POSITION 4) s.current_position.y s
  let s := eeprom_update_float .EEPROM_UVLO_CURRENT_POSITION_Z s.current_position.z s
  let s := EEPROM_save_B .EEPROM_UVLO_FEEDRATE feedrate_bckp s
  let s := eeprom_update_byte .EEPROM_UVLO_TARGET_HOTEND (s.target_temperature s.active_extruder) s
  let s := eeprom_update_byte .EEPROM_UVLO_TARGET_BED s.target_temperature_bed s
  let s := eeprom_update_byte .EEPROM_UVLO_FAN_SPEED s.fanSpeed s
  let s := if sd_print then eeprom_update_byte .EEPROM_UVLO 1 s else s
  let s := st_synchronize s
  let s := emit .tmc2130_rd_MSCNT s
  let s := emit .disable_z s
  let s := eeprom_update_byte .EEPROM_POWER_COUNT
    ((eeprom_read_byte .EEPROM_POWER_COUNT s.eeprom : Int) + 1) s
  let s := eeprom_update_word .EEPROM_POWER_COUNT_TOT
    ((eeprom_read_word .EEPROM_POWER_COUNT_TOT s.eeprom : Int) + 1) s
  emit .cli s

/-- The handler `ISR(INT4_vect)` of the under-voltage interrupt. `EIMSK` is
an 8-bit register, so `EIMSK &= ~(1 << 4)` keeps its bits 0..3 and 5..7. -/
def INT4_vect (s : Machine) : Machine :=
  let s := { s with EIMSK := s.EIMSK &&& 0xEF }
  if IS_SD_PRINTING s.card then uvlo_ s else s

/-- The function `setup_uvlo_interrupt()`; the four registers are 8 bits
wide. -/
def setup_uvlo_interrupt (s : Machine) : Machine :=
  let s := { s with DDRE := s.DDRE &&& 0xEF }
  let s := { s with PORTE := s.PORTE &&& 0xEF }
  let s := { s with EICRB := (s.EICRB ||| 0x01) % 256 }
  let s := { s with EICRB := s.EICRB &&& 0xFD }
  { s with EIMSK := (s.EIMSK ||| 0x10) % 256 }

/-! ## RAM checkpoint -/

/-- The function `stop_and_save_print_to_ram(z_move, e_move)` (the branches
under `#if 0` left out). `saved_sdpos` is a `uint32_t`: the two subtractions
are done modulo `2^32`. -/
def stop_and_save_print_to_ram (z_move e_move : ℚ) (s : Machine) : Machine :=
  if s.saved_printing then s else
  let s := emit .cli s
  let s := { s with saved_sdpos := to_uint32 s.sdpos_atomic }
  let sdlen_planner : Nat := planner_calc_sd_length s.block_buffer
  let s := { s with saved_sdpos := to_uint32 ((s.saved_sdpos : Int) - sdlen_planner) }
  let sdlen_cmdqueue : Nat := cmdqueue_calc_sd_length s.cmdbuffer
  let s := { s with saved_sdpos := to_uint32 ((s.saved_sdpos : Int) - sdlen_cmdqueue) }
  let s := { s with saved_feedrate2 := feedrate_of_planner s.block_buffer s.feedrate }
  let s := planner_abort_hard s
  let s := { s with saved_pos := s.current_position }
  let s := { s with saved_active_extruder := s.active_extruder }
  let s := { s with saved_extruder_under_pressure := s.extruder_under_pressure }
  let s := cmdqueue_reset s
  let s := { s with card := { s.card with sdprinting := false } }
  let s := { s with saved_printing := true }
  let s := emit .st_reset_timer s
  let s := emit .sei s
  if z_move ≠ 0 ∨ e_move ≠ 0 then
    let buf : List Tok :=
      [.lit "G1 Z", .dtostrf (s.saved_pos.z + z_move) 8 3,
       .lit " E", .dtostrf e_move 6 3,
       .lit " F", .dtostrf s.cfg.homing_feedrate_Z 8 3]
    let s := enquecommand buf s
    repeatcommand_front s
  else s

/-- The function `restore_print_from_ram_and_continue(e_move)`. -/
def restore_print_from_ram_and_continue (e_move : ℚ) (s : Machine) : Machine :=
  if !s.saved_printing then s else
  let s := { s with active_extruder := s.saved_active_extruder }
  let s := { s with feedrate := s.saved_feedrate2 }
  let e := s.saved_pos.e - e_move
  let s := plan_set_e_position e s
  let s := plan_buffer_line s.saved_pos.x s.saved_pos.y s.saved_pos.z s.saved_pos.e
    (s.cfg.homing_feedrate_Z / 13) s.active_extruder s
  let s := st_synchronize s
  let s := { s with current_position := s.saved_pos }
  let s := { s with destination := s.current_position }
  let s := card_setIndex s.saved_sdpos s
  let s := { s with sdpos_atomic := s.saved_sdpos }
  let s := { s with card := { s.card with sdprinting := true } }
  { s with saved_printing := false }

/-- The function `crashdet_stop_and_save_print()`. -/
def crashdet_stop_and_save_print (s : Machine) : Machine :=
  stop_and_save_print_to_ram 10 0 s

/-- The function `crashdet_restore_print_and_continue()`. -/
def crashdet_restore_print_and_continue (s : Machine) : Machine :=
  restore_print_from_ram_and_continue 0 s

/-! ## Replay of the power-loss checkpoint -/

/-- The C string held in a `char` buffer filled from the EEPROM cells
`base 0 .. base (n-1)` and terminated after them: the characters up to the
first zero byte. -/
def eeprom_read_cstring (base : Nat → EepromCell) (n : Nat) (m : Eeprom) : String :=
  String.mk ((((List.range n).map fun j => eeprom_read_byte (base j) m).takeWhile
    (fun b => b != 0)).map Char.ofNat)

/-- The loop `for (int i = 0; i < depth; i++)` of `restore_print_from_eeprom`
from `i` on, with `n` iterations left: reads the 8 characters of the directory
name `i` and enters the directory. -/
def restore_chdir (n i : Nat) (s : Machine) : Machine :=
  match n with
  | 0 => s
  | n + 1 =>
      restore_chdir n (i + 1)
        (emit (.card_chdir (eeprom_read_cstring (fun j => .EEPROM_DIRS (j + 8 * i)) 8 s.eeprom)) s)

/-- The function `restore_print_from_eeprom()`. -/
def restore_print_from_eeprom (s : Machine) : Machine :=
  let fan_speed_rec : Nat := eeprom_read_byte .EEPROM_UVLO_FAN_SPEED s.eeprom
  let feedrate_rec : Int := EEPROM_read_B .EEPROM_UVLO_FEEDRATE s.eeprom
  let depth : Nat := eeprom_read_byte .EEPROM_DIR_DEPTH s.eeprom
  let s := restore_chdir depth 0 s
  let filename : String := eeprom_read_cstring (fun i => .EEPROM_FILENAME i) 8 s.eeprom
  let filename := filename ++ ".gco"
  let s := enquecommand [.lit "M23 ", .str (filename.map Char.toLower)] s
  let position : Nat := eeprom_read_dword .EEPROM_FILE_POSITION s.eeprom
  let s := enquecommand [.lit "M83"] s
  let s := enquecommand
    [.lit "G1 X", .ftostr32 (eeprom_read_float (.EEPROM_UVLO_CURRENT_POSITION 0) s.eeprom),
     .lit " Y", .ftostr32 (eeprom_read_float (.EEPROM_UVLO_CURRENT_POSITION 4) s.eeprom),
     .lit " F2000"] s
  let s := enquecommand
    [.lit "G1 Z", .ftostr32 (eeprom_read_float .EEPROM_UVLO_CURRENT_POSITION_Z s.eeprom)] s
  let s := enquecommand [.lit "G1 E", .STRINGIFY "2*DEFAULT_RETRACTION", .lit " F480"] s
  let s := enquecommand [.lit "G1 F", .d feedrate_rec] s
  let s := if eeprom_read_byte .EEPROM_UVLO_E_ABS s.eeprom ≠ 0 then enquecommand [.lit "M82"] s else s
  let s := enquecommand [.lit "M106 S", .itostr3 fan_speed_rec] s
  let s := enquecommand [.lit "M26 S", .lu position] s
  enquecommand [.lit "M24"] s

/-- Modelled from the spec: `plan_set_position(x, y, z, e)` of the planner
(planner.cpp): declares the current logical position to be the given one
without moving ("set the physical positions from the logical positions"). -/
@[simps]
def plan_set_position (x y z e : ℚ) (s : Machine) : Machine :=
  { s with plan_position := { x := x, y := y, z := z, e := e }
           st_position := { x := x, y := y, z := z, e := e }
           log := s.log ++ [.plan_set_position x y z e] }

/-- The call `mbl.upsample_3x3()`. -/
@[simps]
def mbl_upsample_3x3 (s : Machine) : Machine :=
  { s with mbl := { s.mbl with z_values := s.mbl.upsample_3x3 s.mbl.z_values }
           log := s.log ++ [.upsample_3x3] }

/-- The loop `for (mesh_point = 0; mesh_point < 9; ++mesh_point)` of
`recover_machine_state_after_power_panic`, from `mesh_point` on, with `n`
iterations left, on the object `mbl`: `v` is the `int16_t` read from the two
bytes at `EEPROM_UVLO_MESH_BED_LEVELING + 2*mesh_point`; a non-zero `v` sets
`mbl.active`; `mbl.z_values[iy][ix] = float(v) * 0.001f`. The conversion
`float(v)` of an `int16_t` is exact; the constant `0.001f` is the `float`
nearest to 1/1000, `f32 (1 / 1000)`, and the product is rounded by `f32`. -/
def recover_mesh (m : Eeprom) : Nat → Nat → mesh_bed_leveling → mesh_bed_leveling
  | 0, _, mbl => mbl
  | n + 1, mesh_point, mbl =>
      let ix := mesh_point % MESH_MEAS_NUM_X_POINTS
      let iy := mesh_point / MESH_MEAS_NUM_X_POINTS
      let v : Int := to_int16 (eeprom_read_word (.EEPROM_UVLO_MESH_BED_LEVELING (2 * mesh_point)) m)
      let mbl := { mbl with active := if v ≠ 0 then true else mbl.active }
      let mbl := { mbl with
        z_values := fun i j =>
          if i = iy ∧ j = ix then f32 ((v : ℚ) * f32 (1 / 1000)) else mbl.z_values i j }
      recover_mesh m n (mesh_point + 1) mbl

/-- The function `recover_machine_state_after_power_panic()`. The call
`world2machine_initialize()`, `babystep_load()` and the `enable_x/y/z` macros
act on state that is not represented; they are recorded in the log. -/
def recover_machine_state_after_power_panic (s : Machine) : Machine :=
  let s := { s with current_position :=
    { s.current_position with x := eeprom_read_float (.EEPROM_UVLO_CURRENT_POSITION 0) s.eeprom } }
  let s := { s with current_position :=
    { s.current_position with y := eeprom_read_float (.EEPROM_UVLO_CURRENT_POSITION 4) s.eeprom } }
  let s := { s with current_position :=
    { s.current_position with
      z := eeprom_read_float .EEPROM_UVLO_CURRENT_POSITION_Z s.eeprom + s.cfg.UVLO_Z_AXIS_SHIFT
        + (full_step_offset (eeprom_read_word .EEPROM_UVLO_Z_MICROSTEPS s.eeprom) : ℚ)
            / s.cfg.axis_steps_per_unit_Z } }
  let s :=
    if eeprom_read_byte .EEPROM_UVLO_E_ABS s.eeprom ≠ 0 then
      let s := { s with current_position :=
        { s.current_position with e := eeprom_read_float .EEPROM_UVLO_CURRENT_POSITION_E s.eeprom } }
      enquecommand [.lit "G92 E", .dtostrf s.current_position.e 6 3] s
    else s
  let s := { s with destination := s.current_position }
  let s := emit Event.world2machine_initialize s
  let s := { s with mbl := { s.mbl with active := false } }
  let s := { s with mbl := recover_mesh s.eeprom 9 0 s.mbl }
  let s := if s.mbl.active then mbl_upsample_3x3 s else s
  let s := emit .babystep_load s
  let s := plan_set_position s.current_position.x s.current_position.y s.current_position.z
    s.current_position.e s
  let s := { s with axis_known_position := Function.update s.axis_known_position X_AXIS true }
  let s := emit .enable_x s
  let s := { s with axis_known_position := Function.update s.axis_known_position Y_AXIS true }
  let s := emit .enable_y s
  let s := { s with axis_known_position := Function.update s.axis_known_position Z_AXIS true }
  let s := emit .enable_z s
  let target_hotend : Int := eeprom_read_byte .EEPROM_UVLO_TARGET_HOTEND s.eeprom
  let s := { s with target_temperature :=
    (Function.update s.target_temperature s.active_extruder target_hotend) }
  { s with target_temperature_bed := (eeprom_read_byte .EEPROM_UVLO_TARGET_BED s.eeprom : Int) }

/-- The function `recover_print(automatic)`; the calls that redraw the LCD are
left out. -/
def recover_print (automatic : Nat) (s : Machine) : Machine :=
  let s := recover_machine_state_after_power_panic s
  let s := enquecommand [.lit "M104 S", .d (s.target_temperature s.active_extruder)] s
  let s := enquecommand [.lit "M140 S", .d s.target_temperature_bed] s
  let s := if s.current_position.z < 25 then enquecommand [.lit "G1 Z25 F800"] s else s
  let s := enquecommand [.lit "G28 X Y"] s
  let s := enquecommand [.lit "M109 S", .d (s.target_temperature s.active_extruder)] s
  let s := enquecommand [.lit "M190 S", .d s.target_temperature_bed] s
  let s := enquecommand [.lit "M83"] s
  let s := if automatic = 0 then enquecommand [.lit "G1 E5 F120"] s else s
  let s := enquecommand [.lit "G1 E", .STRINGIFY "-DEFAULT_RETRACTION", .lit " F480"] s
  let s := eeprom_update_byte .EEPROM_UVLO 0 s
  restore_print_from_eeprom s

/-- The part of `setup()` under `#ifdef UVLO_SUPPORT` that looks at the
pending flag. `operator_yes` is the answer
`lcd_show_fullscreen_message_yes_no_and_wait_P(MSG_RECOVER_PRINT, false)`
returns if the operator is asked; the other LCD calls are left out. -/
def setup_uvlo (operator_yes : Bool) (s : Machine) : Machine :=
  if eeprom_read_byte .EEPROM_UVLO s.eeprom = 1 then
    let s := emit .manage_heater s
    if s.current_temperature_bed
        > (eeprom_read_byte .EEPROM_UVLO_TARGET_BED s.eeprom : ℚ)
            - s.cfg.AUTOMATIC_UVLO_BED_TEMP_OFFSET then
      recover_print 1 s
    else
      let s := emit .lcd_show_fullscreen_message_yes_no_and_wait_P s
      if operator_yes then recover_print 0 s
      else eeprom_update_byte .EEPROM_UVLO 0 s
  else s

/-! ## Release of a processed command in `loop()` -/

/-- Modelled from the spec: `planner_add_sd_length(sdlen)` of the planner
(planner.cpp), which `loop()` calls to "pass [the length] to the planner queue".
§4.1 takes the planner's share of the unexecuted bytes as "Σ(sdlen of queued
blocks)": the length is added to the `sdlen` of the block most recently queued.
The call queues no motion block, so with no block queued the planner queue
stays empty. -/
def planner_add_sd_length (sdlen : Nat) : List block_t → List block_t
  | [] => []
  | [b] => [{ b with sdlen := b.sdlen + sdlen }]
  | b :: b2 :: bs => b :: planner_add_sd_length sdlen (b2 :: bs)

/-- Modelled from the spec: `cmdqueue_pop_front()` of the command queue
(cmdqueue.cpp): releases the entry at the front of the queue. -/
@[simps]
def cmdqueue_pop_front (s : Machine) : Machine :=
  { s with cmdbuffer := s.cmdbuffer.tail }

/-- The block of `loop()` between `cli()` and `sei()`, entered when the entry
`c` at the front of the queue (followed by `rest`) is of type
`CMDBUFFER_CURRENT_TYPE_SDCARD`: the type byte is overwritten with
`CMDBUFFER_CURRENT_TYPE_TO_BE_REMOVED`, the two header bytes are read as the
16-bit value `sdlen.value` and passed to `planner_add_sd_length`. -/
def loop_move_sd_length (c : CmdEntry) (rest : List CmdEntry) (s : Machine) : Machine :=
  let s := emit .cli s
  let s := { s with cmdbuffer := { c with type := .TO_BE_REMOVED } :: rest }
  let s := { s with block_buffer := planner_add_sd_length (c.lo + 256 * c.hi) s.block_buffer }
  emit .sei s

/-- The statement `if (! cmdbuffer_front_already_processed && buflen) { ... }`
of `loop()`, which runs after `process_commands()` has processed the entry at
the front of the queue. -/
def loop_release_front (s : Machine) : Machine :=
  match s.cmdbuffer_front_already_processed, s.cmdbuffer with
  | false, c :: rest =>
      cmdqueue_pop_front (if c.type = .SDCARD then loop_move_sd_length c rest s else s)
  | _, _ => s

/-! ## A concrete machine -/

/-- A machine at rest: empty queues, nothing saved, EEPROM cleared. The
concrete inputs below are variations of it. -/
def Machine.idle : Machine where
  cfg := { DEFAULT_RETRACTION := 1, UVLO_Z_AXIS_SHIFT := 2,
           homing_feedrate_Z := 800, axis_steps_per_unit_Z := 400,
           AUTOMATIC_UVLO_BED_TEMP_OFFSET := 5 }
  sdpos_atomic := 0
  block_buffer := []
  plan_position := { x := 0, y := 0, z := 0, e := 0 }
  st_position := { x := 0, y := 0, z := 0, e := 0 }
  cmdbuffer := []
  cmdbuffer_front_already_processed := false
  card := { sdprinting := false, sdpos := 0 }
  current_position := { x := 0, y := 0, z := 0, e := 0 }
  destination := { x := 0, y := 0, z := 0, e := 0 }
  feedrate := 1500
  active_extruder := 0
  extruder_under_pressure := false
  axis_relative_modes_E := false
  axis_known_position := fun _ => false
  target_temperature := fun _ => 0
  target_temperature_bed := 0
  current_temperature_bed := 25
  fanSpeed := 0
  mbl := { active := false, z_values := fun _ _ => 0, upsample_3x3 := fun z => z }
  tmc2130_MSCNT_Z := 0
  saved_printing := false
  saved_sdpos := 0
  saved_pos := { x := 0, y := 0, z := 0, e := 0 }
  saved_feedrate2 := 0
  saved_active_extruder := 0
  saved_extruder_under_pressure := false
  EIMSK := 0
  EICRB := 0
  DDRE := 0
  PORTE := 0
  eeprom := { raw := fun _ => 0, flt := fun _ => 0 }
  log := []

/-- An SD-sourced entry of the command queue that accounts for `len` bytes of
the file. -/
def sd_command (len : Nat) : CmdEntry :=
  { type := .SDCARD, lo := len % 256, hi := len / 256 % 256, text := [] }

/-- An SD print in progress: the file has been read up to `sdpos`, the
planner holds one block per entry of `blocks` (SD lengths) and the command
queue one SD command per entry of `cmds`. -/
def Machine.printing (sdpos : Nat) (blocks cmds : List Nat) : Machine :=
  { Machine.idle with
    sdpos_atomic := sdpos
    block_buffer := blocks.map fun n => { nominal_speed := 30, sdlen := n }
    cmdbuffer := cmds.map sd_command
    card := { sdprinting := true, sdpos := sdpos }
    EIMSK := 0x10 }

/-! ## Notions used in the statements -/

/-- The calls a routine `f` makes when started in state `s`: what it appends
to the log. -/
def events_of (f : Machine → Machine) (s : Machine) : List Event :=
  (f s).log.drop s.log.length

/-- The cells of the power-loss record of §6 other than the pending flag, as
the spec lists them: file position, nine mesh samples, Z micro-step phase,
logical X, Y, Z, extruder position, absolute-mode byte, feedrate, hotend and
bed targets, fan speed. -/
def spec_checkpoint_cells : List EepromCell :=
  [.EEPROM_FILE_POSITION,
   .EEPROM_UVLO_MESH_BED_LEVELING 0, .EEPROM_UVLO_MESH_BED_LEVELING 2,
   .EEPROM_UVLO_MESH_BED_LEVELING 4, .EEPROM_UVLO_MESH_BED_LEVELING 6,
   .EEPROM_UVLO_MESH_BED_LEVELING 8, .EEPROM_UVLO_MESH_BED_LEVELING 10,
   .EEPROM_UVLO_MESH_BED_LEVELING 12, .EEPROM_UVLO_MESH_BED_LEVELING 14,
   .EEPROM_UVLO_MESH_BED_LEVELING 16,
   .EEPROM_UVLO_Z_MICROSTEPS,
   .EEPROM_UVLO_CURRENT_POSITION 0, .EEPROM_UVLO_CURRENT_POSITION 4,
   .EEPROM_UVLO_CURRENT_POSITION_Z, .EEPROM_UVLO_CURRENT_POSITION_E,
   .EEPROM_UVLO_E_ABS, .EEPROM_UVLO_FEEDRATE,
   .EEPROM_UVLO_TARGET_HOTEND, .EEPROM_UVLO_TARGET_BED, .EEPROM_UVLO_FAN_SPEED]

/-- The writes of the checkpoint fields that `uvlo_` performs before it
turns to the pending flag, in program order (`uvlo_eeprom_writes` proves
it). -/
def uvlo_record_writes (s : Machine) : List EepromWrite :=
  [.flt .EEPROM_UVLO_CURRENT_POSITION_E (st_get_position_mm s.st_position E_AXIS),
   .raw .EEPROM_UVLO_E_ABS (to_uint8 (bif s.axis_relative_modes_E then 0 else 1)),
   .raw .EEPROM_FILE_POSITION
     (to_uint32 (uvlo_sd_position s.sdpos_atomic s.block_buffer s.cmdbuffer)),
   .raw (.EEPROM_UVLO_MESH_BED_LEVELING 0) (to_uint16 (uvlo_mesh_value s.mbl 0)),
   .raw (.EEPROM_UVLO_MESH_BED_LEVELING 2) (to_uint16 (uvlo_mesh_value s.mbl 1)),
   .raw (.EEPROM_UVLO_MESH_BED_LEVELING 4) (to_uint16 (uvlo_mesh_value s.mbl 2)),
   .raw (.EEPROM_UVLO_MESH_BED_LEVELING 6) (to_uint16 (uvlo_mesh_value s.mbl 3)),
   .raw (.EEPROM_UVLO_MESH_BED_LEVELING 8) (to_uint16 (uvlo_mesh_value s.mbl 4)),
   .raw (.EEPROM_UVLO_MESH_BED_LEVELING 10) (to_uint16 (uvlo_mesh_value s.mbl 5)),
   .raw (.EEPROM_UVLO_MESH_BED_LEVELING 12) (to_uint16 (uvlo_mesh_value s.mbl 6)),
   .raw (.EEPROM_UVLO_MESH_BED_LEVELING 14) (to_uint16 (uvlo_mesh_value s.mbl 7)),
   .raw (.EEPROM_UVLO_MESH_BED_LEVELING 16) (to_uint16 (uvlo_mesh_value s.mbl 8)),
   .raw .EEPROM_UVLO_Z_MICROSTEPS (to_uint16 (to_uint16 s.tmc2130_MSCNT_Z)),
   .flt (.EEPROM_UVLO_CURRENT_POSITION 0) s.st_position.x,
   .flt (.EEPROM_UVLO_CURRENT_POSITION 4) s.st_position.y,
   .flt .EEPROM_UVLO_CURRENT_POSITION_Z s.st_position.z,
   .raw .EEPROM_UVLO_FEEDRATE (to_uint16 (uvlo_feedrate_bckp s.block_buffer s.feedrate)),
   .raw .EEPROM_UVLO_TARGET_HOTEND (to_uint8 (s.target_temperature s.active_extruder)),
   .raw .EEPROM_UVLO_TARGET_BED (to_uint8 s.target_temperature_bed),
   .raw .EEPROM_UVLO_FAN_SPEED (to_uint8 s.fanSpeed)]

/-- The writes of the two power-failure counters at the end of `uvlo_`. -/
def uvlo_counter_writes (s : Machine) : List EepromWrite :=
  [.raw .EEPROM_POWER_COUNT
      (to_uint8 ((eeprom_read_byte .EEPROM_POWER_COUNT s.eeprom : Int) + 1)),
   .raw .EEPROM_POWER_COUNT_TOT
      (to_uint16 ((eeprom_read_word .EEPROM_POWER_COUNT_TOT s.eeprom : Int) + 1))]

/-- A command put in the queue by the firmware itself. -/
def ui_command (text : List Tok) : CmdEntry :=
  { type := .UI, lo := 0, hi := 0, text := text }

/-- The test `eeprom_read_byte((uint8_t*)EEPROM_UVLO) == 1` of `setup()`: the
previous print was terminated by the under-voltage handler, a recovery is
started at boot. -/
def setup_uvlo_pending (m : Eeprom) : Bool := eeprom_read_byte .EEPROM_UVLO m == 1

/-- An under-voltage edge on INT4: the handler runs when the interrupt is
enabled in `EIMSK` (bit 4), otherwise nothing happens. The result is the new
state and whether the handler ran. -/
def int4_edge (s : Machine) : Machine × Bool :=
  if s.EIMSK.testBit 4 then (INT4_vect s, true) else (s, false)

/-- The machine after `n` under-voltage edges, with the number of times the
handler ran. -/
def int4_edges : Nat → Machine → Machine × Nat
  | 0, s => (s, 0)
  | n + 1, s =>
      let r := int4_edge s
      let rest := int4_edges n r.1
      (rest.1, (if r.2 then 1 else 0) + rest.2)

/-- A print in progress over a leveled bed, every mesh height being `z` mm. -/
def Machine.leveled (z : ℚ) : Machine :=
  { Machine.printing 1000 [] [] with
    mbl := { active := true, z_values := fun _ _ => z, upsample_3x3 := fun t => t } }

/-- What the main loop can change while it executes the lift command
`G1 Z.. E.. F..` that `stop_and_save_print_to_ram` left in the queue: the motion
variables, the planner and stepper state, the command queue and the log. The
`G1` handler (`get_coordinates`, `prepare_move`) and the removal of the command
do not write the RAM checkpoint, the file offsets, `card`, `active_extruder`
or the configuration; `lift_move_ran s t` says `t` agrees with `s` on those. -/
def lift_move_ran (s t : Machine) : Prop :=
  t.saved_printing = s.saved_printing ∧ t.saved_sdpos = s.saved_sdpos
  ∧ t.saved_pos = s.saved_pos ∧ t.saved_feedrate2 = s.saved_feedrate2
  ∧ t.saved_active_extruder = s.saved_active_extruder
  ∧ t.sdpos_atomic = s.sdpos_atomic ∧ t.card = s.card
  ∧ t.active_extruder = s.active_extruder ∧ t.cfg = s.cfg

instance (s t : Machine) : Decidable (lift_move_ran s t) := by
  unfold lift_move_ran; infer_instance

/-- The state after the lift command of `crashdet_stop_and_save_print` has
been executed from state `s`: the head is 10 mm higher, the queues are empty
again and the feedrate is that of the command. -/
def lift_executed (s : Machine) : Machine :=
  { s with
    cmdbuffer := []
    cmdbuffer_front_already_processed := false
    current_position := { s.saved_pos with z := s.saved_pos.z + 10 }
    destination := { s.saved_pos with z := s.saved_pos.z + 10 }
    plan_position := { s.saved_pos with z := s.saved_pos.z + 10 }
    st_position := { s.saved_pos with z := s.saved_pos.z + 10 }
    feedrate := s.cfg.homing_feedrate_Z
    log := s.log ++ [.plan_buffer_line s.saved_pos.x s.saved_pos.y (s.saved_pos.z + 10)
                      s.saved_pos.e (s.cfg.homing_feedrate_Z / 60) s.active_extruder] }

/-- The commands `restore_print_from_eeprom` puts in the queue, in order, as
a function of the EEPROM content (`restore_print_from_eeprom_cmdbuffer` proves
it). -/
def restore_commands (m : Eeprom) : List (List Tok) :=
  [[.lit "M23 ",
      .str ((eeprom_read_cstring (fun i => .EEPROM_FILENAME i) 8 m ++ ".gco").map Char.toLower)],
   [.lit "M83"],
   [.lit "G1 X", .ftostr32 (eeprom_read_float (.EEPROM_UVLO_CURRENT_POSITION 0) m),
    .lit " Y", .ftostr32 (eeprom_read_float (.EEPROM_UVLO_CURRENT_POSITION 4) m),
    .lit " F2000"],
   [.lit "G1 Z", .ftostr32 (eeprom_read_float .EEPROM_UVLO_CURRENT_POSITION_Z m)],
   [.lit "G1 E", .STRINGIFY "2*DEFAULT_RETRACTION", .lit " F480"],
   [.lit "G1 F", .d (EEPROM_read_B .EEPROM_UVLO_FEEDRATE m)]]
  ++ (if eeprom_read_byte .EEPROM_UVLO_E_ABS m ≠ 0 then [[.lit "M82"]] else [])
  ++ [[.lit "M106 S", .itostr3 (eeprom_read_byte .EEPROM_UVLO_FAN_SPEED m)],
      [.lit "M26 S", .lu (eeprom_read_dword .EEPROM_FILE_POSITION m)],
      [.lit "M24"]]

/-- The calls `card.chdir(dir_name)` of the directory loop of
`restore_print_from_eeprom`, from directory `i` on, `n` directories left. -/
def restore_chdir_events (m : Eeprom) : Nat → Nat → List Event
  | 0, _ => []
  | n + 1, i =>
      .card_chdir (eeprom_read_cstring (fun j => .EEPROM_DIRS (j + 8 * i)) 8 m)
        :: restore_chdir_events m n (i + 1)

/-- The mesh object after the loop of
`recover_machine_state_after_power_panic`, before the conditional call of
`upsample_3x3`. -/
def recovered_mesh (s : Machine) : mesh_bed_leveling :=
  recover_mesh s.eeprom 9 0 { s.mbl with active := false }

/-- The command `recover_machine_state_after_power_panic` puts in the queue
when the extruder was in absolute mode. -/
def recover_state_commands (m : Eeprom) : List (List Tok) :=
  if eeprom_read_byte .EEPROM_UVLO_E_ABS m ≠ 0 then
    [[.lit "G92 E", .dtostrf (eeprom_read_float .EEPROM_UVLO_CURRENT_POSITION_E m) 6 3]]
  else []

/-- The logical Z that `recover_machine_state_after_power_panic` computes. -/
def recovered_z (cfg : Config) (m : Eeprom) : ℚ :=
  eeprom_read_float .EEPROM_UVLO_CURRENT_POSITION_Z m + cfg.UVLO_Z_AXIS_SHIFT
    + (full_step_offset (eeprom_read_word .EEPROM_UVLO_Z_MICROSTEPS m) : ℚ)
        / cfg.axis_steps_per_unit_Z

/-- The extruder coordinate after `recover_machine_state_after_power_panic`. -/
def recovered_e (s : Machine) : ℚ :=
  if eeprom_read_byte .EEPROM_UVLO_E_ABS s.eeprom ≠ 0 then
    eeprom_read_float .EEPROM_UVLO_CURRENT_POSITION_E s.eeprom
  else s.current_position.e

/-- The calls `recover_machine_state_after_power_panic` makes, in order
(`recover_machine_state_log` proves it). -/
def recover_state_events (s : Machine) : List Event :=
  (recover_state_commands s.eeprom).map Event.enquecommand
  ++ [ Event.world2machine_initialize]
  ++ (if (recovered_mesh s).active then [Event.upsample_3x3] else [])
  ++ [.babystep_load,
      .plan_set_position (eeprom_read_float (.EEPROM_UVLO_CURRENT_POSITION 0) s.eeprom)
        (eeprom_read_float (.EEPROM_UVLO_CURRENT_POSITION 4) s.eeprom)
        (recovered_z s.cfg s.eeprom) (recovered_e s),
      .enable_x, .enable_y, .enable_z]

/-- The commands `recover_print(automatic)` itself puts in the queue before
it clears the pending flag, in order. -/
def recover_print_head_commands (automatic : Nat) (s : Machine) : List (List Tok) :=
  [[.lit "M104 S", .d (eeprom_read_byte .EEPROM_UVLO_TARGET_HOTEND s.eeprom)],
   [.lit "M140 S", .d (eeprom_read_byte .EEPROM_UVLO_TARGET_BED s.eeprom)]]
  ++ (if recovered_z s.cfg s.eeprom < 25 then [[.lit "G1 Z25 F800"]] else [])
  ++ [[.lit "G28 X Y"],
      [.lit "M109 S", .d (eeprom_read_byte .EEPROM_UVLO_TARGET_HOTEND s.eeprom)],
      [.lit "M190 S", .d (eeprom_read_byte .EEPROM_UVLO_TARGET_BED s.eeprom)],
      [.lit "M83"]]
  ++ (if automatic = 0 then [[.lit "G1 E5 F120"]] else [])
  ++ [[.lit "G1 E", .STRINGIFY "-DEFAULT_RETRACTION", .lit " F480"]]

/-- The whole command sequence of `recover_print(automatic)`: the command of
`recover_machine_state_after_power_panic`, its own commands, the commands of
`restore_print_from_eeprom` (`recover_print_cmdbuffer` proves it). -/
def recover_print_commands (automatic : Nat) (s : Machine) : List (List Tok) :=
  recover_state_commands s.eeprom ++ recover_print_head_commands automatic s
    ++ restore_commands s.eeprom

/-- The `int16_t` that `recover_machine_state_after_power_panic` reads back for
mesh point `p`: the two bytes at `EEPROM_UVLO_MESH_BED_LEVELING + 2*p`. -/
def mesh_sample (m : Eeprom) (p : Nat) : Int :=
  to_int16 (eeprom_read_word (.EEPROM_UVLO_MESH_BED_LEVELING (2 * p)) m)

/-- A machine at boot whose EEPROM holds a pending power-loss record: the flag
`EEPROM_UVLO` is 1, the Z micro-step phase is `p`, every other cell is zero (a
print at the origin with relative extruder mode, no leveling, heaters and fan
off, file position 0). -/
def Machine.pending (p : Nat) : Machine :=
  { Machine.idle with
    eeprom :=
      { raw := fun c =>
          if c = .EEPROM_UVLO then 1 else if c = .EEPROM_UVLO_Z_MICROSTEPS then p else 0
        flt := fun _ => 0 } }

/-- A machine at boot with the EEPROM that `uvlo_` left when run in state `s`. -/
def Machine.rebooted (s : Machine) : Machine :=
  { Machine.idle with eeprom := (uvlo_ s).eeprom }

/-- The commands a routine `f` puts in the queue when started in state `s`:
the text of the entries it appends to `cmdbuffer`. -/
def commands_of (f : Machine → Machine) (s : Machine) : List (List Tok) :=
  ((f s).cmdbuffer.drop s.cmdbuffer.length).map CmdEntry.text

/-- The literal text a command starts with: its G-code word, with the letter
of the first formatted argument when there is one. Empty when the command does
not start with literal text. -/
def command_head : List Tok → String
  | .lit l :: _ => l
  | _ => ""

/-- A homing command: its text starts with the G-code word `G28`. -/
def homing_command (cmd : List Tok) : Bool :=
  (command_head cmd).data.take 3 == ['G', '2', '8']

/-- The calls `recover_print(automatic)` makes, in order: those of
`recover_machine_state_after_power_panic`, its own commands, the write of 0 to
`EEPROM_UVLO`, then the calls of `restore_print_from_eeprom`
(`recover_print_events_eq` proves it). -/
def recover_print_events (automatic : Nat) (s : Machine) : List Event :=
  recover_state_events s
    ++ (recover_print_head_commands automatic s).map Event.enquecommand
    ++ [.eeprom (.raw .EEPROM_UVLO 0)]
    ++ restore_chdir_events s.eeprom (eeprom_read_byte .EEPROM_DIR_DEPTH s.eeprom) 0
    ++ (restore_commands s.eeprom).map Event.enquecommand

/-- The test of `setup()` that starts the recovery without asking: the bed is
warmer than the saved bed target minus `AUTOMATIC_UVLO_BED_TEMP_OFFSET`. -/
def bed_still_warm (s : Machine) : Prop :=
  s.current_temperature_bed
    > (eeprom_read_byte .EEPROM_UVLO_TARGET_BED s.eeprom : ℚ) - s.cfg.AUTOMATIC_UVLO_BED_TEMP_OFFSET

instance (s : Machine) : Decidable (bed_still_warm s) := by
  unfold bed_still_warm; infer_instance

/-- A call of the planner that queues a move. -/
def Event.is_plan_buffer_line : Event → Bool
  | .plan_buffer_line _ _ _ _ _ _ => true
  | _ => false

/-- A print in progress with the hotend target at 215 and the bed target at
60 degrees. -/
def Machine.heated : Machine :=
  { Machine.printing 1000 [] [] with
    target_temperature := fun _ => 215
    target_temperature_bed := 60 }

/-- The file bytes the planner accounts for: the sum of `sdlen` over the
queued blocks (`planner_calc_sd_length` is this sum as a `uint16_t`). -/
def planner_sd_sum (block_buffer : List block_t) : Nat :=
  (block_buffer.map block_t.sdlen).sum

/-- The file bytes the command queue accounts for: the sum of the SD lengths
of its entries (`cmdqueue_calc_sd_length` is this sum as a `uint16_t`). -/
def cmdqueue_sd_sum (cmdbuffer : List CmdEntry) : Nat :=
  (cmdbuffer.map CmdEntry.sdlen).sum

/-- The resume offset `stop_and_save_print_to_ram` computes into `saved_sdpos`
from the file offset and the two queues. -/
def ram_sd_position (sdpos_atomic : Nat) (block_buffer : List block_t)
    (cmdbuffer : List CmdEntry) : Nat :=
  to_uint32 ((to_uint32 ((to_uint32 sdpos_atomic : Nat)
      - (planner_calc_sd_length block_buffer : Int)) : Nat)
    - (cmdqueue_calc_sd_length cmdbuffer : Int))

/-- A call of one of the two routines of the RAM checkpoint. -/
inductive RamCall where
  | stop_and_save (z_move e_move : ℚ)
  | restore (e_move : ℚ)

/-- The effect of a call of the RAM checkpoint. -/
def RamCall.run : RamCall → Machine → Machine
  | .stop_and_save z_move e_move, s => stop_and_save_print_to_ram z_move e_move s
  | .restore e_move, s => restore_print_from_ram_and_continue e_move s

/-- The state after a sequence of calls of the RAM checkpoint, first call
first. -/
def run_ram_calls : List RamCall → Machine → Machine
  | [], s => s
  | c :: cs, s => run_ram_calls cs (c.run s)

/-! ## The statements of the interrupt handler, one by one -/

/-- The iterations of the loop of `uvlo_` that stores the mesh, from
`mesh_point` on, `n` iterations left, each as a state transformer. -/
def uvlo_mesh_statements : Nat → Nat → List (Machine → Machine)
  | 0, _ => []
  | n + 1, mesh_point =>
      (fun s => eeprom_update_word (.EEPROM_UVLO_MESH_BED_LEVELING (2 * mesh_point))
        (uvlo_mesh_value s.mbl mesh_point) s) :: uvlo_mesh_statements n (mesh_point + 1)

/-- The statements of `uvlo_()` in program order, each as a state
transformer, for a call entered in state `s0`: the locals `sd_print`,
`z_microsteps`, `sd_position` and `feedrate_bckp` are the values computed from
`s0`. `uvlo_eq_run_statements` proves that running them in order is `uvlo_`. -/
def uvlo_statements (s0 : Machine) : List (Machine → Machine) :=
  [emit .disable_x, emit .disable_y, emit .disable_e0,
   emit (.tmc2130_set_current_h Z_AXIS 20), emit (.tmc2130_set_current_r Z_AXIS 20),
   emit (.tmc2130_set_current_h E_AXIS 20), emit (.tmc2130_set_current_r E_AXIS 20),
   emit .tmc2130_rd_MSCNT,
   planner_abort_hard,
   fun s => eeprom_update_float .EEPROM_UVLO_CURRENT_POSITION_E
     (st_get_position_mm s.st_position E_AXIS) s,
   fun s => eeprom_update_byte .EEPROM_UVLO_E_ABS (bif s.axis_relative_modes_E then 0 else 1) s,
   cmdqueue_reset,
   fun s => { s with card := { s.card with sdprinting := false } },
   emit .sei,
   fun s => plan_buffer_line s.current_position.x s.current_position.y s.current_position.z
     (s.current_position.e - s.cfg.DEFAULT_RETRACTION) 95 s.active_extruder s,
   st_synchronize, emit .disable_e0,
   fun s => plan_buffer_line s.current_position.x s.current_position.y
     (s.current_position.z + s.cfg.UVLO_Z_AXIS_SHIFT
       + (full_step_offset (to_uint16 s0.tmc2130_MSCNT_Z) : ℚ) / s.cfg.axis_steps_per_unit_Z)
     (s.current_position.e - s.cfg.DEFAULT_RETRACTION) 40 s.active_extruder s,
   st_synchronize, emit .disable_e0,
   fun s => plan_buffer_line s.current_position.x s.current_position.y
     (s.current_position.z + s.cfg.UVLO_Z_AXIS_SHIFT
       + (full_step_offset (to_uint16 s0.tmc2130_MSCNT_Z) : ℚ) / s.cfg.axis_steps_per_unit_Z)
     (s.current_position.e - s.cfg.DEFAULT_RETRACTION) 40 s.active_extruder s,
   st_synchronize, emit .disable_e0, emit .disable_z,
   eeprom_update_dword .EEPROM_FILE_POSITION
     (uvlo_sd_position s0.sdpos_atomic s0.block_buffer s0.cmdbuffer)]
  ++ uvlo_mesh_statements 9 0
  ++ [eeprom_update_word .EEPROM_UVLO_Z_MICROSTEPS (to_uint16 s0.tmc2130_MSCNT_Z),
      fun s => eeprom_update_float (.EEPROM_UVLO_CURRENT_POSITION 0) s.current_position.x s,
      fun s => eeprom_update_float (.EEPROM_UVLO_CURRENT_POSITION 4) s.current_position.y s,
      fun s => eeprom_update_float .EEPROM_UVLO_CURRENT_POSITION_Z s.current_position.z s,
      EEPROM_save_B .EEPROM_UVLO_FEEDRATE (uvlo_feedrate_bckp s0.block_buffer s0.feedrate),
      fun s => eeprom_update_byte .EEPROM_UVLO_TARGET_HOTEND
        (s.target_temperature s.active_extruder) s,
      fun s => eeprom_update_byte .EEPROM_UVLO_TARGET_BED s.target_temperature_bed s,
      fun s => eeprom_update_byte .EEPROM_UVLO_FAN_SPEED s.fanSpeed s,
      fun s => if s0.card.sdprinting then eeprom_update_byte .EEPROM_UVLO 1 s else s,
      st_synchronize, emit .tmc2130_rd_MSCNT, emit .disable_z,
      fun s => eeprom_update_byte .EEPROM_POWER_COUNT
        ((eeprom_read_byte .EEPROM_POWER_COUNT s.eeprom : Int) + 1) s,
      fun s => eeprom_update_word .EEPROM_POWER_COUNT_TOT
        ((eeprom_read_word .EEPROM_POWER_COUNT_TOT s.eeprom : Int) + 1) s,
      emit .cli]

/-- The state after a list of statements, run in order. -/
def run_statements : List (Machine → Machine) → Machine → Machine
  | [], s => s
  | f :: fs, s => run_statements fs (f s)

/-- The states the machine is in before the first statement of a list,
between two statements, and after the last one. -/
def states_along : List (Machine → Machine) → Machine → List Machine
  | [], s => [s]
  | f :: fs, s => s :: states_along fs (f s)

/-- The states the machine is in while `ISR(INT4_vect)` runs, from the state
right after its first statement `EIMSK &= ~(1 << 4)` on: when no print is
active that state is the last one, otherwise the states between the statements
of `uvlo_` follow, up to the state in which its endless loop is entered. -/
def INT4_vect_states (s : Machine) : List Machine :=
  let s := { s with EIMSK := s.EIMSK &&& 0xEF }
  if IS_SD_PRINTING s.card then states_along (uvlo_statements s) s else [s]

/-! ## Arithmetic of the conversions -/

theorem to_uint16_lt (i : Int) : to_uint16 i < 65536 := by
  unfold to_uint16; omega

theorem to_uint32_lt (i : Int) : to_uint32 i < 4294967296 := by
  unfold to_uint32; omega

theorem to_int16_to_uint16 (v : Int) : to_int16 (to_uint16 v) = to_int16 v := by
  unfold to_int16 to_uint16; omega

theorem to_int16_of_range (v : Int) (h1 : -32768 ≤ v) (h2 : v ≤ 32767) : to_int16 v = v := by
  unfold to_int16; omega

/-- With a file position below `2^31` the clamped `sd_position` of `uvlo_`
is the exact difference, or 0 when the difference is negative. -/
theorem uvlo_sd_position_eq (a : Nat) (bb : List block_t) (cb : List CmdEntry)
    (h : a < 2147483648) :
    uvlo_sd_position a bb cb =
      if 0 ≤ (a : Int) - planner_calc_sd_length bb - cmdqueue_calc_sd_length cb
      then (a : Int) - planner_calc_sd_length bb - cmdqueue_calc_sd_length cb
      else 0 := by
  have hp : planner_calc_sd_length bb < 65536 := to_uint16_lt _
  have hc : cmdqueue_calc_sd_length cb < 65536 := to_uint16_lt _
  unfold uvlo_sd_position to_long
  generalize planner_calc_sd_length bb = P at *
  generalize cmdqueue_calc_sd_length cb = C at *
  simp only
  split_ifs <;> omega

theorem testBit_0xEF (i : Nat) :
    Nat.testBit 0xEF i = (decide (i < 8) && decide (i ≠ 4)) := by
  by_cases h : i < 8
  · interval_cases i <;> decide
  · have : Nat.testBit 0xEF i = false := by
      apply Nat.testBit_lt_two_pow
      calc 0xEF < 2 ^ 8 := by decide
        _ ≤ 2 ^ i := Nat.pow_le_pow_right (by decide) (by omega)
    simp [this, h]

theorem testBit_and_0xEF (n i : Nat) :
    (n &&& 0xEF).testBit i = (n.testBit i && (decide (i < 8) && decide (i ≠ 4))) := by
  rw [Nat.testBit_and, testBit_0xEF]

theorem testBit_4_or_0x10_mod (n : Nat) : ((n ||| 0x10) % 256).testBit 4 = true := by
  have h256 : (256 : Nat) = 2 ^ 8 := by decide
  have h16 : Nat.testBit 0x10 4 = true := by decide
  rw [h256, Nat.testBit_mod_two_pow, Nat.testBit_or, h16]
  simp

/-! ## Rounding to the `float` format -/

theorem round_half_even_error (q : ℚ) : |(round_half_even q : ℚ) - q| ≤ 1 / 2 := by
  have h1 := Int.floor_le q
  have h2 := Int.lt_floor_add_one q
  unfold round_half_even
  rw [abs_le]
  split_ifs with ha hb hc
  · constructor <;> linarith
  · push_cast; constructor <;> linarith
  · constructor <;> linarith
  · push_cast; constructor <;> linarith

theorem round_half_even_eq (q : ℚ) (m : Int) (h : |q - m| < 1 / 2) : round_half_even q = m := by
  rw [abs_lt] at h
  obtain ⟨h1, h2⟩ := h
  have hf1 := Int.floor_le q
  have hf2 := Int.lt_floor_add_one q
  have hlo : m - 1 ≤ ⌊q⌋ := by
    rw [Int.le_floor]; push_cast; linarith
  have hhi : ⌊q⌋ ≤ m := by
    have : ⌊q⌋ < m + 1 := by
      rw [Int.floor_lt]; push_cast; linarith
    omega
  unfold round_half_even
  rcases (by omega : ⌊q⌋ = m ∨ ⌊q⌋ = m - 1) with hm | hm
  · have e : q - (⌊q⌋ : ℚ) < 1 / 2 := by rw [hm]; linarith
    rw [if_pos e, hm]
  · have ec : ((⌊q⌋ : Int) : ℚ) = (m : ℚ) - 1 := by rw [hm]; push_cast; ring
    have e1 : ¬ (q - (⌊q⌋ : ℚ) < 1 / 2) := by rw [ec]; linarith
    have e2 : 1 / 2 < q - (⌊q⌋ : ℚ) := by rw [ec]; linarith
    rw [if_neg e1, if_pos e2, hm]; omega

theorem f32_exponent_eq (x : ℚ) (e : Int) (h1 : (2 : ℚ) ^ e ≤ |x|) (h2 : |x| < (2 : ℚ) ^ (e + 1))
    (h3 : -126 ≤ e) : f32_exponent x = e := by
  have hpos : (0 : ℚ) < |x| := lt_of_lt_of_le (zpow_pos (by norm_num) e) h1
  have hb : 1 < (2 : Nat) := by decide
  have a1 : e ≤ Int.log 2 |x| := by
    rw [← Int.zpow_le_iff_le_log hb hpos]; exact_mod_cast h1
  have a2 : Int.log 2 |x| < e + 1 := by
    rw [← Int.lt_zpow_iff_log_lt hb hpos]; exact_mod_cast h2
  unfold f32_exponent
  omega

theorem f32_eq_of (x : ℚ) (e m : Int) (h1 : (2 : ℚ) ^ e ≤ |x|) (h2 : |x| < (2 : ℚ) ^ (e + 1))
    (h3 : -126 ≤ e) (hm : |x / 2 ^ (e - 23) - m| < 1 / 2) :
    f32 x = (m : ℚ) * 2 ^ (e - 23) := by
  unfold f32
  rw [f32_exponent_eq x e h1 h2 h3, round_half_even_eq _ m hm]

theorem f32_zero : f32 0 = 0 := by
  unfold f32 round_half_even
  simp

theorem f32_abs_error (x : ℚ) : |f32 x - x| ≤ |x| / 16777216 + 1 / 2 ^ 150 := by
  have hb : 1 < (2 : Nat) := by decide
  have hQ : (0 : ℚ) < 2 ^ (f32_exponent x - 23) := zpow_pos (by norm_num) _
  have herr : |f32 x - x| ≤ 2 ^ (f32_exponent x - 23) / 2 := by
    have hr := round_half_even_error (x / 2 ^ (f32_exponent x - 23))
    have e : f32 x - x
        = ((round_half_even (x / 2 ^ (f32_exponent x - 23)) : ℚ) - x / 2 ^ (f32_exponent x - 23))
          * 2 ^ (f32_exponent x - 23) := by
      unfold f32
      field_simp
    rw [e, abs_mul, abs_of_pos hQ]
    calc |(round_half_even (x / 2 ^ (f32_exponent x - 23)) : ℚ) - x / 2 ^ (f32_exponent x - 23)|
          * 2 ^ (f32_exponent x - 23)
        ≤ 1 / 2 * 2 ^ (f32_exponent x - 23) := mul_le_mul_of_nonneg_right hr (le_of_lt hQ)
      _ = 2 ^ (f32_exponent x - 23) / 2 := by ring
  have h24 : (2 : ℚ) ^ (24 : Int) = 16777216 := by norm_num
  have hhalf : ∀ k : Int, (2 : ℚ) ^ (k - 23) / 2 = 2 ^ k / 16777216 := by
    intro k
    rw [← h24, ← zpow_sub₀ (by norm_num : (2 : ℚ) ≠ 0)]
    rw [div_eq_iff (by norm_num : (2 : ℚ) ≠ 0)]
    have : (2 : ℚ) ^ (k - 24) * 2 = 2 ^ (k - 24 + 1) := by
      rw [zpow_add_one₀ (by norm_num : (2 : ℚ) ≠ 0)]
    rw [this]
    congr 1
    ring
  rw [hhalf] at herr
  have hxa : (0 : ℚ) ≤ |x| := abs_nonneg x
  by_cases hx : x = 0
  · subst hx
    rw [f32_zero]
    simp
  · have hpos : (0 : ℚ) < |x| := abs_pos.2 hx
    by_cases hn : -126 ≤ Int.log 2 |x|
    · have he : f32_exponent x = Int.log 2 |x| := by unfold f32_exponent; omega
      have hle : (2 : ℚ) ^ (Int.log 2 |x|) ≤ |x| := by
        have := Int.zpow_log_le_self hb hpos
        exact_mod_cast this
      rw [he] at herr
      have h150 : (0 : ℚ) ≤ 1 / 2 ^ 150 := by positivity
      calc |f32 x - x| ≤ 2 ^ (Int.log 2 |x|) / 16777216 := herr
        _ ≤ |x| / 16777216 := by
            apply div_le_div_of_nonneg_right hle (by norm_num)
        _ ≤ |x| / 16777216 + 1 / 2 ^ 150 := by linarith
    · have he : f32_exponent x = -126 := by unfold f32_exponent; omega
      rw [he] at herr
      have hc : (2 : ℚ) ^ (-126 : Int) / 16777216 = 1 / 2 ^ 150 := by
        rw [← h24, ← zpow_sub₀ (by norm_num : (2 : ℚ) ≠ 0)]
        norm_num [zpow_neg]
      rw [hc] at herr
      have : (0 : ℚ) ≤ |x| / 16777216 := by positivity
      linarith

theorem f32_eq_of_quantum (x Q : ℚ) (e m : Int) (hQ : (2 : ℚ) ^ (e - 23) = Q)
    (h1 : 8388608 * Q ≤ |x|) (h2 : |x| < 16777216 * Q) (h3 : -126 ≤ e)
    (hm : |x / Q - m| < 1 / 2) : f32 x = (m : ℚ) * Q := by
  have h23 : (2 : ℚ) ^ (23 : Int) = 8388608 := by norm_num
  have h24 : (2 : ℚ) ^ (24 : Int) = 16777216 := by norm_num
  have e1 : (2 : ℚ) ^ e = 8388608 * Q := by
    rw [← hQ, ← h23, ← zpow_add₀ (by norm_num : (2 : ℚ) ≠ 0)]
    congr 1; ring
  have e2 : (2 : ℚ) ^ (e + 1) = 16777216 * Q := by
    rw [← hQ, ← h24, ← zpow_add₀ (by norm_num : (2 : ℚ) ≠ 0)]
    congr 1; ring
  rw [← hQ] at hm ⊢
  exact f32_eq_of x e m (by rw [e1]; exact h1) (by rw [e2]; exact h2) h3 hm

theorem f32_thousandth : f32 (1 / 1000) = 8589935 / 8589934592 := by
  have h := f32_eq_of_quantum (1 / 1000) (1 / 8589934592) (-10) 8589935
    (by norm_num [zpow_neg]) (by rw [abs_of_pos] <;> norm_num)
    (by rw [abs_of_pos] <;> norm_num) (by decide)
    (by rw [abs_lt]; constructor <;> norm_num)
  rw [h]; norm_num

/-- The two roundings of `z * 1000.f + 0.5f` move the value by less than
0.004 when its floor fits in `int16_t`. -/
theorem mesh_scaled_error (z : ℚ)
    (h1 : -32768 ≤ ⌊f32 (f32 (z * 1000) + 1 / 2)⌋)
    (h2 : ⌊f32 (f32 (z * 1000) + 1 / 2)⌋ ≤ 32767) :
    |f32 (f32 (z * 1000) + 1 / 2) - (z * 1000 + 1 / 2)| ≤ 1 / 250 := by
  have hd : (1 : ℚ) / 2 ^ 150 ≤ 1 / 1000000 := by norm_num
  have hd0 : (0 : ℚ) ≤ 1 / 2 ^ 150 := by positivity
  have hb1 := Int.floor_le (f32 (f32 (z * 1000) + 1 / 2))
  have hb2 := Int.lt_floor_add_one (f32 (f32 (z * 1000) + 1 / 2))
  have hF1 : (-32768 : ℚ) ≤ (⌊f32 (f32 (z * 1000) + 1 / 2)⌋ : ℚ) := by exact_mod_cast h1
  have hF2 : ((⌊f32 (f32 (z * 1000) + 1 / 2)⌋ : Int) : ℚ) ≤ 32767 := by exact_mod_cast h2
  have eb := f32_abs_error (f32 (z * 1000) + 1 / 2)
  have ea := f32_abs_error (z * 1000)
  generalize f32 (f32 (z * 1000) + 1 / 2) = b at *
  generalize f32 (z * 1000) = a at *
  generalize (1 : ℚ) / 2 ^ 150 = d at *
  rw [abs_le] at eb ea
  rw [abs_le]
  rcases abs_cases (a + 1 / 2) with ⟨e1, s1⟩ | ⟨e1, s1⟩ <;>
  rcases abs_cases (z * 1000) with ⟨e2, s2⟩ | ⟨e2, s2⟩ <;>
  rw [e1] at eb <;> rw [e2] at ea <;>
  constructor <;> linarith

/-- The height `float(v) * 0.001f` read back for a sample `v` in the range of
`int16_t` is within 0.0000036 of `v / 1000`. -/
theorem mesh_restored_error (v : Int) (h1 : -32768 ≤ v) (h2 : v ≤ 32767) :
    |f32 ((v : ℚ) * f32 (1 / 1000)) - (v : ℚ) / 1000| ≤ 36 / 10000000 := by
  have hd : (1 : ℚ) / 2 ^ 150 ≤ 1 / 1000000000 := by norm_num
  have hv1 : (-32768 : ℚ) ≤ (v : ℚ) := by exact_mod_cast h1
  have hv2 : (v : ℚ) ≤ 32767 := by exact_mod_cast h2
  rw [f32_thousandth]
  have er := f32_abs_error ((v : ℚ) * (8589935 / 8589934592))
  generalize f32 ((v : ℚ) * (8589935 / 8589934592)) = r at *
  generalize (1 : ℚ) / 2 ^ 150 = d at *
  rw [abs_le] at er
  rw [abs_le]
  rcases abs_cases ((v : ℚ) * (8589935 / 8589934592)) with ⟨e1, s1⟩ | ⟨e1, s1⟩ <;>
  rw [e1] at er <;>
  constructor <;> linarith

/-- The quantization of a height to thousandths of a millimetre and back, in
`float` arithmetic: the result is within 0.00051 of the height. -/
theorem mesh_round_trip_error (z : ℚ)
    (h1 : -32768 ≤ ⌊f32 (f32 (z * 1000) + 1 / 2)⌋)
    (h2 : ⌊f32 (f32 (z * 1000) + 1 / 2)⌋ ≤ 32767) :
    |f32 ((⌊f32 (f32 (z * 1000) + 1 / 2)⌋ : ℚ) * f32 (1 / 1000)) - z| ≤ 51 / 100000 := by
  have hs := mesh_scaled_error z h1 h2
  have hr := mesh_restored_error _ h1 h2
  have hb1 := Int.floor_le (f32 (f32 (z * 1000) + 1 / 2))
  have hb2 := Int.lt_floor_add_one (f32 (f32 (z * 1000) + 1 / 2))
  generalize f32 ((⌊f32 (f32 (z * 1000) + 1 / 2)⌋ : ℚ) * f32 (1 / 1000)) = r at *
  generalize (⌊f32 (f32 (z * 1000) + 1 / 2)⌋ : ℚ) = F at *
  generalize f32 (f32 (z * 1000) + 1 / 2) = b at *
  rw [abs_le] at hs hr
  rw [abs_le]
  constructor <;> linarith

theorem f32_at_0_1235 : f32 ((16575889 / 134217728 : ℚ) * 1000) = 247 / 2 := by
  have h := f32_eq_of_quantum ((16575889 / 134217728 : ℚ) * 1000) (1 / 131072) 6 16187392
    (by norm_num) (by rw [abs_of_pos] <;> norm_num)
    (by rw [abs_of_pos] <;> norm_num) (by decide)
    (by rw [abs_lt]; constructor <;> norm_num)
  rw [h]; norm_num

theorem f32_124 : f32 (247 / 2 + 1 / 2) = 124 := by
  have h := f32_eq_of_quantum (247 / 2 + 1 / 2) (1 / 131072) 6 16252928
    (by norm_num) (by rw [abs_of_pos] <;> norm_num)
    (by rw [abs_of_pos] <;> norm_num) (by decide)
    (by rw [abs_lt]; constructor <;> norm_num)
  rw [h]; norm_num

theorem f32_at_sixteenth : f32 ((1 / 16 : ℚ) * 1000) = 125 / 2 := by
  have h := f32_eq_of_quantum ((1 / 16 : ℚ) * 1000) (1 / 262144) 5 16384000
    (by norm_num) (by rw [abs_of_pos] <;> norm_num)
    (by rw [abs_of_pos] <;> norm_num) (by decide)
    (by rw [abs_lt]; constructor <;> norm_num)
  rw [h]; norm_num

theorem f32_63 : f32 (125 / 2 + 1 / 2) = 63 := by
  have h := f32_eq_of_quantum (125 / 2 + 1 / 2) (1 / 262144) 5 16515072
    (by norm_num) (by rw [abs_of_pos] <;> norm_num)
    (by rw [abs_of_pos] <;> norm_num) (by decide)
    (by rw [abs_lt]; constructor <;> norm_num)
  rw [h]; norm_num

theorem f32_63_thousandths :
    f32 (((63 : Int) : ℚ) * f32 (1 / 1000)) = 8455717 / 134217728 := by
  rw [f32_thousandth]
  have h := f32_eq_of_quantum (((63 : Int) : ℚ) * (8589935 / 8589934592)) (1 / 134217728) (-4)
    8455717
    (by norm_num [zpow_neg]) (by rw [abs_of_pos] <;> norm_num)
    (by rw [abs_of_pos] <;> norm_num) (by decide)
    (by rw [abs_lt]; constructor <;> norm_num)
  rw [h]; norm_num

theorem f32_at_eighth : f32 ((1 / 8 : ℚ) * 1000) = 125 := by
  have h := f32_eq_of_quantum ((1 / 8 : ℚ) * 1000) (1 / 131072) 6 16384000
    (by norm_num) (by rw [abs_of_pos] <;> norm_num)
    (by rw [abs_of_pos] <;> norm_num) (by decide)
    (by rw [abs_lt]; constructor <;> norm_num)
  rw [h]; norm_num

theorem f32_125_half : f32 (125 + 1 / 2) = 251 / 2 := by
  have h := f32_eq_of_quantum (125 + 1 / 2) (1 / 131072) 6 16449536
    (by norm_num) (by rw [abs_of_pos] <;> norm_num)
    (by rw [abs_of_pos] <;> norm_num) (by decide)
    (by rw [abs_lt]; constructor <;> norm_num)
  rw [h]; norm_num

/-- The scaled value `floor(z * 1000.f + 0.5f)` of the height 0.1235f (the
`float` nearest to 0.1235) is 124. -/
theorem float_floor_0_1235 :
    ⌊f32 (f32 ((16575889 / 134217728 : ℚ) * 1000) + 1 / 2)⌋ = 124 := by
  rw [f32_at_0_1235, f32_124]
  exact Int.floor_intCast (124 : Int)

/-- The exact value of `floor(z * 1000 + 0.5)` for the height 0.1235f is 123. -/
theorem floor_0_1235 : ⌊(16575889 / 134217728 : ℚ) * 1000 + 1 / 2⌋ = 123 := by
  rw [Int.floor_eq_iff]; norm_num

/-- The scaled value of the height 0.0625 is 63. -/
theorem float_floor_sixteenth : ⌊f32 (f32 ((1 / 16 : ℚ) * 1000) + 1 / 2)⌋ = 63 := by
  rw [f32_at_sixteenth, f32_63]
  exact Int.floor_intCast (63 : Int)

/-- The scaled value of the height 0.125 is 125. -/
theorem float_floor_eighth : ⌊f32 (f32 ((1 / 8 : ℚ) * 1000) + 1 / 2)⌋ = 125 := by
  rw [f32_at_eighth, f32_125_half, Int.floor_eq_iff]; norm_num

/-! ## The EEPROM record written by `uvlo_` -/

theorem Eeprom.write_raw_of_ne (m : Eeprom) (w : EepromWrite) (c : EepromCell)
    (h : w.cell ≠ c) : (m.write w).raw c = m.raw c := by
  cases w with
  | raw c2 v =>
      have h2 : c ≠ c2 := fun e => h e.symm
      simp [Eeprom.write, h2]
  | flt c2 q => rfl

theorem Eeprom.replay_raw_of_forall_ne (c : EepromCell) (ws : List EepromWrite) :
    ∀ m : Eeprom, (∀ w ∈ ws, w.cell ≠ c) → (m.replay ws).raw c = m.raw c := by
  induction ws with
  | nil => intro m _; rfl
  | cons w ws ih =>
      intro m h
      have hw : w.cell ≠ c := h w (List.mem_cons_self _ _)
      have hws : ∀ x ∈ ws, x.cell ≠ c := fun x hx => h x (List.mem_cons_of_mem _ hx)
      show (Eeprom.replay (m.write w) ws).raw c = m.raw c
      rw [ih _ hws, Eeprom.write_raw_of_ne _ _ _ hw]

/-- The sequence of EEPROM writes of `uvlo_`: the checkpoint fields, then the
pending flag when a print was active at entry, then the counters. -/
theorem uvlo_eeprom_writes (s : Machine) :
    eeprom_writes (events_of uvlo_ s)
      = uvlo_record_writes s
        ++ (if s.card.sdprinting then [EepromWrite.raw .EEPROM_UVLO 1] else [])
        ++ uvlo_counter_writes s := by
  cases h : s.card.sdprinting <;>
  simp [events_of, uvlo_, h, eeprom_update_byte, eeprom_update_word, eeprom_update_dword,
    eeprom_update_float, EEPROM_save_B, uvlo_store_mesh, eeprom_writes, Event.write,
    uvlo_record_writes, uvlo_counter_writes, eeprom_read_byte, eeprom_read_word,
    Eeprom.write, to_uint8]

/-- The EEPROM after `uvlo_` is the EEPROM at entry with the logged writes
applied in order. -/
theorem uvlo_eeprom_replay (s : Machine) :
    (uvlo_ s).eeprom = s.eeprom.replay (eeprom_writes (events_of uvlo_ s)) := by
  cases h : s.card.sdprinting <;>
  simp [events_of, uvlo_, h, eeprom_update_byte, eeprom_update_word, eeprom_update_dword,
    eeprom_update_float, EEPROM_save_B, uvlo_store_mesh, eeprom_writes, Event.write,
    Eeprom.replay]

/-- What `uvlo_` leaves in the cell `EEPROM_FILE_POSITION`. -/
theorem uvlo_file_position_stored (s : Machine) :
    (uvlo_ s).eeprom.raw .EEPROM_FILE_POSITION
      = to_uint32 (uvlo_sd_position s.sdpos_atomic s.block_buffer s.cmdbuffer) := by
  cases h : s.card.sdprinting <;>
  simp [uvlo_, h, eeprom_update_byte, eeprom_update_word, eeprom_update_dword,
    eeprom_update_float, EEPROM_save_B, uvlo_store_mesh, Eeprom.write]

/-- What `uvlo_` leaves in the mesh cell of point `p`. -/
theorem uvlo_mesh_stored (s : Machine) (p : Nat) (hp : p < 9) :
    (uvlo_ s).eeprom.raw (.EEPROM_UVLO_MESH_BED_LEVELING (2 * p))
      = to_uint16 (uvlo_mesh_value s.mbl p) := by
  rw [uvlo_eeprom_replay, uvlo_eeprom_writes]
  interval_cases p <;> cases s.card.sdprinting <;>
    simp [uvlo_record_writes, uvlo_counter_writes, Eeprom.replay, Eeprom.write]

theorem uvlo_EIMSK (s : Machine) : (uvlo_ s).EIMSK = s.EIMSK := by
  cases h : s.card.sdprinting <;>
  simp [uvlo_, h, eeprom_update_byte, eeprom_update_word, eeprom_update_dword,
    eeprom_update_float, EEPROM_save_B, uvlo_store_mesh]

/-! ## The interrupt handler -/

theorem INT4_vect_EIMSK (s : Machine) : (INT4_vect s).EIMSK = s.EIMSK &&& 0xEF := by
  unfold INT4_vect
  simp only
  split
  · rw [uvlo_EIMSK]
  · rfl

theorem int4_edges_disabled (n : Nat) : ∀ s : Machine, s.EIMSK.testBit 4 = false →
    int4_edges n s = (s, 0) := by
  induction n with
  | zero => intro s _; rfl
  | succ n ih =>
      intro s h
      simp [int4_edges, int4_edge, h, ih]

/-! ## The handler statement by statement -/

theorem run_statements_append (fs gs : List (Machine → Machine)) : ∀ s : Machine,
    run_statements (fs ++ gs) s = run_statements gs (run_statements fs s) := by
  induction fs with
  | nil => intro s; rfl
  | cons f fs ih => intro s; exact ih (f s)

theorem run_uvlo_mesh_statements (n : Nat) : ∀ (p : Nat) (s : Machine),
    run_statements (uvlo_mesh_statements n p) s = uvlo_store_mesh n p s := by
  induction n with
  | zero => intro p s; rfl
  | succ n ih => intro p s; exact ih (p + 1) _

theorem uvlo_eq_run_statements (s : Machine) :
    uvlo_ s = run_statements (uvlo_statements s) s := by
  unfold uvlo_statements
  rw [run_statements_append, run_statements_append, run_uvlo_mesh_statements]
  cases h : s.card.sdprinting <;>
  simp [uvlo_, run_statements, h, eeprom_update_byte, eeprom_update_word, eeprom_update_dword,
    eeprom_update_float, EEPROM_save_B, uvlo_store_mesh]

theorem states_along_head (fs : List (Machine → Machine)) (s : Machine) :
    (states_along fs s).head? = some s := by
  cases fs <;> rfl

theorem states_along_getLast (fs : List (Machine → Machine)) : ∀ s : Machine,
    (states_along fs s).getLast? = some (run_statements fs s) := by
  induction fs with
  | nil => intro s; rfl
  | cons f fs ih =>
      intro s
      obtain ⟨x, xs, hx⟩ : ∃ x xs, states_along fs (f s) = x :: xs := by
        cases fs with
        | nil => exact ⟨_, _, rfl⟩
        | cons g gs => exact ⟨_, _, rfl⟩
      show (s :: states_along fs (f s)).getLast? = _
      rw [hx, List.getLast?_cons_cons, ← hx]
      exact ih (f s)

theorem states_along_EIMSK (fs : List (Machine → Machine))
    (h : ∀ f ∈ fs, ∀ u : Machine, (f u).EIMSK = u.EIMSK) : ∀ s : Machine,
    ∀ u ∈ states_along fs s, u.EIMSK = s.EIMSK := by
  induction fs with
  | nil =>
      intro s u hu
      simp only [states_along, List.mem_singleton] at hu
      rw [hu]
  | cons f fs ih =>
      intro s u hu
      simp only [states_along, List.mem_cons] at hu
      rcases hu with hu | hu
      · rw [hu]
      · rw [ih (fun g hg => h g (List.mem_cons_of_mem _ hg)) (f s) u hu]
        exact h f (List.mem_cons_self _ _) s

theorem uvlo_mesh_statements_EIMSK (n : Nat) : ∀ p : Nat,
    ∀ f ∈ uvlo_mesh_statements n p, ∀ u : Machine, (f u).EIMSK = u.EIMSK := by
  induction n with
  | zero => intro p f hf; simp [uvlo_mesh_statements] at hf
  | succ n ih =>
      intro p f hf u
      simp only [uvlo_mesh_statements, List.mem_cons] at hf
      rcases hf with hf | hf
      · rw [hf]; simp [eeprom_update_word]
      · exact ih (p + 1) f hf u

theorem uvlo_statements_EIMSK (s0 : Machine) :
    ∀ f ∈ uvlo_statements s0, ∀ u : Machine, (f u).EIMSK = u.EIMSK := by
  intro f hf u
  unfold uvlo_statements at hf
  rcases List.mem_append.1 hf with hf | hf
  · rcases List.mem_append.1 hf with hf | hf
    · simp only [List.mem_cons, List.mem_singleton, List.not_mem_nil, or_false] at hf
      rcases hf with h | h | h | h | h | h | h | h | h | h | h | h | h | h | h | h | h | h
        | h | h | h | h | h | h | h <;>
      rw [h] <;>
      simp [eeprom_update_byte, eeprom_update_word, eeprom_update_dword, eeprom_update_float]
    · exact uvlo_mesh_statements_EIMSK 9 0 f hf u
  · simp only [List.mem_cons, List.mem_singleton, List.not_mem_nil, or_false] at hf
    rcases hf with h | h | h | h | h | h | h | h | h | h | h | h | h | h | h <;>
    rw [h] <;>
    first
      | (cases s0.card.sdprinting <;>
          simp [eeprom_update_byte, eeprom_update_word, eeprom_update_dword, eeprom_update_float,
            EEPROM_save_B])

theorem INT4_vect_states_EIMSK (s : Machine) :
    ∀ u ∈ INT4_vect_states s, u.EIMSK = s.EIMSK &&& 0xEF := by
  intro u hu
  unfold INT4_vect_states at hu
  simp only at hu
  split at hu
  · exact states_along_EIMSK _ (uvlo_statements_EIMSK _) _ u hu
  · simp only [List.mem_singleton] at hu
    rw [hu]

theorem INT4_vect_states_head (s : Machine) :
    (INT4_vect_states s).head? = some { s with EIMSK := s.EIMSK &&& 0xEF } := by
  unfold INT4_vect_states
  simp only
  split
  · exact states_along_head _ _
  · rfl

theorem INT4_vect_states_getLast (s : Machine) :
    (INT4_vect_states s).getLast? = some (INT4_vect s) := by
  unfold INT4_vect_states INT4_vect
  simp only
  split
  · rw [states_along_getLast, ← uvlo_eq_run_statements]
  · rfl

theorem uvlo_log_getLast (s : Machine) : (uvlo_ s).log.getLast? = some Event.cli := by
  cases h : s.card.sdprinting <;>
  simp [uvlo_, h, eeprom_update_byte, eeprom_update_word, eeprom_update_dword,
    eeprom_update_float, EEPROM_save_B, uvlo_store_mesh]

theorem states_along_getElem? (fs : List (Machine → Machine)) (k : Nat) (s : Machine)
    (h : k ≤ fs.length) :
    (states_along fs s)[k]? = some (run_statements (fs.take k) s) := by
  induction fs generalizing k s with
  | nil =>
      have hk : k = 0 := by simpa using h
      subst hk
      simp [states_along, run_statements]
  | cons f fs ih =>
      cases k with
      | zero => simp [states_along, run_statements]
      | succ k =>
          have hk : k ≤ fs.length := by simpa using h
          simp [states_along, run_statements, ih k (f s) hk]

theorem INT4_vect_states_after_sei (s : Machine) (h : s.card.sdprinting = true) :
    ∃ u, (INT4_vect_states s)[14]? = some u ∧ u.log.getLast? = some Event.sei := by
  have e : (INT4_vect_states s)[14]?
      = some (run_statements ((uvlo_statements { s with EIMSK := s.EIMSK &&& 0xEF }).take 14)
          { s with EIMSK := s.EIMSK &&& 0xEF }) := by
    have e1 : INT4_vect_states s
        = states_along (uvlo_statements { s with EIMSK := s.EIMSK &&& 0xEF })
            { s with EIMSK := s.EIMSK &&& 0xEF } := by
      simp [INT4_vect_states, IS_SD_PRINTING, h]
    rw [e1]
    apply states_along_getElem?
    simp [uvlo_statements]
  refine ⟨_, e, ?_⟩
  simp [uvlo_statements, run_statements, eeprom_update_byte, eeprom_update_float]

/-! ## The RAM checkpoint and the replay -/

/-- If a RAM checkpoint is already active, the save routine returns at its
first statement. -/
theorem stop_and_save_of_saved (z_move e_move : ℚ) (s : Machine)
    (h : s.saved_printing = true) : stop_and_save_print_to_ram z_move e_move s = s := by
  simp [stop_and_save_print_to_ram, h]

/-- After the save routine a RAM checkpoint is active. -/
theorem stop_and_save_saved_printing (z_move e_move : ℚ) (s : Machine) :
    (stop_and_save_print_to_ram z_move e_move s).saved_printing = true := by
  cases h : s.saved_printing
  · by_cases hm : z_move ≠ 0 ∨ e_move ≠ 0 <;>
      simp [stop_and_save_print_to_ram, h, hm]
  · rw [stop_and_save_of_saved _ _ _ h]; exact h

theorem restore_chdir_cmdbuffer (n : Nat) : ∀ (i : Nat) (s : Machine),
    (restore_chdir n i s).cmdbuffer = s.cmdbuffer := by
  induction n with
  | zero => intro i s; rfl
  | succ n ih => intro i s; simp [restore_chdir, ih]

theorem restore_chdir_eeprom (n : Nat) : ∀ (i : Nat) (s : Machine),
    (restore_chdir n i s).eeprom = s.eeprom := by
  induction n with
  | zero => intro i s; rfl
  | succ n ih => intro i s; simp [restore_chdir, ih]

/-- The last two commands `restore_print_from_eeprom` puts in the queue are
`M26 S<position>` with the content of `EEPROM_FILE_POSITION`, then `M24`. -/
theorem restore_print_from_eeprom_tail (t : Machine) :
    ∃ front : List CmdEntry,
      (restore_print_from_eeprom t).cmdbuffer
        = t.cmdbuffer ++ front
          ++ [ui_command [.lit "M26 S", .lu (eeprom_read_dword .EEPROM_FILE_POSITION t.eeprom)],
              ui_command [.lit "M24"]] := by
  by_cases h : eeprom_read_byte .EEPROM_UVLO_E_ABS t.eeprom = 0
  · refine ⟨((restore_print_from_eeprom t).cmdbuffer.drop t.cmdbuffer.length).take 7, ?_⟩
    simp [restore_print_from_eeprom, restore_chdir_cmdbuffer, restore_chdir_eeprom, h,
      ui_command]
  · refine ⟨((restore_print_from_eeprom t).cmdbuffer.drop t.cmdbuffer.length).take 8, ?_⟩
    simp [restore_print_from_eeprom, restore_chdir_cmdbuffer, restore_chdir_eeprom, h,
      ui_command]

/-! ## Claims -/

/-- C1 (as stated, refuted). With `sdpos_atomic = 2^31` and both queues empty
the difference `sdpos_atomic - P - C` is `2147483648`, a non-negative number,
yet `uvlo_` writes 0 to `EEPROM_FILE_POSITION`: the `long` local
`sd_position` holds `sdpos_atomic` as a negative number and is clamped. -/
theorem uvlo_file_position_above_long_max :
    (uvlo_ (Machine.printing 2147483648 [] [])).eeprom.raw .EEPROM_FILE_POSITION = 0
    ∧ ((Machine.printing 2147483648 [] []).sdpos_atomic : Int)
        - planner_calc_sd_length (Machine.printing 2147483648 [] []).block_buffer
        - cmdqueue_calc_sd_length (Machine.printing 2147483648 [] []).cmdbuffer
      = 2147483648 := by
  decide

/-- C1 (amended). For every state whose `sdpos_atomic` is below `2^31`, the
file position `uvlo_` writes to `EEPROM_FILE_POSITION` is
`sdpos_atomic - P - C` when that difference is non-negative and 0 otherwise,
where `P = planner_calc_sd_length()` and `C = cmdqueue_calc_sd_length()` are
taken from the queues as they are at entry. -/
theorem uvlo_file_position_conservation (s : Machine) (h : s.sdpos_atomic < 2147483648) :
    ((uvlo_ s).eeprom.raw .EEPROM_FILE_POSITION : Int) =
      if 0 ≤ (s.sdpos_atomic : Int) - planner_calc_sd_length s.block_buffer
                - cmdqueue_calc_sd_length s.cmdbuffer
      then (s.sdpos_atomic : Int) - planner_calc_sd_length s.block_buffer
                - cmdqueue_calc_sd_length s.cmdbuffer
      else 0 := by
  have hp : planner_calc_sd_length s.block_buffer < 65536 := to_uint16_lt _
  have hc : cmdqueue_calc_sd_length s.cmdbuffer < 65536 := to_uint16_lt _
  rw [uvlo_file_position_stored, uvlo_sd_position_eq _ _ _ h]
  unfold to_uint32
  split_ifs <;> omega

/-- C1 (witness): `sdpos_atomic = 10000`, block lengths `[12, 8]` and one SD
command of length 5 give the file position 9975. -/
theorem uvlo_file_position_conservation_witness :
    (Machine.printing 10000 [12, 8] [5]).sdpos_atomic < 2147483648
    ∧ ((uvlo_ (Machine.printing 10000 [12, 8] [5])).eeprom.raw .EEPROM_FILE_POSITION : Int)
        = 9975 :=
  ⟨by decide, by
    rw [uvlo_file_position_conservation (Machine.printing 10000 [12, 8] [5]) (by decide)]
    decide⟩

/-- C2 (the code at the failing input). With `sdpos_atomic = 10` and one
planner block of SD length 20 (`P + C = 20 > 10`) the RAM checkpoint keeps
`saved_sdpos = 2^32 - 10`: the unsigned subtraction wraps and is not clamped,
while `uvlo_` on the same state persists the clamped position 0. -/
theorem stop_and_save_sdpos_underflow :
    (stop_and_save_print_to_ram 10 0 (Machine.printing 10 [20] [])).saved_sdpos = 4294967286
    ∧ (uvlo_ (Machine.printing 10 [20] [])).eeprom.raw .EEPROM_FILE_POSITION = 0 := by
  decide

/-- C3. In the sequence of EEPROM writes of `uvlo_` (program order, taken from
the log) the write of 1 to the pending flag `EEPROM_UVLO`, made when a print
was active at entry, comes after the writes of every other checkpoint field:
the sequence is `pre ++ [flag] ++ post`, every checkpoint cell (file position,
nine mesh samples, Z micro-step phase, logical X/Y/Z, extruder position,
absolute-mode byte, feedrate, hotend and bed targets, fan speed) is written in
`pre`, `pre` does not touch the flag, `post` touches neither the flag nor a
checkpoint cell, and replaying any prefix of the sequence that stops before the
flag write leaves `EEPROM_UVLO` at its prior value. -/
theorem uvlo_flag_write_last (s : Machine) :
    ∃ pre post : List EepromWrite,
      eeprom_writes (events_of uvlo_ s)
        = pre ++ (if s.card.sdprinting then [EepromWrite.raw .EEPROM_UVLO 1] else []) ++ post
      ∧ (uvlo_ s).eeprom = s.eeprom.replay (eeprom_writes (events_of uvlo_ s))
      ∧ (∀ c ∈ spec_checkpoint_cells, c ∈ pre.map EepromWrite.cell)
      ∧ (∀ w ∈ pre, w.cell ≠ .EEPROM_UVLO)
      ∧ (∀ w ∈ post, w.cell ≠ .EEPROM_UVLO ∧ w.cell ∉ spec_checkpoint_cells)
      ∧ (∀ k, k ≤ pre.length →
          (s.eeprom.replay ((eeprom_writes (events_of uvlo_ s)).take k)).raw .EEPROM_UVLO
            = s.eeprom.raw .EEPROM_UVLO) := by
  have hpre : ∀ w ∈ uvlo_record_writes s, w.cell ≠ .EEPROM_UVLO := by
    simp [uvlo_record_writes, EepromWrite.cell]
  refine ⟨uvlo_record_writes s, uvlo_counter_writes s, uvlo_eeprom_writes s,
    uvlo_eeprom_replay s, ?_, hpre, ?_, ?_⟩
  · simp [uvlo_record_writes, spec_checkpoint_cells, EepromWrite.cell]
  · simp [uvlo_counter_writes, spec_checkpoint_cells, EepromWrite.cell]
  · intro k hk
    apply Eeprom.replay_raw_of_forall_ne
    intro w hw
    apply hpre
    rw [uvlo_eeprom_writes, List.append_assoc, List.take_append_of_le_length hk] at hw
    exact List.mem_of_mem_take hw

/-- C4. `stop_and_save_print_to_ram` is idempotent: for every state and all
arguments a second call right after a first one returns the state of the
first call unchanged (so the RAM checkpoint `saved_sdpos`, `saved_pos`,
`saved_feedrate2`, `saved_active_extruder`, `saved_extruder_under_pressure`,
`saved_printing` is that of a single call), because `saved_printing` is true
after the first call. -/
theorem stop_and_save_idempotent (z_move e_move z_move2 e_move2 : ℚ) (s : Machine) :
    (stop_and_save_print_to_ram z_move e_move s).saved_printing = true
    ∧ stop_and_save_print_to_ram z_move2 e_move2 (stop_and_save_print_to_ram z_move e_move s)
        = stop_and_save_print_to_ram z_move e_move s :=
  ⟨stop_and_save_saved_printing z_move e_move s,
   stop_and_save_of_saved _ _ _ (stop_and_save_saved_printing z_move e_move s)⟩

/-- C5. With no RAM checkpoint active (`saved_printing = false`)
`restore_print_from_ram_and_continue` returns the state it was given: no
variable changes (`active_extruder`, `feedrate`, `current_position`,
`destination`, `sdpos_atomic`, the card index, `card.sdprinting`, the planner)
and nothing is added to the log, so no move is issued. -/
theorem restore_from_ram_noop (e_move : ℚ) (s : Machine) (h : s.saved_printing = false) :
    restore_print_from_ram_and_continue e_move s = s := by
  simp [restore_print_from_ram_and_continue, h]

/-- C5 (witness): the idle machine has no RAM checkpoint. -/
theorem restore_from_ram_noop_witness :
    Machine.idle.saved_printing = false
    ∧ restore_print_from_ram_and_continue 3 Machine.idle = Machine.idle :=
  ⟨rfl, restore_from_ram_noop 3 Machine.idle rfl⟩

/-- C6. The file position persisted by `uvlo_` is the position recovery
resumes from: whenever the cell `EEPROM_FILE_POSITION` still holds the value
`q` that `uvlo_` wrote, `restore_print_from_eeprom` puts `M26 S<q>` with exactly
that `q` in the queue, immediately followed by `M24` as the last command. -/
theorem restore_resumes_at_persisted_position (s t : Machine)
    (h : t.eeprom.raw .EEPROM_FILE_POSITION = (uvlo_ s).eeprom.raw .EEPROM_FILE_POSITION) :
    ∃ front : List CmdEntry,
      (restore_print_from_eeprom t).cmdbuffer
        = t.cmdbuffer ++ front
          ++ [ui_command [.lit "M26 S", .lu ((uvlo_ s).eeprom.raw .EEPROM_FILE_POSITION)],
              ui_command [.lit "M24"]] := by
  obtain ⟨front, hf⟩ := restore_print_from_eeprom_tail t
  refine ⟨front, ?_⟩
  have hq : eeprom_read_dword .EEPROM_FILE_POSITION t.eeprom
      = (uvlo_ s).eeprom.raw .EEPROM_FILE_POSITION := by
    have hlt := to_uint32_lt (uvlo_sd_position s.sdpos_atomic s.block_buffer s.cmdbuffer)
    rw [eeprom_read_dword, h, uvlo_file_position_stored]
    exact Nat.mod_eq_of_lt hlt
  rw [hf, hq]

/-- C6 (witness): `sdpos_atomic = 50100`, planner block lengths 20, 15, 10 and
one SD command of length 8 give the persisted position 50047, which a machine
rebooted with that EEPROM replays as `M26 S50047`, `M24`. -/
theorem restore_resumes_at_persisted_position_witness :
    ({ Machine.idle with eeprom := (uvlo_ (Machine.printing 50100 [20, 15, 10] [8])).eeprom
        : Machine }).eeprom.raw .EEPROM_FILE_POSITION
      = (uvlo_ (Machine.printing 50100 [20, 15, 10] [8])).eeprom.raw .EEPROM_FILE_POSITION
    ∧ (uvlo_ (Machine.printing 50100 [20, 15, 10] [8])).eeprom.raw .EEPROM_FILE_POSITION = 50047
    ∧ ∃ front : List CmdEntry,
      (restore_print_from_eeprom
          { Machine.idle with
            eeprom := (uvlo_ (Machine.printing 50100 [20, 15, 10] [8])).eeprom }).cmdbuffer
        = ({ Machine.idle with
            eeprom := (uvlo_ (Machine.printing 50100 [20, 15, 10] [8])).eeprom }
            : Machine).cmdbuffer ++ front
          ++ [ui_command [.lit "M26 S",
                .lu ((uvlo_ (Machine.printing 50100 [20, 15, 10] [8])).eeprom.raw
                      .EEPROM_FILE_POSITION)],
              ui_command [.lit "M24"]] :=
  ⟨rfl, by decide,
   restore_resumes_at_persisted_position (Machine.printing 50100 [20, 15, 10] [8])
     { Machine.idle with eeprom := (uvlo_ (Machine.printing 50100 [20, 15, 10] [8])).eeprom }
     rfl⟩

/-- C7 (as stated, refuted). A print with `sdpos_atomic = 100` and one queued
planner block that accounts for 10 bytes of the file: after
`crashdet_stop_and_save_print`, the execution of the lift command and
`crashdet_restore_print_and_continue`, both `sdpos_atomic` and the card index
are 90, not 100: the file offset is moved back by the length of the dropped
block. -/
theorem crashdet_save_restore_moves_file_offset :
    (Machine.printing 100 [10] []).saved_printing = false
    ∧ lift_move_ran (crashdet_stop_and_save_print (Machine.printing 100 [10] []))
        (lift_executed (crashdet_stop_and_save_print (Machine.printing 100 [10] [])))
    ∧ (Machine.printing 100 [10] []).sdpos_atomic = 100
    ∧ (crashdet_restore_print_and_continue
        (lift_executed (crashdet_stop_and_save_print (Machine.printing 100 [10] [])))).sdpos_atomic
        = 90
    ∧ (crashdet_restore_print_and_continue
        (lift_executed (crashdet_stop_and_save_print (Machine.printing 100 [10] [])))).card.sdpos
        = 90 := by
  refine ⟨rfl, ⟨rfl, rfl, rfl, rfl, rfl, rfl, rfl, rfl, rfl⟩, rfl, ?_, ?_⟩ <;> decide

/-- C7 (amended). For every running state `s` (no RAM checkpoint active) and
every state `t` the main loop can reach from `crashdet_stop_and_save_print s`
by executing the lift command, `crashdet_restore_print_and_continue t`
leaves `current_position` equal to the position saved by the checkpoint, which
is the position of the head when the planner was aborted; sets `sdpos_atomic`
and the card index both to the resume offset `sdpos_atomic - P - C` (modulo
`2^32`) computed at the save, which is the original `sdpos_atomic` exactly when
nothing read from the file was still queued; and the restore itself extrudes
nothing: its calls are `plan_set_e_position` with the saved E, one move to the
saved X, Y, Z with the same saved E, `st_synchronize` and the re-seek of the
file. What the lift command extrudes is not part of the statement. -/
theorem crashdet_save_restore_roundtrip (s t : Machine) (hs : s.saved_printing = false)
    (ht : lift_move_ran (crashdet_stop_and_save_print s) t) :
    (crashdet_restore_print_and_continue t).current_position = s.st_position
    ∧ (crashdet_stop_and_save_print s).saved_pos = s.st_position
    ∧ ((crashdet_restore_print_and_continue t).sdpos_atomic : Int)
        = ((s.sdpos_atomic : Int) - planner_calc_sd_length s.block_buffer
            - cmdqueue_calc_sd_length s.cmdbuffer) % 4294967296
    ∧ (crashdet_restore_print_and_continue t).card.sdpos
        = (crashdet_restore_print_and_continue t).sdpos_atomic
    ∧ (s.sdpos_atomic < 4294967296 →
        ((crashdet_restore_print_and_continue t).sdpos_atomic = s.sdpos_atomic
          ↔ planner_calc_sd_length s.block_buffer = 0
            ∧ cmdqueue_calc_sd_length s.cmdbuffer = 0))
    ∧ events_of crashdet_restore_print_and_continue t
        = [.plan_set_e_position s.st_position.e,
           .plan_buffer_line s.st_position.x s.st_position.y s.st_position.z s.st_position.e
              (s.cfg.homing_feedrate_Z / 13) s.active_extruder,
           .st_synchronize,
           .card_setIndex (crashdet_restore_print_and_continue t).sdpos_atomic] := by
  obtain ⟨h1, h2, h3, h4, h5, h6, h7, h8, h9⟩ := ht
  have hsave : (crashdet_stop_and_save_print s).saved_pos = s.st_position := by
    simp [crashdet_stop_and_save_print, stop_and_save_print_to_ram, hs]
  have hsdpos : ((crashdet_stop_and_save_print s).saved_sdpos : Int)
      = ((s.sdpos_atomic : Int) - planner_calc_sd_length s.block_buffer
            - cmdqueue_calc_sd_length s.cmdbuffer) % 4294967296 := by
    simp [crashdet_stop_and_save_print, stop_and_save_print_to_ram, hs, to_uint32]
    omega
  have hae : (crashdet_stop_and_save_print s).saved_active_extruder = s.active_extruder := by
    simp [crashdet_stop_and_save_print, stop_and_save_print_to_ram, hs]
  have hcfg : (crashdet_stop_and_save_print s).cfg = s.cfg := by
    simp [crashdet_stop_and_save_print, stop_and_save_print_to_ram, hs]
  have hsp : t.saved_printing = true := by
    rw [h1]; exact stop_and_save_saved_printing _ _ _
  have hr : (crashdet_restore_print_and_continue t).sdpos_atomic
      = (crashdet_stop_and_save_print s).saved_sdpos := by
    rw [← h2]
    simp [crashdet_restore_print_and_continue, restore_print_from_ram_and_continue, hsp]
  have hp : planner_calc_sd_length s.block_buffer < 65536 := to_uint16_lt _
  have hc : cmdqueue_calc_sd_length s.cmdbuffer < 65536 := to_uint16_lt _
  refine ⟨?_, hsave, ?_, ?_, ?_, ?_⟩
  · simp [crashdet_restore_print_and_continue, restore_print_from_ram_and_continue, hsp, h3, hsave]
  · rw [hr, hsdpos]
  · simp [crashdet_restore_print_and_continue, restore_print_from_ram_and_continue, hsp]
  · intro ha
    rw [hr]
    generalize (crashdet_stop_and_save_print s).saved_sdpos = q at hsdpos
    generalize planner_calc_sd_length s.block_buffer = P at *
    generalize cmdqueue_calc_sd_length s.cmdbuffer = C at *
    omega
  · simp [events_of, crashdet_restore_print_and_continue, restore_print_from_ram_and_continue,
      hsp, h3, hsave, h5, hae, h9, hcfg]

/-- C7 (witness): the print of the counterexample, with the lift command
executed. -/
theorem crashdet_save_restore_roundtrip_witness :
    (Machine.printing 100 [10] []).saved_printing = false
    ∧ lift_move_ran (crashdet_stop_and_save_print (Machine.printing 100 [10] []))
        (lift_executed (crashdet_stop_and_save_print (Machine.printing 100 [10] [])))
    ∧ (crashdet_restore_print_and_continue
        (lift_executed (crashdet_stop_and_save_print (Machine.printing 100 [10] [])))).current_position
        = (Machine.printing 100 [10] []).st_position :=
  ⟨rfl, ⟨rfl, rfl, rfl, rfl, rfl, rfl, rfl, rfl, rfl⟩,
   (crashdet_save_restore_roundtrip (Machine.printing 100 [10] [])
      (lift_executed (crashdet_stop_and_save_print (Machine.printing 100 [10] [])))
      rfl ⟨rfl, rfl, rfl, rfl, rfl, rfl, rfl, rfl, rfl⟩).1⟩

/-- C8. When `ISR(INT4_vect)` runs while no SD print is active
(`IS_SD_PRINTING` false), `uvlo_` is not invoked: the state after the handler
is the state before it with bit 4 of `EIMSK` cleared and nothing else changed.
In particular no EEPROM cell is written (the content, and with it `EEPROM_UVLO`
and every checkpoint field, is the same and the handler logs no call), the
planner and the command queue are untouched, the other bits of the 8-bit
`EIMSK` are unchanged, and the test of `setup()` that starts a recovery at the
next boot gives the same answer as before the event. -/
theorem INT4_vect_ignored_when_not_printing (s : Machine) (h : s.card.sdprinting = false) :
    INT4_vect s = { s with EIMSK := s.EIMSK &&& 0xEF }
    ∧ (INT4_vect s).eeprom = s.eeprom
    ∧ events_of INT4_vect s = []
    ∧ (INT4_vect s).block_buffer = s.block_buffer
    ∧ (INT4_vect s).cmdbuffer = s.cmdbuffer
    ∧ (INT4_vect s).EIMSK.testBit 4 = false
    ∧ (∀ i, i < 8 → i ≠ 4 → (INT4_vect s).EIMSK.testBit i = s.EIMSK.testBit i)
    ∧ setup_uvlo_pending (INT4_vect s).eeprom = setup_uvlo_pending s.eeprom := by
  have h0 : INT4_vect s = { s with EIMSK := s.EIMSK &&& 0xEF } := by
    simp [INT4_vect, IS_SD_PRINTING, h]
  refine ⟨h0, ?_, ?_, ?_, ?_, ?_, ?_, ?_⟩
  · rw [h0]
  · simp [events_of, h0]
  · rw [h0]
  · rw [h0]
  · rw [h0]
    show (s.EIMSK &&& 0xEF).testBit 4 = false
    rw [testBit_and_0xEF]; simp
  · intro i hi hne
    rw [h0]
    show (s.EIMSK &&& 0xEF).testBit i = s.EIMSK.testBit i
    rw [testBit_and_0xEF]; simp [hi, hne]
  · rw [h0]

/-- C8 (witness): the idle machine with INT4 enabled. -/
theorem INT4_vect_ignored_when_not_printing_witness :
    ({ Machine.idle with EIMSK := 0x10 } : Machine).card.sdprinting = false
    ∧ INT4_vect { Machine.idle with EIMSK := 0x10 }
        = { ({ Machine.idle with EIMSK := 0x10 } : Machine) with
            EIMSK := ({ Machine.idle with EIMSK := 0x10 } : Machine).EIMSK &&& 0xEF }
    ∧ (INT4_vect { Machine.idle with EIMSK := 0x10 }).EIMSK = 0 :=
  ⟨rfl, (INT4_vect_ignored_when_not_printing { Machine.idle with EIMSK := 0x10 } rfl).1,
   by decide⟩

/-- C9. The under-voltage handler disables its own interrupt source as its
first action. `INT4_vect_states s` lists the states the machine is in while
`ISR(INT4_vect)` runs, from the state right after its first statement on,
`uvlo_` being taken statement by statement. The first of them is the entry
state with bit 4 of `EIMSK` cleared and nothing else done. In every one of
them, the states after the `sei()` of `uvlo_` included, `EIMSK` has that same
value: bit 4 is 0 and the other bits are those at entry, neither the handler
nor `uvlo_` writes the register again, and an under-voltage edge arriving in
that state does not start the handler. The state after the 14th statement of
`uvlo_` is the one right after `sei()`. The last state is the result of
`INT4_vect`; when a print is active it is the state in which the endless loop
of `uvlo_` is entered, right after `cli()`. In the model where an edge runs the
handler only while bit 4 is set, after `setup_uvlo_interrupt` any number of
edges runs the handler at most once, and exactly once as soon as there is an
edge. -/
theorem INT4_vect_runs_at_most_once (s : Machine) :
    (INT4_vect_states s).head? = some { s with EIMSK := s.EIMSK &&& 0xEF }
    ∧ (∀ u ∈ INT4_vect_states s,
        u.EIMSK = s.EIMSK &&& 0xEF
        ∧ u.EIMSK.testBit 4 = false
        ∧ (∀ i, i < 8 → i ≠ 4 → u.EIMSK.testBit i = s.EIMSK.testBit i)
        ∧ int4_edge u = (u, false))
    ∧ (s.card.sdprinting = true →
        ∃ u, (INT4_vect_states s)[14]? = some u ∧ u.log.getLast? = some Event.sei)
    ∧ (INT4_vect_states s).getLast? = some (INT4_vect s)
    ∧ (s.card.sdprinting = true → (INT4_vect s).log.getLast? = some Event.cli)
    ∧ (INT4_vect s).EIMSK.testBit 4 = false
    ∧ (∀ i, i < 8 → i ≠ 4 → (INT4_vect s).EIMSK.testBit i = s.EIMSK.testBit i)
    ∧ INT4_vect s
        = (if s.card.sdprinting then uvlo_ { s with EIMSK := s.EIMSK &&& 0xEF }
           else { s with EIMSK := s.EIMSK &&& 0xEF })
    ∧ (∀ u : Machine, (uvlo_ u).EIMSK = u.EIMSK)
    ∧ (int4_edge (INT4_vect s)).2 = false
    ∧ (setup_uvlo_interrupt s).EIMSK.testBit 4 = true
    ∧ (∀ n, (int4_edges n (setup_uvlo_interrupt s)).2 ≤ 1)
    ∧ (∀ n, 0 < n → (int4_edges n (setup_uvlo_interrupt s)).2 = 1) := by
  have hbitu : ∀ u : Machine, (INT4_vect u).EIMSK.testBit 4 = false := by
    intro u; rw [INT4_vect_EIMSK, testBit_and_0xEF]; simp
  have hbit : (INT4_vect s).EIMSK.testBit 4 = false := hbitu s
  have hset : (setup_uvlo_interrupt s).EIMSK.testBit 4 = true :=
    testBit_4_or_0x10_mod s.EIMSK
  have hcount : ∀ n, 0 < n → (int4_edges n (setup_uvlo_interrupt s)).2 = 1 := by
    intro n hn
    obtain ⟨m, rfl⟩ : ∃ m, n = m + 1 := ⟨n - 1, by omega⟩
    simp [int4_edges, int4_edge, hset, int4_edges_disabled _ _ (hbitu _)]
  refine ⟨INT4_vect_states_head s, ?_, INT4_vect_states_after_sei s, INT4_vect_states_getLast s,
    ?_, hbit, ?_, ?_, uvlo_EIMSK, ?_, hset, ?_, hcount⟩
  · intro u hu
    have he := INT4_vect_states_EIMSK s u hu
    have hb : u.EIMSK.testBit 4 = false := by
      rw [he, testBit_and_0xEF]; simp
    refine ⟨he, hb, ?_, ?_⟩
    · intro i hi hne
      rw [he, testBit_and_0xEF]; simp [hi, hne]
    · simp [int4_edge, hb]
  · intro hp
    have e : INT4_vect s = uvlo_ { s with EIMSK := s.EIMSK &&& 0xEF } := by
      simp [INT4_vect, IS_SD_PRINTING, hp]
    rw [e]
    exact uvlo_log_getLast _
  · intro i hi hne
    rw [INT4_vect_EIMSK, testBit_and_0xEF]; simp [hi, hne]
  · simp [INT4_vect, IS_SD_PRINTING]
  · simp [int4_edge, hbit]
  · intro n
    rcases Nat.eq_zero_or_pos n with h | h
    · subst h; simp [int4_edges]
    · rw [hcount n h]

/-- C10 (as stated, refuted). With leveling active and the mesh height 0.1235f
(the `float` nearest to 0.1235, which is 16575889 / 2^27) at point 0,
`floor(z * 1000 + 0.5)` is 123, but the word `uvlo_` stores at
`EEPROM_UVLO_MESH_BED_LEVELING + 0` is 124: the `float` product `z * 1000.f` is
rounded up to 123.5 and the sum with `0.5f` is 124. -/
theorem uvlo_mesh_float_rounding :
    (Machine.leveled (16575889 / 134217728)).mbl.active = true
    ∧ ⌊(Machine.leveled (16575889 / 134217728)).mbl.z_values (0 / 3 * 3) (0 % 3 * 3) * 1000
        + 1 / 2⌋ = 123
    ∧ (uvlo_ (Machine.leveled (16575889 / 134217728))).eeprom.raw
        (.EEPROM_UVLO_MESH_BED_LEVELING (2 * 0)) = 124 := by
  refine ⟨rfl, floor_0_1235, ?_⟩
  rw [uvlo_mesh_stored _ _ (by decide)]
  have : uvlo_mesh_value (Machine.leveled (16575889 / 134217728)).mbl 0 = to_int16 124 := by
    simp only [uvlo_mesh_value, Machine.leveled, if_true]
    rw [float_floor_0_1235]
  rw [this]; decide

/-- C10 (amended). For every mesh point `p` in 0..8 with `ix = p mod 3` and
`iy = p div 3`: when `mbl.active` is true, the 16-bit value stored at
`EEPROM_UVLO_MESH_BED_LEVELING + 2p` is
`int16_t(floor(mbl.z_values[iy*3][ix*3] * 1000.f + 0.5f))`, the product and the
sum being `float` operations, each rounded to the 32-bit format; when that
floor fits in `int16_t` (-32768..32767) the stored value, read as a signed
16-bit number, is that floor, and it differs from the exact `z * 1000` by at
most 0.504; when `mbl.active` is false the stored value is 0 (so all nine are
0). -/
theorem uvlo_mesh_snapshot (s : Machine) (p : Nat) (hp : p < 9) :
    (s.mbl.active = true →
      (uvlo_ s).eeprom.raw (.EEPROM_UVLO_MESH_BED_LEVELING (2 * p))
        = to_uint16 (to_int16
            ⌊f32 (f32 (s.mbl.z_values (p / 3 * 3) (p % 3 * 3) * 1000) + 1 / 2)⌋))
    ∧ (s.mbl.active = true →
      -32768 ≤ ⌊f32 (f32 (s.mbl.z_values (p / 3 * 3) (p % 3 * 3) * 1000) + 1 / 2)⌋ →
      ⌊f32 (f32 (s.mbl.z_values (p / 3 * 3) (p % 3 * 3) * 1000) + 1 / 2)⌋ ≤ 32767 →
      to_int16 ((uvlo_ s).eeprom.raw (.EEPROM_UVLO_MESH_BED_LEVELING (2 * p)))
          = ⌊f32 (f32 (s.mbl.z_values (p / 3 * 3) (p % 3 * 3) * 1000) + 1 / 2)⌋
        ∧ |(to_int16 ((uvlo_ s).eeprom.raw (.EEPROM_UVLO_MESH_BED_LEVELING (2 * p))) : ℚ)
            - s.mbl.z_values (p / 3 * 3) (p % 3 * 3) * 1000| ≤ 504 / 1000)
    ∧ (s.mbl.active = false →
      (uvlo_ s).eeprom.raw (.EEPROM_UVLO_MESH_BED_LEVELING (2 * p)) = 0) := by
  rw [uvlo_mesh_stored s p hp]
  refine ⟨?_, ?_, ?_⟩
  · intro ha
    simp only [uvlo_mesh_value, MESH_MEAS_NUM_X_POINTS, ha, if_true]
  · intro ha h1 h2
    have hv : to_int16 (to_uint16 (uvlo_mesh_value s.mbl p))
        = ⌊f32 (f32 (s.mbl.z_values (p / 3 * 3) (p % 3 * 3) * 1000) + 1 / 2)⌋ := by
      rw [to_int16_to_uint16]
      simp only [uvlo_mesh_value, MESH_MEAS_NUM_X_POINTS, ha, if_true]
      rw [to_int16_of_range _ h1 h2, to_int16_of_range _ h1 h2]
    refine ⟨hv, ?_⟩
    rw [hv]
    have hs := mesh_scaled_error _ h1 h2
    have hb1 := Int.floor_le (f32 (f32 (s.mbl.z_values (p / 3 * 3) (p % 3 * 3) * 1000) + 1 / 2))
    have hb2 := Int.lt_floor_add_one
      (f32 (f32 (s.mbl.z_values (p / 3 * 3) (p % 3 * 3) * 1000) + 1 / 2))
    generalize (⌊f32 (f32 (s.mbl.z_values (p / 3 * 3) (p % 3 * 3) * 1000) + 1 / 2)⌋ : ℚ) = F at *
    generalize f32 (f32 (s.mbl.z_values (p / 3 * 3) (p % 3 * 3) * 1000) + 1 / 2) = b at *
    rw [abs_le] at hs
    rw [abs_le]
    constructor <;> linarith
  · intro ha
    simp [uvlo_mesh_value, ha, to_uint16]

/-- C10 (witness): leveling active, every mesh height 0.125 mm, point 4: the
stored value is 125. -/
theorem uvlo_mesh_snapshot_witness :
    4 < 9 ∧ (Machine.leveled (1 / 8)).mbl.active = true
    ∧ to_int16 ((uvlo_ (Machine.leveled (1 / 8))).eeprom.raw
        (.EEPROM_UVLO_MESH_BED_LEVELING (2 * 4))) = 125 := by
  have hf : ⌊f32 (f32 ((Machine.leveled (1 / 8)).mbl.z_values (4 / 3 * 3) (4 % 3 * 3) * 1000)
      + 1 / 2)⌋ = 125 := float_floor_eighth
  refine ⟨by decide, rfl, ?_⟩
  rw [((uvlo_mesh_snapshot (Machine.leveled (1 / 8)) 4 (by decide)).2.1 rfl
    (by rw [hf]; decide) (by rw [hf]; decide)).1, hf]

/-! ## The recovery at boot -/

theorem events_of_eq (f : Machine → Machine) (s : Machine) (l : List Event)
    (h : (f s).log = s.log ++ l) : events_of f s = l := by
  simp [events_of, h]

theorem restore_chdir_log (n : Nat) : ∀ (i : Nat) (s : Machine),
    (restore_chdir n i s).log = s.log ++ restore_chdir_events s.eeprom n i := by
  induction n with
  | zero => intro i s; simp [restore_chdir, restore_chdir_events]
  | succ n ih => intro i s; simp [restore_chdir, restore_chdir_events, ih]

theorem restore_print_from_eeprom_cmdbuffer (t : Machine) :
    (restore_print_from_eeprom t).cmdbuffer
      = t.cmdbuffer ++ (restore_commands t.eeprom).map ui_command := by
  by_cases h : eeprom_read_byte .EEPROM_UVLO_E_ABS t.eeprom = 0 <;>
  simp [restore_print_from_eeprom, restore_chdir_cmdbuffer, restore_chdir_eeprom, h,
    ui_command, restore_commands]

theorem restore_print_from_eeprom_log (t : Machine) :
    (restore_print_from_eeprom t).log
      = t.log ++ restore_chdir_events t.eeprom (eeprom_read_byte .EEPROM_DIR_DEPTH t.eeprom) 0
          ++ (restore_commands t.eeprom).map Event.enquecommand := by
  by_cases h : eeprom_read_byte .EEPROM_UVLO_E_ABS t.eeprom = 0 <;>
  simp [restore_print_from_eeprom, restore_chdir_log, restore_chdir_eeprom, h,
    restore_commands]

theorem restore_print_from_eeprom_eeprom (t : Machine) :
    (restore_print_from_eeprom t).eeprom = t.eeprom := by
  by_cases h : eeprom_read_byte .EEPROM_UVLO_E_ABS t.eeprom = 0 <;>
  simp [restore_print_from_eeprom, restore_chdir_eeprom, h]

theorem restore_commands_clear_flag (m : Eeprom) (v : Nat) :
    restore_commands (m.write (.raw .EEPROM_UVLO v)) = restore_commands m := by
  simp [restore_commands, eeprom_read_cstring, eeprom_read_byte, eeprom_read_float,
    eeprom_read_dword, EEPROM_read_B, Eeprom.write]

theorem eeprom_read_cstring_clear_flag (base : Nat → EepromCell) (n : Nat) (m : Eeprom)
    (v : Nat) (h : ∀ j, base j ≠ .EEPROM_UVLO) :
    eeprom_read_cstring base n (m.write (.raw .EEPROM_UVLO v)) = eeprom_read_cstring base n m := by
  simp [eeprom_read_cstring, eeprom_read_byte, Eeprom.write, h]

theorem restore_chdir_events_clear_flag (m : Eeprom) (v : Nat) (n : Nat) : ∀ i : Nat,
    restore_chdir_events (m.write (.raw .EEPROM_UVLO v)) n i = restore_chdir_events m n i := by
  induction n with
  | zero => intro i; rfl
  | succ n ih =>
      intro i
      simp only [restore_chdir_events, ih]
      rw [eeprom_read_cstring_clear_flag _ _ _ _ (by intro j; simp)]

theorem recover_machine_state_eeprom (s : Machine) :
    (recover_machine_state_after_power_panic s).eeprom = s.eeprom := by
  by_cases h1 : eeprom_read_byte .EEPROM_UVLO_E_ABS s.eeprom = 0 <;>
  cases h2 : (recover_mesh s.eeprom 9 0 { s.mbl with active := false }).active <;>
  simp [recover_machine_state_after_power_panic, h1, h2]

theorem recover_machine_state_cfg (s : Machine) :
    (recover_machine_state_after_power_panic s).cfg = s.cfg := by
  by_cases h1 : eeprom_read_byte .EEPROM_UVLO_E_ABS s.eeprom = 0 <;>
  cases h2 : (recover_mesh s.eeprom 9 0 { s.mbl with active := false }).active <;>
  simp [recover_machine_state_after_power_panic, h1, h2]

theorem recover_machine_state_active_extruder (s : Machine) :
    (recover_machine_state_after_power_panic s).active_extruder = s.active_extruder := by
  by_cases h1 : eeprom_read_byte .EEPROM_UVLO_E_ABS s.eeprom = 0 <;>
  cases h2 : (recover_mesh s.eeprom 9 0 { s.mbl with active := false }).active <;>
  simp [recover_machine_state_after_power_panic, h1, h2]

theorem recover_machine_state_cmdbuffer (s : Machine) :
    (recover_machine_state_after_power_panic s).cmdbuffer
      = s.cmdbuffer ++ (recover_state_commands s.eeprom).map ui_command := by
  by_cases h1 : eeprom_read_byte .EEPROM_UVLO_E_ABS s.eeprom = 0 <;>
  cases h2 : (recover_mesh s.eeprom 9 0 { s.mbl with active := false }).active <;>
  simp [recover_machine_state_after_power_panic, h1, h2, ui_command, recover_state_commands]

theorem recover_machine_state_current_position (s : Machine) :
    (recover_machine_state_after_power_panic s).current_position
      = { x := eeprom_read_float (.EEPROM_UVLO_CURRENT_POSITION 0) s.eeprom,
          y := eeprom_read_float (.EEPROM_UVLO_CURRENT_POSITION 4) s.eeprom,
          z := recovered_z s.cfg s.eeprom,
          e := recovered_e s } := by
  by_cases h1 : eeprom_read_byte .EEPROM_UVLO_E_ABS s.eeprom = 0 <;>
  cases h2 : (recover_mesh s.eeprom 9 0 { s.mbl with active := false }).active <;>
  simp [recover_machine_state_after_power_panic, h1, h2, recovered_z, recovered_e]

theorem recover_machine_state_target_temperature (s : Machine) (x : Nat) :
    (recover_machine_state_after_power_panic s).target_temperature x
      = if x = s.active_extruder then (eeprom_read_byte .EEPROM_UVLO_TARGET_HOTEND s.eeprom : Int)
        else s.target_temperature x := by
  by_cases h1 : eeprom_read_byte .EEPROM_UVLO_E_ABS s.eeprom = 0 <;>
  cases h2 : (recover_mesh s.eeprom 9 0 { s.mbl with active := false }).active <;>
  simp [recover_machine_state_after_power_panic, h1, h2, Function.update_apply]

theorem recover_machine_state_target_temperature_bed (s : Machine) :
    (recover_machine_state_after_power_panic s).target_temperature_bed
      = (eeprom_read_byte .EEPROM_UVLO_TARGET_BED s.eeprom : Int) := by
  by_cases h1 : eeprom_read_byte .EEPROM_UVLO_E_ABS s.eeprom = 0 <;>
  cases h2 : (recover_mesh s.eeprom 9 0 { s.mbl with active := false }).active <;>
  simp [recover_machine_state_after_power_panic, h1, h2]

theorem recover_machine_state_mbl (s : Machine) :
    (recover_machine_state_after_power_panic s).mbl
      = if (recovered_mesh s).active then
          { recovered_mesh s with
            z_values := (recovered_mesh s).upsample_3x3 (recovered_mesh s).z_values }
        else recovered_mesh s := by
  unfold recovered_mesh
  by_cases h1 : eeprom_read_byte .EEPROM_UVLO_E_ABS s.eeprom = 0 <;>
  cases h2 : (recover_mesh s.eeprom 9 0 { s.mbl with active := false }).active <;>
  simp [recover_machine_state_after_power_panic, h1, h2, mbl_upsample_3x3]

theorem recover_machine_state_log (s : Machine) :
    (recover_machine_state_after_power_panic s).log = s.log ++ recover_state_events s := by
  unfold recover_state_events recovered_mesh
  by_cases h1 : eeprom_read_byte .EEPROM_UVLO_E_ABS s.eeprom = 0 <;>
  cases h2 : (recover_mesh s.eeprom 9 0 { s.mbl with active := false }).active <;>
  simp [recover_machine_state_after_power_panic, h1, h2, recover_state_commands, recovered_z,
    recovered_e]

theorem recover_print_cmdbuffer (automatic : Nat) (s : Machine) :
    (recover_print automatic s).cmdbuffer
      = s.cmdbuffer ++ (recover_print_commands automatic s).map ui_command := by
  by_cases h1 : recovered_z s.cfg s.eeprom < 25 <;>
  by_cases h2 : automatic = 0 <;>
  simp [recover_print, restore_print_from_eeprom_cmdbuffer, eeprom_update_byte,
    recover_machine_state_cmdbuffer, recover_machine_state_eeprom,
    recover_machine_state_current_position, recover_machine_state_target_temperature,
    recover_machine_state_target_temperature_bed, recover_machine_state_active_extruder,
    recover_machine_state_cfg, restore_commands_clear_flag, recover_print_commands,
    recover_print_head_commands, h1, h2, ui_command]

theorem recover_print_log (automatic : Nat) (s : Machine) :
    (recover_print automatic s).log
      = s.log ++ recover_state_events s
        ++ (recover_print_head_commands automatic s).map Event.enquecommand
        ++ [.eeprom (.raw .EEPROM_UVLO 0)]
        ++ restore_chdir_events s.eeprom (eeprom_read_byte .EEPROM_DIR_DEPTH s.eeprom) 0
        ++ (restore_commands s.eeprom).map Event.enquecommand := by
  have hd : eeprom_read_byte .EEPROM_DIR_DEPTH (s.eeprom.write (.raw .EEPROM_UVLO 0))
      = eeprom_read_byte .EEPROM_DIR_DEPTH s.eeprom := by
    simp [eeprom_read_byte, Eeprom.write]
  by_cases h1 : recovered_z s.cfg s.eeprom < 25 <;>
  by_cases h2 : automatic = 0 <;>
  simp [recover_print, restore_print_from_eeprom_log, eeprom_update_byte,
    recover_machine_state_eeprom, recover_machine_state_log,
    recover_machine_state_current_position, recover_machine_state_target_temperature,
    recover_machine_state_target_temperature_bed, recover_machine_state_active_extruder,
    recover_machine_state_cfg, restore_commands_clear_flag, restore_chdir_events_clear_flag,
    recover_print_head_commands, h1, h2, to_uint8, hd]

theorem recover_print_eeprom (automatic : Nat) (s : Machine) :
    (recover_print automatic s).eeprom = s.eeprom.write (.raw .EEPROM_UVLO 0) := by
  by_cases h1 : recovered_z s.cfg s.eeprom < 25 <;>
  by_cases h2 : automatic = 0 <;>
  simp [recover_print, restore_print_from_eeprom_eeprom, eeprom_update_byte,
    recover_machine_state_eeprom,
    recover_machine_state_current_position, h1, h2, to_uint8]

theorem to_int16_range (i : Int) : -32768 ≤ to_int16 i ∧ to_int16 i ≤ 32767 := by
  unfold to_int16
  omega

theorem mesh_sample_range (m : Eeprom) (p : Nat) :
    -32768 ≤ mesh_sample m p ∧ mesh_sample m p ≤ 32767 :=
  to_int16_range _

theorem recover_mesh_succ (m : Eeprom) (n k : Nat) (mbl : mesh_bed_leveling) :
    recover_mesh m (n + 1) k mbl
      = recover_mesh m n (k + 1)
          { active := if mesh_sample m k ≠ 0 then true else mbl.active,
            z_values := fun i j =>
              if i = k / 3 ∧ j = k % 3 then f32 ((mesh_sample m k : ℚ) * f32 (1 / 1000))
              else mbl.z_values i j,
            upsample_3x3 := mbl.upsample_3x3 } := by
  simp only [recover_mesh, mesh_sample, MESH_MEAS_NUM_X_POINTS]

theorem recover_mesh_upsample (m : Eeprom) (n : Nat) : ∀ (k : Nat) (mbl : mesh_bed_leveling),
    (recover_mesh m n k mbl).upsample_3x3 = mbl.upsample_3x3 := by
  induction n with
  | zero => intro k mbl; rfl
  | succ n ih => intro k mbl; rw [recover_mesh_succ, ih]

theorem recover_mesh_active (m : Eeprom) (n : Nat) : ∀ (k : Nat) (mbl : mesh_bed_leveling),
    ((recover_mesh m n k mbl).active = true
      ↔ mbl.active = true ∨ ∃ p, k ≤ p ∧ p < k + n ∧ mesh_sample m p ≠ 0) := by
  induction n with
  | zero =>
      intro k mbl
      constructor
      · intro h; exact Or.inl h
      · rintro (h | ⟨p, h1, h2, _⟩)
        · exact h
        · omega
  | succ n ih =>
      intro k mbl
      rw [recover_mesh_succ, ih]
      constructor
      · rintro (h | ⟨p, h1, h2, h3⟩)
        · by_cases hk : mesh_sample m k ≠ 0
          · have hlt : k < k + (n + 1) := by omega
            exact Or.inr ⟨k, le_refl k, hlt, hk⟩
          · rw [if_neg hk] at h
            exact Or.inl h
        · have hle : k ≤ p := by omega
          have hlt : p < k + (n + 1) := by omega
          exact Or.inr ⟨p, hle, hlt, h3⟩
      · rintro (h | ⟨p, h1, h2, h3⟩)
        · left
          by_cases hk : mesh_sample m k ≠ 0
          · rw [if_pos hk]
          · rw [if_neg hk]; exact h
        · rcases Nat.eq_or_lt_of_le h1 with heq | hlt
          · left
            subst heq
            rw [if_pos h3]
          · have hle : k + 1 ≤ p := by omega
            have hlt2 : p < k + 1 + n := by omega
            exact Or.inr ⟨p, hle, hlt2, h3⟩

theorem recover_mesh_z_values_other (m : Eeprom) (i j : Nat) (n : Nat) :
    ∀ (k : Nat) (mbl : mesh_bed_leveling),
      (∀ q, k ≤ q → q < k + n → ¬ (i = q / 3 ∧ j = q % 3)) →
      (recover_mesh m n k mbl).z_values i j = mbl.z_values i j := by
  induction n with
  | zero => intro k mbl _; rfl
  | succ n ih =>
      intro k mbl h
      rw [recover_mesh_succ, ih _ _ (fun q h1 h2 => h q (by omega) (by omega))]
      have hk := h k (le_refl _) (by omega)
      simp only [hk, if_false]

theorem recover_mesh_z_values (m : Eeprom) (p : Nat) (n : Nat) :
    ∀ (k : Nat) (mbl : mesh_bed_leveling), k ≤ p → p < k + n →
      (recover_mesh m n k mbl).z_values (p / 3) (p % 3)
        = f32 ((mesh_sample m p : ℚ) * f32 (1 / 1000)) := by
  induction n with
  | zero => intro k mbl h1 h2; omega
  | succ n ih =>
      intro k mbl h1 h2
      rw [recover_mesh_succ]
      rcases Nat.eq_or_lt_of_le h1 with heq | hlt
      · subst heq
        rw [recover_mesh_z_values_other]
        · simp
        · intro q hq1 hq2 ⟨e1, e2⟩
          omega
      · exact ih _ _ (by omega) (by omega)

theorem recovered_mesh_active (s : Machine) :
    (recovered_mesh s).active = true ↔ ∃ p, p < 9 ∧ mesh_sample s.eeprom p ≠ 0 := by
  unfold recovered_mesh
  rw [recover_mesh_active]
  constructor
  · rintro (h | ⟨p, _, h2, h3⟩)
    · simp at h
    · exact ⟨p, by omega, h3⟩
  · rintro ⟨p, h2, h3⟩
    exact Or.inr ⟨p, Nat.zero_le _, by omega, h3⟩

theorem recovered_mesh_z_values (s : Machine) (p : Nat) (hp : p < 9) :
    (recovered_mesh s).z_values (p / 3) (p % 3)
      = f32 ((mesh_sample s.eeprom p : ℚ) * f32 (1 / 1000)) :=
  recover_mesh_z_values _ _ _ _ _ (Nat.zero_le _) (by omega)

theorem recovered_mesh_upsample (s : Machine) :
    (recovered_mesh s).upsample_3x3 = s.mbl.upsample_3x3 :=
  recover_mesh_upsample _ _ _ _

theorem uvlo_position_z_stored (s : Machine) :
    (uvlo_ s).eeprom.flt .EEPROM_UVLO_CURRENT_POSITION_Z = s.st_position.z := by
  cases h : s.card.sdprinting <;>
  simp [uvlo_, h, eeprom_update_byte, eeprom_update_word, eeprom_update_dword,
    eeprom_update_float, EEPROM_save_B, uvlo_store_mesh, Eeprom.write]

theorem uvlo_z_microsteps_stored (s : Machine) :
    (uvlo_ s).eeprom.raw .EEPROM_UVLO_Z_MICROSTEPS = to_uint16 s.tmc2130_MSCNT_Z := by
  have h16 : to_uint16 ((to_uint16 (s.tmc2130_MSCNT_Z : Int) : Nat) : Int)
      = to_uint16 (s.tmc2130_MSCNT_Z : Int) := by
    unfold to_uint16; omega
  cases h : s.card.sdprinting <;>
  simp [uvlo_, h, eeprom_update_byte, eeprom_update_word, eeprom_update_dword,
    eeprom_update_float, EEPROM_save_B, uvlo_store_mesh, Eeprom.write, h16]

theorem uvlo_z_move_planned (s : Machine) :
    Event.plan_buffer_line s.st_position.x s.st_position.y
        (s.st_position.z + s.cfg.UVLO_Z_AXIS_SHIFT
          + (full_step_offset (to_uint16 s.tmc2130_MSCNT_Z) : ℚ) / s.cfg.axis_steps_per_unit_Z)
        (s.st_position.e - s.cfg.DEFAULT_RETRACTION) 40 s.active_extruder
      ∈ events_of uvlo_ s := by
  cases h : s.card.sdprinting <;>
  simp [events_of, uvlo_, h, eeprom_update_byte, eeprom_update_word, eeprom_update_dword,
    eeprom_update_float, EEPROM_save_B, uvlo_store_mesh]

theorem uvlo_st_position_z (s : Machine) :
    (uvlo_ s).st_position.z
      = s.st_position.z + s.cfg.UVLO_Z_AXIS_SHIFT
          + (full_step_offset (to_uint16 s.tmc2130_MSCNT_Z) : ℚ) / s.cfg.axis_steps_per_unit_Z := by
  cases h : s.card.sdprinting <;>
  simp [uvlo_, h, eeprom_update_byte, eeprom_update_word, eeprom_update_dword,
    eeprom_update_float, EEPROM_save_B, uvlo_store_mesh]

theorem full_step_offset_of_phase (p : Nat) (hp : p ≤ 1023) :
    full_step_offset p = (1024 - p + 7) / 16 := by
  unfold full_step_offset to_uint16
  rw [Nat.shiftRight_eq_div_pow]
  have : ((1024 - (p : Int) + 7) % 65536).toNat = 1024 - p + 7 := by omega
  rw [this]

theorem Machine.rebooted_eeprom (s : Machine) : (Machine.rebooted s).eeprom = (uvlo_ s).eeprom :=
  rfl


theorem commands_of_eq (f : Machine → Machine) (s : Machine) (l : List (List Tok))
    (h : (f s).cmdbuffer = s.cmdbuffer ++ l.map ui_command) : commands_of f s = l := by
  simp [commands_of, h, List.map_map, Function.comp_def, ui_command]

theorem commands_of_recover_print (automatic : Nat) (s : Machine) :
    commands_of (recover_print automatic) s = recover_print_commands automatic s :=
  commands_of_eq _ _ _ (recover_print_cmdbuffer automatic s)

theorem commands_of_restore_print_from_eeprom (t : Machine) :
    commands_of restore_print_from_eeprom t = restore_commands t.eeprom :=
  commands_of_eq _ _ _ (restore_print_from_eeprom_cmdbuffer t)

theorem recover_print_events_eq (automatic : Nat) (s : Machine) :
    events_of (recover_print automatic) s = recover_print_events automatic s := by
  apply events_of_eq
  rw [recover_print_log]
  simp [recover_print_events]

theorem uvlo_position_x_stored (s : Machine) :
    (uvlo_ s).eeprom.flt (.EEPROM_UVLO_CURRENT_POSITION 0) = s.st_position.x := by
  cases h : s.card.sdprinting <;>
  simp [uvlo_, h, eeprom_update_byte, eeprom_update_word, eeprom_update_dword,
    eeprom_update_float, EEPROM_save_B, uvlo_store_mesh, Eeprom.write]

theorem uvlo_position_y_stored (s : Machine) :
    (uvlo_ s).eeprom.flt (.EEPROM_UVLO_CURRENT_POSITION 4) = s.st_position.y := by
  cases h : s.card.sdprinting <;>
  simp [uvlo_, h, eeprom_update_byte, eeprom_update_word, eeprom_update_dword,
    eeprom_update_float, EEPROM_save_B, uvlo_store_mesh, Eeprom.write]

theorem uvlo_feedrate_stored (s : Machine) :
    (uvlo_ s).eeprom.raw .EEPROM_UVLO_FEEDRATE
      = to_uint16 (uvlo_feedrate_bckp s.block_buffer s.feedrate) := by
  cases h : s.card.sdprinting <;>
  simp [uvlo_, h, eeprom_update_byte, eeprom_update_word, eeprom_update_dword,
    eeprom_update_float, EEPROM_save_B, uvlo_store_mesh, Eeprom.write]

theorem EEPROM_read_B_feedrate (s t : Machine)
    (hf : t.eeprom.raw .EEPROM_UVLO_FEEDRATE = (uvlo_ s).eeprom.raw .EEPROM_UVLO_FEEDRATE) :
    EEPROM_read_B .EEPROM_UVLO_FEEDRATE t.eeprom = uvlo_feedrate_bckp s.block_buffer s.feedrate := by
  unfold EEPROM_read_B
  rw [hf, uvlo_feedrate_stored]
  unfold uvlo_feedrate_bckp
  generalize float_trunc (feedrate_of_planner s.block_buffer s.feedrate) = v
  unfold to_int16 to_uint16
  omega

theorem setup_uvlo_warm (b : Bool) (s : Machine)
    (h : eeprom_read_byte .EEPROM_UVLO s.eeprom = 1) (hw : bed_still_warm s) :
    setup_uvlo b s = recover_print 1 (emit .manage_heater s) := by
  unfold bed_still_warm at hw
  unfold setup_uvlo
  rw [if_pos h]
  exact if_pos hw

theorem setup_uvlo_asked_yes (s : Machine)
    (h : eeprom_read_byte .EEPROM_UVLO s.eeprom = 1) (hw : ¬ bed_still_warm s) :
    setup_uvlo true s
      = recover_print 0 (emit .lcd_show_fullscreen_message_yes_no_and_wait_P
          (emit .manage_heater s)) := by
  unfold bed_still_warm at hw
  unfold setup_uvlo
  rw [if_pos h]
  exact (if_neg hw).trans rfl

theorem setup_uvlo_asked_no (s : Machine)
    (h : eeprom_read_byte .EEPROM_UVLO s.eeprom = 1) (hw : ¬ bed_still_warm s) :
    setup_uvlo false s
      = eeprom_update_byte .EEPROM_UVLO 0 (emit .lcd_show_fullscreen_message_yes_no_and_wait_P
          (emit .manage_heater s)) := by
  unfold bed_still_warm at hw
  unfold setup_uvlo
  rw [if_pos h]
  exact (if_neg hw).trans rfl

theorem recover_print_commands_emit (automatic : Nat) (ev : Event) (s : Machine) :
    recover_print_commands automatic (emit ev s) = recover_print_commands automatic s := rfl

theorem recover_print_events_emit (automatic : Nat) (ev : Event) (s : Machine) :
    recover_print_events automatic (emit ev s) = recover_print_events automatic s := rfl

theorem setup_uvlo_cmdbuffer_warm (b : Bool) (s : Machine)
    (h : eeprom_read_byte .EEPROM_UVLO s.eeprom = 1) (hw : bed_still_warm s) :
    commands_of (setup_uvlo b) s = recover_print_commands 1 s := by
  apply commands_of_eq
  rw [setup_uvlo_warm b s h hw, recover_print_cmdbuffer, recover_print_commands_emit]
  rfl

theorem setup_uvlo_cmdbuffer_asked_yes (s : Machine)
    (h : eeprom_read_byte .EEPROM_UVLO s.eeprom = 1) (hw : ¬ bed_still_warm s) :
    commands_of (setup_uvlo true) s = recover_print_commands 0 s := by
  apply commands_of_eq
  rw [setup_uvlo_asked_yes s h hw, recover_print_cmdbuffer, recover_print_commands_emit,
    recover_print_commands_emit]
  rfl

theorem setup_uvlo_cmdbuffer_asked_no (s : Machine)
    (h : eeprom_read_byte .EEPROM_UVLO s.eeprom = 1) (hw : ¬ bed_still_warm s) :
    commands_of (setup_uvlo false) s = [] := by
  apply commands_of_eq
  rw [setup_uvlo_asked_no s h hw]
  simp [eeprom_update_byte]

theorem setup_uvlo_events_warm (b : Bool) (s : Machine)
    (h : eeprom_read_byte .EEPROM_UVLO s.eeprom = 1) (hw : bed_still_warm s) :
    events_of (setup_uvlo b) s = Event.manage_heater :: recover_print_events 1 s := by
  apply events_of_eq
  rw [setup_uvlo_warm b s h hw, recover_print_log]
  simp [recover_print_events, recover_state_events, recovered_mesh, recover_state_commands,
    recovered_z, recovered_e, recover_print_head_commands]

theorem setup_uvlo_events_asked_yes (s : Machine)
    (h : eeprom_read_byte .EEPROM_UVLO s.eeprom = 1) (hw : ¬ bed_still_warm s) :
    events_of (setup_uvlo true) s
      = Event.manage_heater :: Event.lcd_show_fullscreen_message_yes_no_and_wait_P
          :: recover_print_events 0 s := by
  apply events_of_eq
  rw [setup_uvlo_asked_yes s h hw, recover_print_log]
  simp [recover_print_events, recover_state_events, recovered_mesh, recover_state_commands,
    recovered_z, recovered_e, recover_print_head_commands]

theorem setup_uvlo_events_asked_no (s : Machine)
    (h : eeprom_read_byte .EEPROM_UVLO s.eeprom = 1) (hw : ¬ bed_still_warm s) :
    events_of (setup_uvlo false) s
      = [Event.manage_heater, Event.lcd_show_fullscreen_message_yes_no_and_wait_P,
         Event.eeprom (.raw .EEPROM_UVLO 0)] := by
  apply events_of_eq
  rw [setup_uvlo_asked_no s h hw]
  simp [eeprom_update_byte, to_uint8]

theorem setup_uvlo_flag (b : Bool) (s : Machine)
    (h : eeprom_read_byte .EEPROM_UVLO s.eeprom = 1) :
    (setup_uvlo b s).eeprom.raw .EEPROM_UVLO = 0 := by
  by_cases hw : bed_still_warm s
  · rw [setup_uvlo_warm b s h hw, recover_print_eeprom]
    simp [Eeprom.write]
  · cases b
    · rw [setup_uvlo_asked_no s h hw]
      simp [eeprom_update_byte, Eeprom.write, to_uint8]
    · rw [setup_uvlo_asked_yes s h hw, recover_print_eeprom]
      simp [Eeprom.write]

theorem enquecommand_mem_recover_state_events (s : Machine) (c : List Tok)
    (h : Event.enquecommand c ∈ recover_state_events s) : c ∈ recover_state_commands s.eeprom := by
  unfold recover_state_events at h
  cases hm : (recovered_mesh s).active <;>
  simpa [hm] using h

/-- The sample recovery reads back from a cell that holds what `uvlo_` wrote
with leveling active. -/
theorem mesh_sample_after_uvlo (s t : Machine) (p : Nat) (hp : p < 9)
    (ha : s.mbl.active = true)
    (hcell : t.eeprom.raw (.EEPROM_UVLO_MESH_BED_LEVELING (2 * p))
      = (uvlo_ s).eeprom.raw (.EEPROM_UVLO_MESH_BED_LEVELING (2 * p))) :
    mesh_sample t.eeprom p
      = to_int16 ⌊f32 (f32 (s.mbl.z_values (p / 3 * 3) (p % 3 * 3) * 1000) + 1 / 2)⌋ := by
  unfold mesh_sample eeprom_read_word
  rw [hcell, uvlo_mesh_stored s p hp, Nat.mod_eq_of_lt (to_uint16_lt _), to_int16_to_uint16]
  simp only [uvlo_mesh_value, MESH_MEAS_NUM_X_POINTS, ha, if_true]
  unfold to_int16
  omega

/-! ## Claims on the recovery -/

/-- C11. On recovery `recover_machine_state_after_power_panic` leaves leveling
active if and only if at least one of the nine persisted samples is non-zero;
its loop writes each sample `v` of point `p` into `mbl.z_values[p div 3][p mod 3]`
as `v * 0.001`, which is the `float` product `float(v) * 0.001f`, within
0.0000036 of the exact `v / 1000`; `mbl.upsample_3x3` runs exactly when leveling was marked active
(once, on the table the loop wrote, otherwise that table is left as it is); with
nine zero samples leveling ends inactive and no upsampling runs. -/
theorem recover_mesh_bed_leveling (s : Machine) :
    ((recover_machine_state_after_power_panic s).mbl.active = true
        ↔ ∃ p, p < 9 ∧ mesh_sample s.eeprom p ≠ 0)
    ∧ (∀ p, p < 9 →
        (recovered_mesh s).z_values (p / 3) (p % 3)
          = f32 ((mesh_sample s.eeprom p : ℚ) * f32 (1 / 1000)))
    ∧ (∀ p, p < 9 →
        |(recovered_mesh s).z_values (p / 3) (p % 3) - (mesh_sample s.eeprom p : ℚ) / 1000|
          ≤ 36 / 10000000)
    ∧ (recover_machine_state_after_power_panic s).mbl.z_values
        = (if (recover_machine_state_after_power_panic s).mbl.active then
            s.mbl.upsample_3x3 (recovered_mesh s).z_values
           else (recovered_mesh s).z_values)
    ∧ (events_of recover_machine_state_after_power_panic s).count Event.upsample_3x3
        = (if (recover_machine_state_after_power_panic s).mbl.active then 1 else 0)
    ∧ ((∀ p, p < 9 → mesh_sample s.eeprom p = 0) →
        (recover_machine_state_after_power_panic s).mbl.active = false
        ∧ Event.upsample_3x3 ∉ events_of recover_machine_state_after_power_panic s) := by
  have hact : (recover_machine_state_after_power_panic s).mbl.active = (recovered_mesh s).active := by
    rw [recover_machine_state_mbl]; split <;> simp_all
  have hev := events_of_eq _ _ _ (recover_machine_state_log s)
  have hcount : (events_of recover_machine_state_after_power_panic s).count Event.upsample_3x3
      = (if (recover_machine_state_after_power_panic s).mbl.active then 1 else 0) := by
    rw [hev, hact]
    unfold recover_state_events recover_state_commands
    by_cases h1 : eeprom_read_byte .EEPROM_UVLO_E_ABS s.eeprom = 0 <;>
    cases h2 : (recovered_mesh s).active <;>
    simp [h1, h2, List.count_cons]
  refine ⟨?_, recovered_mesh_z_values s, ?_, ?_, hcount, ?_⟩
  · rw [hact]; exact recovered_mesh_active s
  · intro p hp
    rw [recovered_mesh_z_values s p hp]
    exact mesh_restored_error _ (mesh_sample_range _ _).1 (mesh_sample_range _ _).2
  · rw [hact, recover_machine_state_mbl, ← recovered_mesh_upsample]
    split <;> simp_all
  · intro hz
    have hina : (recover_machine_state_after_power_panic s).mbl.active = false := by
      rw [hact]
      by_contra hne
      have htrue : (recovered_mesh s).active = true := by simpa using hne
      obtain ⟨p, hp, hv⟩ := (recovered_mesh_active s).1 htrue
      exact hv (hz p hp)
    refine ⟨hina, ?_⟩
    intro hmem
    have := List.count_pos_iff.2 hmem
    rw [hcount, hina] at this
    simp at this

/-- C12 (as stated, refuted). Leveling active with every height 0.0625 mm
(exact in the `float` format), point 4: `floor(1000*z + 0.5)` is 63, in the
range of `int16_t`, and `uvlo_` stores 63; after the reboot the recovery loop
restores `float(63) * 0.001f`, which is 8455717 / 2^27 (0.063000001...), not
63/1000, and its distance from 0.0625 is greater than 0.0005. -/
theorem mesh_round_trip_exceeds_half_micron :
    (Machine.leveled (1 / 16)).mbl.active = true
    ∧ ⌊(Machine.leveled (1 / 16)).mbl.z_values (4 / 3 * 3) (4 % 3 * 3) * 1000 + 1 / 2⌋ = 63
    ∧ (recovered_mesh (Machine.rebooted (Machine.leveled (1 / 16)))).z_values (4 / 3) (4 % 3)
        = 8455717 / 134217728
    ∧ 1 / 2000
        < |(recovered_mesh (Machine.rebooted (Machine.leveled (1 / 16)))).z_values (4 / 3) (4 % 3)
            - (Machine.leveled (1 / 16)).mbl.z_values (4 / 3 * 3) (4 % 3 * 3)| := by
  have hf : ⌊f32 (f32 ((Machine.leveled (1 / 16)).mbl.z_values (4 / 3 * 3) (4 % 3 * 3) * 1000)
      + 1 / 2)⌋ = 63 := float_floor_sixteenth
  have hs : mesh_sample (Machine.rebooted (Machine.leveled (1 / 16))).eeprom 4 = 63 := by
    rw [mesh_sample_after_uvlo (Machine.leveled (1 / 16)) _ 4 (by decide) rfl
      (by rw [Machine.rebooted_eeprom]), hf]
    decide
  have hz : (recovered_mesh (Machine.rebooted (Machine.leveled (1 / 16)))).z_values (4 / 3) (4 % 3)
      = 8455717 / 134217728 := by
    rw [recovered_mesh_z_values _ 4 (by decide), hs, f32_63_thousandths]
  refine ⟨rfl, ?_, hz, ?_⟩
  · show ⌊(1 / 16 : ℚ) * 1000 + 1 / 2⌋ = 63
    rw [Int.floor_eq_iff]; norm_num
  · rw [hz]
    show (1 : ℚ) / 2000 < |8455717 / 134217728 - 1 / 16|
    rw [abs_of_pos] <;> norm_num

/-- C12 (amended). Leveling round trip. For every state `s` at the power loss
with leveling active, every mesh point `p` in 0..8 whose sampled height
`z = mbl.z_values[(p div 3)*3][(p mod 3)*3]` has a scaled value
`floor(z * 1000.f + 0.5f)` (as `uvlo_` computes it, in `float` arithmetic) in
-32768..32767, and every state `t` at recovery whose cell
`EEPROM_UVLO_MESH_BED_LEVELING + 2p` holds what `uvlo_` wrote from `s`: the
height the loop of `recover_machine_state_after_power_panic` restores for the
point is the `float` product of that scaled value and `0.001f`; it is within
0.0000036 of the scaled value divided by 1000, and it differs from `z` by at
most 0.00051 mm. -/
theorem mesh_round_trip (s t : Machine) (p : Nat) (hp : p < 9)
    (ha : s.mbl.active = true)
    (h1 : -32768 ≤ ⌊f32 (f32 (s.mbl.z_values (p / 3 * 3) (p % 3 * 3) * 1000) + 1 / 2)⌋)
    (h2 : ⌊f32 (f32 (s.mbl.z_values (p / 3 * 3) (p % 3 * 3) * 1000) + 1 / 2)⌋ ≤ 32767)
    (hcell : t.eeprom.raw (.EEPROM_UVLO_MESH_BED_LEVELING (2 * p))
      = (uvlo_ s).eeprom.raw (.EEPROM_UVLO_MESH_BED_LEVELING (2 * p))) :
    (recovered_mesh t).z_values (p / 3) (p % 3)
      = f32 ((⌊f32 (f32 (s.mbl.z_values (p / 3 * 3) (p % 3 * 3) * 1000) + 1 / 2)⌋ : ℚ)
          * f32 (1 / 1000))
    ∧ |(recovered_mesh t).z_values (p / 3) (p % 3)
        - (⌊f32 (f32 (s.mbl.z_values (p / 3 * 3) (p % 3 * 3) * 1000) + 1 / 2)⌋ : ℚ) / 1000|
        ≤ 36 / 10000000
    ∧ |(recovered_mesh t).z_values (p / 3) (p % 3) - s.mbl.z_values (p / 3 * 3) (p % 3 * 3)|
        ≤ 51 / 100000 := by
  have hs : mesh_sample t.eeprom p
      = ⌊f32 (f32 (s.mbl.z_values (p / 3 * 3) (p % 3 * 3) * 1000) + 1 / 2)⌋ := by
    rw [mesh_sample_after_uvlo s t p hp ha hcell, to_int16_of_range _ h1 h2]
  have hz : (recovered_mesh t).z_values (p / 3) (p % 3)
      = f32 ((⌊f32 (f32 (s.mbl.z_values (p / 3 * 3) (p % 3 * 3) * 1000) + 1 / 2)⌋ : ℚ)
          * f32 (1 / 1000)) := by
    rw [recovered_mesh_z_values t p hp, hs]
  refine ⟨hz, ?_, ?_⟩
  · rw [hz]; exact mesh_restored_error _ h1 h2
  · rw [hz]; exact mesh_round_trip_error _ h1 h2

/-- C12 (witness): leveling active with every height 0.125 mm, point 4; the
machine is rebooted with the EEPROM `uvlo_` left; the restored height has the
stated distance from 0.125. -/
theorem mesh_round_trip_witness :
    4 < 9 ∧ (Machine.leveled (1 / 8)).mbl.active = true
    ∧ |(recovered_mesh (Machine.rebooted (Machine.leveled (1 / 8)))).z_values (4 / 3) (4 % 3)
        - (Machine.leveled (1 / 8)).mbl.z_values (4 / 3 * 3) (4 % 3 * 3)| ≤ 51 / 100000 := by
  have hf : ⌊f32 (f32 ((Machine.leveled (1 / 8)).mbl.z_values (4 / 3 * 3) (4 % 3 * 3) * 1000)
      + 1 / 2)⌋ = 125 := float_floor_eighth
  exact ⟨by decide, rfl,
    (mesh_round_trip (Machine.leveled (1 / 8)) (Machine.rebooted (Machine.leveled (1 / 8))) 4
      (by decide) rfl (by rw [hf]; decide) (by rw [hf]; decide)
      (by rw [Machine.rebooted_eeprom])).2.2⟩

/-- C13 (as stated, refuted). With the saved phase `p = 600`, the saved
logical Z 0, `UVLO_Z_AXIS_SHIFT = 2` and 400 steps per mm, recovery sets
`current_position[Z_AXIS]` to `0 + 2 + 26/400`: the offset it adds is
`((1024 - 600 + 7) >> 4) / 400 = 26/400`, not `(1024 - 600) / 400 = 424/400`. -/
theorem recovery_offset_at_phase_600 :
    eeprom_read_word .EEPROM_UVLO_Z_MICROSTEPS (Machine.pending 600).eeprom = 600
    ∧ (recover_machine_state_after_power_panic (Machine.pending 600)).current_position.z
        = eeprom_read_float .EEPROM_UVLO_CURRENT_POSITION_Z (Machine.pending 600).eeprom
          + (Machine.pending 600).cfg.UVLO_Z_AXIS_SHIFT
          + 26 / (Machine.pending 600).cfg.axis_steps_per_unit_Z
    ∧ (recover_machine_state_after_power_panic (Machine.pending 600)).current_position.z
        ≠ eeprom_read_float .EEPROM_UVLO_CURRENT_POSITION_Z (Machine.pending 600).eeprom
          + (Machine.pending 600).cfg.UVLO_Z_AXIS_SHIFT
          + (1024 - 600) / (Machine.pending 600).cfg.axis_steps_per_unit_Z := by
  have hw : eeprom_read_word .EEPROM_UVLO_Z_MICROSTEPS (Machine.pending 600).eeprom = 600 := by
    decide
  have ho : full_step_offset 600 = 26 := by decide
  have hz : (recover_machine_state_after_power_panic (Machine.pending 600)).current_position.z
      = 0 + 2 + 26 / 400 := by
    rw [recover_machine_state_current_position]
    simp only [recovered_z, hw, ho]
    simp [Machine.pending, Machine.idle, eeprom_read_float]
  refine ⟨hw, ?_, ?_⟩
  · rw [hz]; simp [Machine.pending, Machine.idle, eeprom_read_float]
  · rw [hz]; simp [Machine.pending, Machine.idle, eeprom_read_float]; norm_num

/-- C13 (amended). For every saved Z micro-step phase `p` in 0..1023 (the
content of `EEPROM_UVLO_Z_MICROSTEPS`), `recover_machine_state_after_power_panic`
sets `current_position[Z_AXIS]` to the saved logical Z plus `UVLO_Z_AXIS_SHIFT`
plus `((1024 - p + 7) >> 4) / axis_steps_per_unit[Z_AXIS]`: the count
`1024 - p + 7` is divided by 16 (rounded down) before it is converted to mm; for
`p = 600` the offset is `26 / axis_steps_per_unit[Z_AXIS]`. -/
theorem recovery_full_step_offset (s : Machine) (p : Nat) (hp : p ≤ 1023)
    (hcell : eeprom_read_word .EEPROM_UVLO_Z_MICROSTEPS s.eeprom = p) :
    (recover_machine_state_after_power_panic s).current_position.z
      = eeprom_read_float .EEPROM_UVLO_CURRENT_POSITION_Z s.eeprom + s.cfg.UVLO_Z_AXIS_SHIFT
        + (((1024 - p + 7) / 16 : Nat) : ℚ) / s.cfg.axis_steps_per_unit_Z := by
  rw [recover_machine_state_current_position]
  simp only [recovered_z, hcell, full_step_offset_of_phase p hp]

/-- C13 (witness): the record with phase 600; the offset is 26 / 400. -/
theorem recovery_full_step_offset_witness :
    600 ≤ 1023
    ∧ eeprom_read_word .EEPROM_UVLO_Z_MICROSTEPS (Machine.pending 600).eeprom = 600
    ∧ (recover_machine_state_after_power_panic (Machine.pending 600)).current_position.z
      = eeprom_read_float .EEPROM_UVLO_CURRENT_POSITION_Z (Machine.pending 600).eeprom
        + (Machine.pending 600).cfg.UVLO_Z_AXIS_SHIFT
        + (((1024 - 600 + 7) / 16 : Nat) : ℚ) / (Machine.pending 600).cfg.axis_steps_per_unit_Z :=
  ⟨by decide, by decide,
   recovery_full_step_offset (Machine.pending 600) 600 (by decide) (by decide)⟩

/-- C14. The logical Z that recovery reconstructs is the Z target `uvlo_`
commanded before power-down. For every state `s` at the interrupt, with `z0`
the logical Z that `planner_abort_hard` leaves in `current_position` and `p`
the phase read from the Z driver: `uvlo_` plans its Z move to
`z0 + UVLO_Z_AXIS_SHIFT + off(p)` (the move is in its log and the head ends
there), and persists `z0` and `p`; for every state `t` at recovery whose two
cells hold these values, with the same `UVLO_Z_AXIS_SHIFT` and the same
`axis_steps_per_unit[Z_AXIS]` as at the save,
`recover_machine_state_after_power_panic` sets `current_position[Z_AXIS]` to
that same target, `off` being `full_step_offset(p) / axis_steps_per_unit[Z_AXIS]`
on both sides. -/
theorem recovered_z_is_uvlo_target (s t : Machine)
    (hz : t.eeprom.flt .EEPROM_UVLO_CURRENT_POSITION_Z
      = (uvlo_ s).eeprom.flt .EEPROM_UVLO_CURRENT_POSITION_Z)
    (hp : t.eeprom.raw .EEPROM_UVLO_Z_MICROSTEPS
      = (uvlo_ s).eeprom.raw .EEPROM_UVLO_Z_MICROSTEPS)
    (hshift : t.cfg.UVLO_Z_AXIS_SHIFT = s.cfg.UVLO_Z_AXIS_SHIFT)
    (hsteps : t.cfg.axis_steps_per_unit_Z = s.cfg.axis_steps_per_unit_Z) :
    (planner_abort_hard s).current_position.z = s.st_position.z
    ∧ Event.plan_buffer_line s.st_position.x s.st_position.y
        (s.st_position.z + s.cfg.UVLO_Z_AXIS_SHIFT
          + (full_step_offset (to_uint16 s.tmc2130_MSCNT_Z) : ℚ) / s.cfg.axis_steps_per_unit_Z)
        (s.st_position.e - s.cfg.DEFAULT_RETRACTION) 40 s.active_extruder
      ∈ events_of uvlo_ s
    ∧ (uvlo_ s).st_position.z
        = s.st_position.z + s.cfg.UVLO_Z_AXIS_SHIFT
          + (full_step_offset (to_uint16 s.tmc2130_MSCNT_Z) : ℚ) / s.cfg.axis_steps_per_unit_Z
    ∧ (uvlo_ s).eeprom.flt .EEPROM_UVLO_CURRENT_POSITION_Z = s.st_position.z
    ∧ (uvlo_ s).eeprom.raw .EEPROM_UVLO_Z_MICROSTEPS = to_uint16 s.tmc2130_MSCNT_Z
    ∧ (recover_machine_state_after_power_panic t).current_position.z
        = t.eeprom.flt .EEPROM_UVLO_CURRENT_POSITION_Z + t.cfg.UVLO_Z_AXIS_SHIFT
          + (full_step_offset (t.eeprom.raw .EEPROM_UVLO_Z_MICROSTEPS) : ℚ)
              / t.cfg.axis_steps_per_unit_Z
    ∧ (recover_machine_state_after_power_panic t).current_position.z
        = s.st_position.z + s.cfg.UVLO_Z_AXIS_SHIFT
          + (full_step_offset (to_uint16 s.tmc2130_MSCNT_Z) : ℚ) / s.cfg.axis_steps_per_unit_Z := by
  have hlt : to_uint16 (s.tmc2130_MSCNT_Z : Int) < 65536 := to_uint16_lt _
  have hrec : (recover_machine_state_after_power_panic t).current_position.z
      = s.st_position.z + s.cfg.UVLO_Z_AXIS_SHIFT
        + (full_step_offset (to_uint16 s.tmc2130_MSCNT_Z) : ℚ) / s.cfg.axis_steps_per_unit_Z := by
    rw [recover_machine_state_current_position]
    simp only [recovered_z, eeprom_read_float, eeprom_read_word, hz, hp, hshift, hsteps,
      uvlo_position_z_stored, uvlo_z_microsteps_stored, Nat.mod_eq_of_lt hlt]
  refine ⟨rfl, uvlo_z_move_planned s, uvlo_st_position_z s, uvlo_position_z_stored s,
    uvlo_z_microsteps_stored s, ?_, hrec⟩
  rw [hrec, hz, hp, hshift, hsteps, uvlo_position_z_stored, uvlo_z_microsteps_stored]

/-- C14 (witness): a print interrupted at phase 600 and the machine rebooted
with the EEPROM `uvlo_` left: recovery sets Z to the target of the move. -/
theorem recovered_z_is_uvlo_target_witness :
    (recover_machine_state_after_power_panic
        (Machine.rebooted { Machine.printing 1000 [] [] with tmc2130_MSCNT_Z := 600 })).current_position.z
      = ({ Machine.printing 1000 [] [] with tmc2130_MSCNT_Z := 600 } : Machine).st_position.z
        + ({ Machine.printing 1000 [] [] with tmc2130_MSCNT_Z := 600 } : Machine).cfg.UVLO_Z_AXIS_SHIFT
        + (full_step_offset
            (to_uint16 ({ Machine.printing 1000 [] [] with tmc2130_MSCNT_Z := 600 } : Machine).tmc2130_MSCNT_Z) : ℚ)
          / ({ Machine.printing 1000 [] [] with tmc2130_MSCNT_Z := 600 } : Machine).cfg.axis_steps_per_unit_Z :=
  (recovered_z_is_uvlo_target { Machine.printing 1000 [] [] with tmc2130_MSCNT_Z := 600 }
    (Machine.rebooted { Machine.printing 1000 [] [] with tmc2130_MSCNT_Z := 600 })
    (by rw [Machine.rebooted_eeprom]) (by rw [Machine.rebooted_eeprom]) rfl rfl).2.2.2.2.2.2

/-- C15. The command sequence `recover_print` places in the command queue
respects the order of the recovery stages, for every persisted record and every
value of `automatic`: the queue grows by `A ++ [G28 X Y] ++ B ++ [M109 S.., M190
S..] ++ C ++ [G1 X.. Y.. F2000] ++ D ++ [M26 S.., M24]`, where no command of
`A`, `B`, `C`, `D` is one of these six. So the homing command comes before the
two blocking temperature waits, both waits come before the reposition move, and
that move comes before `M26 S..` and the final `M24`. -/
theorem recover_print_command_order (automatic : Nat) (s : Machine) :
    ∃ A B C D : List (List Tok),
      (recover_print automatic s).cmdbuffer
        = s.cmdbuffer ++ (commands_of (recover_print automatic) s).map ui_command
      ∧ commands_of (recover_print automatic) s
        = A ++ [[.lit "G28 X Y"]] ++ B
          ++ [[.lit "M109 S", .d (eeprom_read_byte .EEPROM_UVLO_TARGET_HOTEND s.eeprom)],
              [.lit "M190 S", .d (eeprom_read_byte .EEPROM_UVLO_TARGET_BED s.eeprom)]]
          ++ C
          ++ [[.lit "G1 X", .ftostr32 (eeprom_read_float (.EEPROM_UVLO_CURRENT_POSITION 0) s.eeprom),
               .lit " Y", .ftostr32 (eeprom_read_float (.EEPROM_UVLO_CURRENT_POSITION 4) s.eeprom),
               .lit " F2000"]]
          ++ D
          ++ [[.lit "M26 S", .lu (eeprom_read_dword .EEPROM_FILE_POSITION s.eeprom)],
              [.lit "M24"]]
      ∧ ∀ c ∈ A ++ B ++ C ++ D,
          command_head c ∉ ["G28 X Y", "M109 S", "M190 S", "G1 X", "M26 S", "M24"] := by
  refine ⟨recover_state_commands s.eeprom
      ++ [[.lit "M104 S", .d (eeprom_read_byte .EEPROM_UVLO_TARGET_HOTEND s.eeprom)],
          [.lit "M140 S", .d (eeprom_read_byte .EEPROM_UVLO_TARGET_BED s.eeprom)]]
      ++ (if recovered_z s.cfg s.eeprom < 25 then [[.lit "G1 Z25 F800"]] else []),
    [],
    [[.lit "M83"]] ++ (if automatic = 0 then [[.lit "G1 E5 F120"]] else [])
      ++ [[.lit "G1 E", .STRINGIFY "-DEFAULT_RETRACTION", .lit " F480"],
          [.lit "M23 ", .str ((eeprom_read_cstring (fun i => .EEPROM_FILENAME i) 8 s.eeprom
            ++ ".gco").map Char.toLower)],
          [.lit "M83"]],
    [[.lit "G1 Z", .ftostr32 (eeprom_read_float .EEPROM_UVLO_CURRENT_POSITION_Z s.eeprom)],
     [.lit "G1 E", .STRINGIFY "2*DEFAULT_RETRACTION", .lit " F480"],
     [.lit "G1 F", .d (EEPROM_read_B .EEPROM_UVLO_FEEDRATE s.eeprom)]]
      ++ (if eeprom_read_byte .EEPROM_UVLO_E_ABS s.eeprom ≠ 0 then [[.lit "M82"]] else [])
      ++ [[.lit "M106 S", .itostr3 (eeprom_read_byte .EEPROM_UVLO_FAN_SPEED s.eeprom)]],
    ?_, ?_, ?_⟩
  · rw [commands_of_recover_print, recover_print_cmdbuffer]
  · rw [commands_of_recover_print]
    simp [recover_print_commands, recover_print_head_commands, restore_commands]
  · by_cases h0 : eeprom_read_byte .EEPROM_UVLO_E_ABS s.eeprom = 0 <;>
    by_cases h1 : recovered_z s.cfg s.eeprom < 25 <;>
    by_cases h2 : automatic = 0 <;>
    simp [recover_state_commands, h0, h1, h2, command_head]

/-- C16. During recovery only X and Y are homed: among all the commands
`recover_print` puts in the queue (those of
`recover_machine_state_after_power_panic` and of `restore_print_from_eeprom`
included) the only one that starts with `G28` is a single `G28 X Y`, so no
command homes Z; the lift `G1 Z25 F800` is in the queue, right before
`G28 X Y`, exactly when the reconstructed `current_position[Z_AXIS]` is below
25; and every command of the sequence starts with one of eighteen listed
words, `G28 X Y` being the only homing or probing one among them. -/
theorem recover_print_homes_x_y_only (automatic : Nat) (s : Machine) :
    (commands_of (recover_print automatic) s).filter homing_command = [[.lit "G28 X Y"]]
    ∧ (∃ A B : List (List Tok),
        commands_of (recover_print automatic) s
          = A ++ (if (recover_machine_state_after_power_panic s).current_position.z < 25
                  then [[.lit "G1 Z25 F800"]] else [])
              ++ [[.lit "G28 X Y"]] ++ B
        ∧ [.lit "G1 Z25 F800"] ∉ A ++ B ∧ [.lit "G28 X Y"] ∉ A ++ B)
    ∧ ([.lit "G1 Z25 F800"] ∈ commands_of (recover_print automatic) s
        ↔ (recover_machine_state_after_power_panic s).current_position.z < 25)
    ∧ (∀ c ∈ commands_of (recover_print automatic) s,
        command_head c ∈ ["G92 E", "M104 S", "M140 S", "G1 Z25 F800", "G28 X Y", "M109 S",
          "M190 S", "M83", "G1 E5 F120", "G1 E", "M23 ", "G1 X", "G1 Z", "G1 F", "M82",
          "M106 S", "M26 S", "M24"]) := by
  have hz : (recover_machine_state_after_power_panic s).current_position.z
      = recovered_z s.cfg s.eeprom := by
    rw [recover_machine_state_current_position]
  have e1 : ("G92 E".data.take 3 == ['G', '2', '8']) = false := by decide
  have e2 : ("M104 S".data.take 3 == ['G', '2', '8']) = false := by decide
  have e3 : ("M140 S".data.take 3 == ['G', '2', '8']) = false := by decide
  have e4 : ("G1 Z25 F800".data.take 3 == ['G', '2', '8']) = false := by decide
  have e5 : ("G28 X Y".data.take 3 == ['G', '2', '8']) = true := by decide
  have e6 : ("M109 S".data.take 3 == ['G', '2', '8']) = false := by decide
  have e7 : ("M190 S".data.take 3 == ['G', '2', '8']) = false := by decide
  have e8 : ("M83".data.take 3 == ['G', '2', '8']) = false := by decide
  have e9 : ("G1 E5 F120".data.take 3 == ['G', '2', '8']) = false := by decide
  have e10 : ("G1 E".data.take 3 == ['G', '2', '8']) = false := by decide
  have e11 : ("M23 ".data.take 3 == ['G', '2', '8']) = false := by decide
  have e12 : ("G1 X".data.take 3 == ['G', '2', '8']) = false := by decide
  have e13 : ("G1 Z".data.take 3 == ['G', '2', '8']) = false := by decide
  have e14 : ("G1 F".data.take 3 == ['G', '2', '8']) = false := by decide
  have e15 : ("M82".data.take 3 == ['G', '2', '8']) = false := by decide
  have e16 : ("M106 S".data.take 3 == ['G', '2', '8']) = false := by decide
  have e17 : ("M26 S".data.take 3 == ['G', '2', '8']) = false := by decide
  have e18 : ("M24".data.take 3 == ['G', '2', '8']) = false := by decide
  rw [hz, commands_of_recover_print]
  refine ⟨?_, ⟨recover_state_commands s.eeprom
      ++ [[.lit "M104 S", .d (eeprom_read_byte .EEPROM_UVLO_TARGET_HOTEND s.eeprom)],
          [.lit "M140 S", .d (eeprom_read_byte .EEPROM_UVLO_TARGET_BED s.eeprom)]],
      [[.lit "M109 S", .d (eeprom_read_byte .EEPROM_UVLO_TARGET_HOTEND s.eeprom)],
       [.lit "M190 S", .d (eeprom_read_byte .EEPROM_UVLO_TARGET_BED s.eeprom)],
       [.lit "M83"]]
      ++ (if automatic = 0 then [[.lit "G1 E5 F120"]] else [])
      ++ [[.lit "G1 E", .STRINGIFY "-DEFAULT_RETRACTION", .lit " F480"]]
      ++ restore_commands s.eeprom, ?_, ?_, ?_⟩, ?_, ?_⟩
  · by_cases h0 : eeprom_read_byte .EEPROM_UVLO_E_ABS s.eeprom = 0 <;>
    by_cases h1 : recovered_z s.cfg s.eeprom < 25 <;>
    by_cases h2 : automatic = 0 <;>
    simp [recover_print_commands, recover_print_head_commands, restore_commands,
      recover_state_commands, h0, h1, h2, List.filter, homing_command, command_head,
      e1, e2, e3, e4, e5, e6, e7, e8, e9, e10, e11, e12, e13, e14, e15, e16, e17, e18]
  · simp [recover_print_commands, recover_print_head_commands]
  · by_cases h0 : eeprom_read_byte .EEPROM_UVLO_E_ABS s.eeprom = 0 <;>
    by_cases h2 : automatic = 0 <;>
    simp [restore_commands, recover_state_commands, h0, h2]
  · by_cases h0 : eeprom_read_byte .EEPROM_UVLO_E_ABS s.eeprom = 0 <;>
    by_cases h2 : automatic = 0 <;>
    simp [restore_commands, recover_state_commands, h0, h2]
  · by_cases h0 : eeprom_read_byte .EEPROM_UVLO_E_ABS s.eeprom = 0 <;>
    by_cases h1 : recovered_z s.cfg s.eeprom < 25 <;>
    by_cases h2 : automatic = 0 <;>
    simp [recover_print_commands, recover_print_head_commands, restore_commands,
      recover_state_commands, h0, h1, h2]
  · by_cases h0 : eeprom_read_byte .EEPROM_UVLO_E_ABS s.eeprom = 0 <;>
    by_cases h1 : recovered_z s.cfg s.eeprom < 25 <;>
    by_cases h2 : automatic = 0 <;>
    simp [recover_print_commands, recover_print_head_commands, restore_commands,
      recover_state_commands, h0, h1, h2, command_head]

/-- C17. `restore_print_from_eeprom` enqueues the repositioning commands in
this order, for every content of the persisted record: four consecutive
commands `G1 X<x> Y<y> F2000`, `G1 Z<z>`, `G1 E<2*DEFAULT_RETRACTION> F480`,
`G1 F<f>`, with `x`, `y`, `z` the three saved floats and `f` the saved feedrate,
and no other command starting with `G1 X`, `G1 Z`, `G1 E` or `G1 F`. When the
cells hold what `uvlo_` wrote in state `s`, `x`, `y`, `z` are the logical
position at the power loss and `f` is the `feedrate_bckp` of `uvlo_`. -/
theorem restore_reposition_order (s t : Machine) :
    (∃ A B : List (List Tok),
      commands_of restore_print_from_eeprom t
        = A ++ [[.lit "G1 X", .ftostr32 (eeprom_read_float (.EEPROM_UVLO_CURRENT_POSITION 0) t.eeprom),
                 .lit " Y", .ftostr32 (eeprom_read_float (.EEPROM_UVLO_CURRENT_POSITION 4) t.eeprom),
                 .lit " F2000"],
                [.lit "G1 Z", .ftostr32 (eeprom_read_float .EEPROM_UVLO_CURRENT_POSITION_Z t.eeprom)],
                [.lit "G1 E", .STRINGIFY "2*DEFAULT_RETRACTION", .lit " F480"],
                [.lit "G1 F", .d (EEPROM_read_B .EEPROM_UVLO_FEEDRATE t.eeprom)]] ++ B
      ∧ ∀ c ∈ A ++ B, command_head c ∉ ["G1 X", "G1 Z", "G1 E", "G1 F"])
    ∧ (t.eeprom.flt (.EEPROM_UVLO_CURRENT_POSITION 0)
          = (uvlo_ s).eeprom.flt (.EEPROM_UVLO_CURRENT_POSITION 0) →
        eeprom_read_float (.EEPROM_UVLO_CURRENT_POSITION 0) t.eeprom = s.st_position.x)
    ∧ (t.eeprom.flt (.EEPROM_UVLO_CURRENT_POSITION 4)
          = (uvlo_ s).eeprom.flt (.EEPROM_UVLO_CURRENT_POSITION 4) →
        eeprom_read_float (.EEPROM_UVLO_CURRENT_POSITION 4) t.eeprom = s.st_position.y)
    ∧ (t.eeprom.flt .EEPROM_UVLO_CURRENT_POSITION_Z
          = (uvlo_ s).eeprom.flt .EEPROM_UVLO_CURRENT_POSITION_Z →
        eeprom_read_float .EEPROM_UVLO_CURRENT_POSITION_Z t.eeprom = s.st_position.z)
    ∧ (t.eeprom.raw .EEPROM_UVLO_FEEDRATE = (uvlo_ s).eeprom.raw .EEPROM_UVLO_FEEDRATE →
        EEPROM_read_B .EEPROM_UVLO_FEEDRATE t.eeprom
          = uvlo_feedrate_bckp s.block_buffer s.feedrate) := by
  refine ⟨⟨[[.lit "M23 ", .str ((eeprom_read_cstring (fun i => .EEPROM_FILENAME i) 8 t.eeprom
            ++ ".gco").map Char.toLower)],
          [.lit "M83"]],
      (if eeprom_read_byte .EEPROM_UVLO_E_ABS t.eeprom ≠ 0 then [[.lit "M82"]] else [])
      ++ [[.lit "M106 S", .itostr3 (eeprom_read_byte .EEPROM_UVLO_FAN_SPEED t.eeprom)],
          [.lit "M26 S", .lu (eeprom_read_dword .EEPROM_FILE_POSITION t.eeprom)],
          [.lit "M24"]], ?_, ?_⟩, ?_, ?_, ?_, EEPROM_read_B_feedrate s t⟩
  · rw [commands_of_restore_print_from_eeprom]
    simp [restore_commands]
  · by_cases h0 : eeprom_read_byte .EEPROM_UVLO_E_ABS t.eeprom = 0 <;>
    simp [h0, command_head]
  · intro h; rw [eeprom_read_float, h, uvlo_position_x_stored]
  · intro h; rw [eeprom_read_float, h, uvlo_position_y_stored]
  · intro h; rw [eeprom_read_float, h, uvlo_position_z_stored]

/-- C17 (witness): a print moving at 30 mm/s is interrupted and the machine
rebooted with the EEPROM `uvlo_` left: the feedrate read back for `G1 F<f>` is
the `feedrate_bckp` of `uvlo_`. -/
theorem restore_reposition_order_witness :
    EEPROM_read_B .EEPROM_UVLO_FEEDRATE (Machine.rebooted (Machine.printing 1000 [7] [])).eeprom
      = uvlo_feedrate_bckp (Machine.printing 1000 [7] []).block_buffer
          (Machine.printing 1000 [7] []).feedrate :=
  (restore_reposition_order (Machine.printing 1000 [7] [])
    (Machine.rebooted (Machine.printing 1000 [7] []))).2.2.2.2
    (by rw [Machine.rebooted_eeprom])

/-- C18 (as stated, refuted). The commands `recover_print(1)` puts in the
queue for the pending record with every field zero, by the word each starts
with: `M23 ` (re-open the file) is the ninth command and comes before the
reposition moves `G1 X`, `G1 Z`, not after them. -/
theorem recover_print_reopens_file_before_reposition :
    (commands_of (recover_print 1) (Machine.pending 0)).map command_head
      = ["M104 S", "M140 S", "G1 Z25 F800", "G28 X Y", "M109 S", "M190 S", "M83", "G1 E",
         "M23 ", "M83", "G1 X", "G1 Z", "G1 E", "G1 F", "M106 S", "M26 S", "M24"] := by
  have h0 : eeprom_read_byte .EEPROM_UVLO_E_ABS (Machine.pending 0).eeprom = 0 := by decide
  have ho : full_step_offset
      (eeprom_read_word .EEPROM_UVLO_Z_MICROSTEPS (Machine.pending 0).eeprom) = 64 := by decide
  have h1 : recovered_z (Machine.pending 0).cfg (Machine.pending 0).eeprom < 25 := by
    simp only [recovered_z, ho]
    simp [Machine.pending, Machine.idle, eeprom_read_float]
    norm_num
  rw [commands_of_recover_print]
  simp [recover_print_commands, recover_print_head_commands, restore_commands,
    recover_state_commands, h0, h1, command_head]

/-- C18 (amended). The calls of `recover_print`, in program order, are
`pre ++ [write of 0 to EEPROM_UVLO] ++ dirs ++ [M23 <name>.gco, M83,
G1 X.. Y.. F2000, G1 Z.., G1 E.. F480, G1 F..] ++ mode ++ [M106 S<fan>,
M26 S<position>, M24]`: the command that re-opens the file is enqueued first,
before the reposition moves; the fan restore follows the moves (after `M82`
when the extruder was in absolute mode); the write of 0 to `EEPROM_UVLO` comes
before all of them, hence before `M24`, which is the last call. `pre` holds no
EEPROM write, `dirs` is the `card.chdir` calls. -/
theorem recover_print_resume_order (automatic : Nat) (s : Machine) :
    ∃ pre dirs mode : List Event,
      events_of (recover_print automatic) s
        = pre ++ [Event.eeprom (.raw .EEPROM_UVLO 0)] ++ dirs
          ++ [.enquecommand [.lit "M23 ",
                .str ((eeprom_read_cstring (fun i => .EEPROM_FILENAME i) 8 s.eeprom
                  ++ ".gco").map Char.toLower)],
              .enquecommand [.lit "M83"],
              .enquecommand
                [.lit "G1 X", .ftostr32 (eeprom_read_float (.EEPROM_UVLO_CURRENT_POSITION 0) s.eeprom),
                 .lit " Y", .ftostr32 (eeprom_read_float (.EEPROM_UVLO_CURRENT_POSITION 4) s.eeprom),
                 .lit " F2000"],
              .enquecommand
                [.lit "G1 Z", .ftostr32 (eeprom_read_float .EEPROM_UVLO_CURRENT_POSITION_Z s.eeprom)],
              .enquecommand [.lit "G1 E", .STRINGIFY "2*DEFAULT_RETRACTION", .lit " F480"],
              .enquecommand [.lit "G1 F", .d (EEPROM_read_B .EEPROM_UVLO_FEEDRATE s.eeprom)]]
          ++ mode
          ++ [.enquecommand [.lit "M106 S", .itostr3 (eeprom_read_byte .EEPROM_UVLO_FAN_SPEED s.eeprom)],
              .enquecommand [.lit "M26 S", .lu (eeprom_read_dword .EEPROM_FILE_POSITION s.eeprom)],
              .enquecommand [.lit "M24"]]
      ∧ (∀ e ∈ pre, e.write = none)
      ∧ (∀ c, Event.enquecommand c ∈ pre →
          command_head c ∉ ["M23 ", "G1 X", "G1 Z", "G1 F", "M106 S", "M26 S", "M24"])
      ∧ (∀ e ∈ dirs, ∃ name, e = .card_chdir name)
      ∧ (mode = if eeprom_read_byte .EEPROM_UVLO_E_ABS s.eeprom ≠ 0
                then [.enquecommand [.lit "M82"]] else []) := by
  have hdirs : ∀ (n i : Nat), ∀ e ∈ restore_chdir_events s.eeprom n i,
      ∃ name, e = Event.card_chdir name := by
    intro n
    induction n with
    | zero => intro i e he; simp [restore_chdir_events] at he
    | succ n ih =>
        intro i e he
        simp only [restore_chdir_events, List.mem_cons] at he
        rcases he with h | h
        · exact ⟨_, h⟩
        · exact ih _ e h
  refine ⟨recover_state_events s
      ++ (recover_print_head_commands automatic s).map Event.enquecommand,
    restore_chdir_events s.eeprom (eeprom_read_byte .EEPROM_DIR_DEPTH s.eeprom) 0,
    if eeprom_read_byte .EEPROM_UVLO_E_ABS s.eeprom ≠ 0
      then [.enquecommand [.lit "M82"]] else [], ?_, ?_, ?_, hdirs _ _, rfl⟩
  · rw [recover_print_events_eq]
    by_cases h0 : eeprom_read_byte .EEPROM_UVLO_E_ABS s.eeprom = 0 <;>
    simp [recover_print_events, restore_commands, h0]
  · by_cases h0 : eeprom_read_byte .EEPROM_UVLO_E_ABS s.eeprom = 0 <;>
    cases hm : (recovered_mesh s).active <;>
    by_cases h1 : recovered_z s.cfg s.eeprom < 25 <;>
    by_cases h2 : automatic = 0 <;>
    simp [recover_state_events, recover_print_head_commands, recover_state_commands,
      h0, hm, h1, h2, Event.write]
  · intro c hc
    have hc2 : c ∈ recover_state_commands s.eeprom ++ recover_print_head_commands automatic s := by
      rcases List.mem_append.1 hc with h | h
      · exact List.mem_append_left _ (enquecommand_mem_recover_state_events s c h)
      · obtain ⟨c2, hc2, he⟩ := List.mem_map.1 h
        cases he
        exact List.mem_append_right _ hc2
    clear hc
    revert c
    by_cases h0 : eeprom_read_byte .EEPROM_UVLO_E_ABS s.eeprom = 0 <;>
    by_cases h1 : recovered_z s.cfg s.eeprom < 25 <;>
    by_cases h2 : automatic = 0 <;>
    simp [recover_print_head_commands, recover_state_commands, h0, h1, h2, command_head]

/-- C19 (as stated, refuted). `recover_print(1)` on the pending record with
every field zero and an empty queue makes 24 calls: the write of 0 to
`EEPROM_UVLO` is call number 14 (counted from 0), while `M24` is enqueued by the
last call, number 23, and by none before; when `recover_print` returns the flag
is 0 in the EEPROM and the 17 commands are all still in the queue, none
executed. -/
theorem recover_print_clears_flag_before_resume :
    eeprom_read_byte .EEPROM_UVLO (Machine.pending 0).eeprom = 1
    ∧ (Machine.pending 0).cmdbuffer = []
    ∧ (events_of (recover_print 1) (Machine.pending 0)).length = 24
    ∧ (events_of (recover_print 1) (Machine.pending 0))[14]?
        = some (Event.eeprom (.raw .EEPROM_UVLO 0))
    ∧ (events_of (recover_print 1) (Machine.pending 0))[23]?
        = some (Event.enquecommand [.lit "M24"])
    ∧ Event.enquecommand [.lit "M24"] ∉ (events_of (recover_print 1) (Machine.pending 0)).take 23
    ∧ (recover_print 1 (Machine.pending 0)).eeprom.raw .EEPROM_UVLO = 0
    ∧ (recover_print 1 (Machine.pending 0)).cmdbuffer.length = 17 := by
  have h0 : eeprom_read_byte .EEPROM_UVLO_E_ABS (Machine.pending 0).eeprom = 0 := by decide
  have hd : eeprom_read_byte .EEPROM_DIR_DEPTH (Machine.pending 0).eeprom = 0 := by decide
  have ho : full_step_offset
      (eeprom_read_word .EEPROM_UVLO_Z_MICROSTEPS (Machine.pending 0).eeprom) = 64 := by decide
  have h1 : recovered_z (Machine.pending 0).cfg (Machine.pending 0).eeprom < 25 := by
    simp only [recovered_z, ho]
    simp [Machine.pending, Machine.idle, eeprom_read_float]
    norm_num
  have hm : (recovered_mesh (Machine.pending 0)).active = false := by
    by_contra hne
    have htrue : (recovered_mesh (Machine.pending 0)).active = true := by simpa using hne
    obtain ⟨p, hp, hv⟩ := (recovered_mesh_active (Machine.pending 0)).1 htrue
    apply hv
    simp [mesh_sample, eeprom_read_word, Machine.pending, to_int16]
  have hev : events_of (recover_print 1) (Machine.pending 0)
      = recover_state_events (Machine.pending 0)
        ++ (recover_print_head_commands 1 (Machine.pending 0)).map Event.enquecommand
        ++ [.eeprom (.raw .EEPROM_UVLO 0)]
        ++ (restore_commands (Machine.pending 0).eeprom).map Event.enquecommand := by
    rw [recover_print_events_eq]
    simp [recover_print_events, hd, restore_chdir_events]
  refine ⟨by decide, rfl, ?_, ?_, ?_, ?_, ?_, ?_⟩
  · rw [hev]
    simp [recover_state_events, recover_print_head_commands, restore_commands,
      recover_state_commands, h0, h1, hm]
  · rw [hev]
    simp [recover_state_events, recover_print_head_commands, restore_commands,
      recover_state_commands, h0, h1, hm]
  · rw [hev]
    simp [recover_state_events, recover_print_head_commands, restore_commands,
      recover_state_commands, h0, h1, hm]
  · rw [hev]
    simp [recover_state_events, recover_print_head_commands, restore_commands,
      recover_state_commands, h0, h1, hm]
  · rw [recover_print_eeprom]
    simp [Eeprom.write]
  · have hcb : (Machine.pending 0).cmdbuffer = [] := rfl
    rw [recover_print_cmdbuffer, hcb]
    simp [recover_print_commands, recover_print_head_commands, restore_commands,
      recover_state_commands, h0, h1]

/-- C19 (amended). On the boot path, whenever the pending flag `EEPROM_UVLO`
is 1 when `setup()` tests it, it is 0 when that part of `setup()` is left, for
both answers of the operator: in the automatic branch and when the operator
confirms, `recover_print` writes the 0, otherwise `setup()` writes it itself,
and this is the only EEPROM write. `recover_print` clears the flag once its own
commands (up to the retraction `G1 E.. F480`) are in the queue and before
`restore_print_from_eeprom` enqueues `M23` .. `M24`: in its calls
`pre ++ [write of 0] ++ post` the command `M24` is enqueued in `post` and not in
`pre`, and when it returns `M24` is still the last entry of the queue: the
commands have only been queued. -/
theorem setup_uvlo_clears_flag (operator_yes : Bool) (automatic : Nat) (s : Machine)
    (h : eeprom_read_byte .EEPROM_UVLO s.eeprom = 1) :
    (setup_uvlo operator_yes s).eeprom.raw .EEPROM_UVLO = 0
    ∧ eeprom_writes (events_of (setup_uvlo operator_yes) s) = [.raw .EEPROM_UVLO 0]
    ∧ (bed_still_warm s → setup_uvlo operator_yes s = recover_print 1 (emit .manage_heater s))
    ∧ (¬ bed_still_warm s →
        setup_uvlo true s
          = recover_print 0 (emit .lcd_show_fullscreen_message_yes_no_and_wait_P
              (emit .manage_heater s))
        ∧ setup_uvlo false s
          = eeprom_update_byte .EEPROM_UVLO 0
              (emit .lcd_show_fullscreen_message_yes_no_and_wait_P (emit .manage_heater s)))
    ∧ (∃ pre post : List Event,
        events_of (recover_print automatic) s
          = pre ++ [Event.eeprom (.raw .EEPROM_UVLO 0)] ++ post
        ∧ Event.enquecommand [.lit "M24"] ∈ post
        ∧ Event.enquecommand [.lit "M24"] ∉ pre
        ∧ (recover_print automatic s).cmdbuffer.getLast? = some (ui_command [.lit "M24"])) := by
  have hw1 : ∀ a, eeprom_writes (recover_print_events a s) = [.raw .EEPROM_UVLO 0] := by
    intro a
    have hdirs : ∀ (n i : Nat),
        List.filterMap Event.write (restore_chdir_events s.eeprom n i) = [] := by
      intro n
      induction n with
      | zero => intro i; rfl
      | succ n ih => intro i; simp [restore_chdir_events, Event.write, ih]
    by_cases h0 : eeprom_read_byte .EEPROM_UVLO_E_ABS s.eeprom = 0 <;>
    cases hm : (recovered_mesh s).active <;>
    by_cases h1 : recovered_z s.cfg s.eeprom < 25 <;>
    by_cases h2 : a = 0 <;>
    simp [eeprom_writes, recover_print_events, recover_state_events,
      recover_print_head_commands, restore_commands, recover_state_commands,
      h0, hm, h1, h2, Event.write, hdirs]
  refine ⟨setup_uvlo_flag operator_yes s h, ?_, setup_uvlo_warm operator_yes s h,
    fun hw => ⟨setup_uvlo_asked_yes s h hw, setup_uvlo_asked_no s h hw⟩, ?_⟩
  · by_cases hw : bed_still_warm s
    · rw [setup_uvlo_events_warm operator_yes s h hw]
      have := hw1 1
      simpa [eeprom_writes, Event.write] using this
    · cases operator_yes
      · rw [setup_uvlo_events_asked_no s h hw]
        simp [eeprom_writes, Event.write]
      · rw [setup_uvlo_events_asked_yes s h hw]
        have := hw1 0
        simpa [eeprom_writes, Event.write] using this
  · refine ⟨recover_state_events s
        ++ (recover_print_head_commands automatic s).map Event.enquecommand,
      restore_chdir_events s.eeprom (eeprom_read_byte .EEPROM_DIR_DEPTH s.eeprom) 0
        ++ (restore_commands s.eeprom).map Event.enquecommand, ?_, ?_, ?_, ?_⟩
    · rw [recover_print_events_eq]
      simp [recover_print_events]
    · apply List.mem_append_right
      by_cases h0 : eeprom_read_byte .EEPROM_UVLO_E_ABS s.eeprom = 0 <;>
      simp [restore_commands, h0]
    · intro hc
      have hc2 : [Tok.lit "M24"]
          ∈ recover_state_commands s.eeprom ++ recover_print_head_commands automatic s := by
        rcases List.mem_append.1 hc with h | h
        · exact List.mem_append_left _ (enquecommand_mem_recover_state_events s _ h)
        · obtain ⟨c2, hc2, he⟩ := List.mem_map.1 h
          cases he
          exact List.mem_append_right _ hc2
      clear hc
      revert hc2
      by_cases h0 : eeprom_read_byte .EEPROM_UVLO_E_ABS s.eeprom = 0 <;>
      by_cases h1 : recovered_z s.cfg s.eeprom < 25 <;>
      by_cases h2 : automatic = 0 <;>
      simp [recover_print_head_commands, recover_state_commands, h0, h1, h2]
    · rw [recover_print_cmdbuffer]
      by_cases h0 : eeprom_read_byte .EEPROM_UVLO_E_ABS s.eeprom = 0 <;>
      simp [recover_print_commands, restore_commands, h0, List.getLast?_append]

/-- C19 (witness): the pending record with every field zero, the operator
answering yes: the flag is 0 after the boot path. -/
theorem setup_uvlo_clears_flag_witness :
    eeprom_read_byte .EEPROM_UVLO (Machine.pending 0).eeprom = 1
    ∧ (setup_uvlo true (Machine.pending 0)).eeprom.raw .EEPROM_UVLO = 0 :=
  ⟨by decide, (setup_uvlo_clears_flag true 1 (Machine.pending 0) (by decide)).1⟩

/-- C20 (as stated, refuted). The pending record with every field zero on a
machine whose bed is at 25 degrees (saved bed target 0, offset 5): the bed is
still warm, the boot path starts the automatic recovery `recover_print(1)`
without showing the prompt, and the purge move `G1 E5 F120` is not among the
commands it puts in the queue. -/
theorem automatic_recovery_has_no_purge :
    eeprom_read_byte .EEPROM_UVLO (Machine.pending 0).eeprom = 1
    ∧ bed_still_warm (Machine.pending 0)
    ∧ setup_uvlo true (Machine.pending 0) = recover_print 1 (emit .manage_heater (Machine.pending 0))
    ∧ Event.lcd_show_fullscreen_message_yes_no_and_wait_P
        ∉ events_of (setup_uvlo true) (Machine.pending 0)
    ∧ [.lit "G1 E5 F120"] ∉ commands_of (setup_uvlo true) (Machine.pending 0)
    ∧ [.lit "G1 E5 F120"] ∉ commands_of (recover_print 1) (Machine.pending 0) := by
  have hf : eeprom_read_byte .EEPROM_UVLO (Machine.pending 0).eeprom = 1 := by decide
  have hb : eeprom_read_byte .EEPROM_UVLO_TARGET_BED (Machine.pending 0).eeprom = 0 := by decide
  have hw : bed_still_warm (Machine.pending 0) := by
    unfold bed_still_warm
    rw [hb]
    simp [Machine.pending, Machine.idle]
    norm_num
  have h0 : eeprom_read_byte .EEPROM_UVLO_E_ABS (Machine.pending 0).eeprom = 0 := by decide
  have hd : eeprom_read_byte .EEPROM_DIR_DEPTH (Machine.pending 0).eeprom = 0 := by decide
  have hm : (recovered_mesh (Machine.pending 0)).active = false := by
    by_contra hne
    have htrue : (recovered_mesh (Machine.pending 0)).active = true := by simpa using hne
    obtain ⟨p, hp, hv⟩ := (recovered_mesh_active (Machine.pending 0)).1 htrue
    apply hv
    simp [mesh_sample, eeprom_read_word, Machine.pending, to_int16]
  have hc : [Tok.lit "G1 E5 F120"] ∉ recover_print_commands 1 (Machine.pending 0) := by
    by_cases h1 : recovered_z (Machine.pending 0).cfg (Machine.pending 0).eeprom < 25 <;>
    simp [recover_print_commands, recover_print_head_commands, restore_commands,
      recover_state_commands, h0, h1]
  refine ⟨hf, hw, setup_uvlo_warm true _ hf hw, ?_, ?_, ?_⟩
  · rw [setup_uvlo_events_warm true _ hf hw]
    by_cases h1 : recovered_z (Machine.pending 0).cfg (Machine.pending 0).eeprom < 25 <;>
    simp [recover_print_events, recover_state_events, recover_print_head_commands,
      restore_commands, recover_state_commands, h0, h1, hm, hd, restore_chdir_events]
  · rw [setup_uvlo_cmdbuffer_warm true _ hf hw]
    exact hc
  · rw [commands_of_recover_print]
    exact hc

/-- C20 (amended). `recover_print(automatic)` enqueues the purge move
`G1 E5 F120` exactly when `automatic` is 0. On the boot path with the pending
flag set: when the bed is still warmer than the saved bed target minus
`AUTOMATIC_UVLO_BED_TEMP_OFFSET` the recovery starts without a prompt as
`recover_print(1)` and enqueues no purge; otherwise the operator is prompted,
and the purge is enqueued exactly when the operator confirms the recovery
(`recover_print(0)`). -/
theorem purge_only_after_prompt (operator_yes : Bool) (automatic : Nat) (s : Machine)
    (h : eeprom_read_byte .EEPROM_UVLO s.eeprom = 1) :
    ([.lit "G1 E5 F120"] ∈ commands_of (recover_print automatic) s ↔ automatic = 0)
    ∧ (bed_still_warm s →
        setup_uvlo operator_yes s = recover_print 1 (emit .manage_heater s)
        ∧ Event.lcd_show_fullscreen_message_yes_no_and_wait_P
            ∉ events_of (setup_uvlo operator_yes) s
        ∧ [.lit "G1 E5 F120"] ∉ commands_of (setup_uvlo operator_yes) s)
    ∧ (¬ bed_still_warm s →
        Event.lcd_show_fullscreen_message_yes_no_and_wait_P
            ∈ events_of (setup_uvlo operator_yes) s
        ∧ ([.lit "G1 E5 F120"] ∈ commands_of (setup_uvlo operator_yes) s
            ↔ operator_yes = true)) := by
  have hpurge : ∀ a, ([Tok.lit "G1 E5 F120"] ∈ recover_print_commands a s ↔ a = 0) := by
    intro a
    by_cases h0 : eeprom_read_byte .EEPROM_UVLO_E_ABS s.eeprom = 0 <;>
    by_cases h1 : recovered_z s.cfg s.eeprom < 25 <;>
    by_cases h2 : a = 0 <;>
    simp [recover_print_commands, recover_print_head_commands, restore_commands,
      recover_state_commands, h0, h1, h2]
  have hprompt : ∀ a, Event.lcd_show_fullscreen_message_yes_no_and_wait_P
      ∉ recover_print_events a s := by
    intro a hmem
    have hdirs : ∀ (n i : Nat), Event.lcd_show_fullscreen_message_yes_no_and_wait_P
        ∉ restore_chdir_events s.eeprom n i := by
      intro n
      induction n with
      | zero => intro i; simp [restore_chdir_events]
      | succ n ih => intro i; simp [restore_chdir_events, ih]
    revert hmem
    by_cases h0 : eeprom_read_byte .EEPROM_UVLO_E_ABS s.eeprom = 0 <;>
    cases hm : (recovered_mesh s).active <;>
    by_cases h1 : recovered_z s.cfg s.eeprom < 25 <;>
    by_cases h2 : a = 0 <;>
    simp [recover_print_events, recover_state_events, recover_print_head_commands,
      restore_commands, recover_state_commands, h0, hm, h1, h2, hdirs]
  refine ⟨?_, ?_, ?_⟩
  · rw [commands_of_recover_print]
    exact hpurge automatic
  · intro hw
    refine ⟨setup_uvlo_warm operator_yes s h hw, ?_, ?_⟩
    · rw [setup_uvlo_events_warm operator_yes s h hw]
      intro hmem
      rcases List.mem_cons.1 hmem with h1 | h1
      · cases h1
      · exact hprompt 1 h1
    · rw [setup_uvlo_cmdbuffer_warm operator_yes s h hw, hpurge 1]
      decide
  · intro hw
    cases operator_yes
    · rw [setup_uvlo_events_asked_no s h hw, setup_uvlo_cmdbuffer_asked_no s h hw]
      simp
    · rw [setup_uvlo_events_asked_yes s h hw, setup_uvlo_cmdbuffer_asked_yes s h hw, hpurge 0]
      simp

/-- C20 (witness): the pending record with every field zero and a warm bed:
the recovery is automatic and no purge is enqueued. -/
theorem purge_only_after_prompt_witness :
    eeprom_read_byte .EEPROM_UVLO (Machine.pending 0).eeprom = 1
    ∧ ([.lit "G1 E5 F120"] ∈ commands_of (recover_print 0) (Machine.pending 0) ↔ (0 : Nat) = 0) :=
  ⟨by decide, (purge_only_after_prompt true 0 (Machine.pending 0) (by decide)).1⟩

/-! ## Further facts on the recovery and the RAM checkpoint -/

theorem recover_machine_state_axis_known (s : Machine) :
    (recover_machine_state_after_power_panic s).axis_known_position X_AXIS = true
    ∧ (recover_machine_state_after_power_panic s).axis_known_position Y_AXIS = true
    ∧ (recover_machine_state_after_power_panic s).axis_known_position Z_AXIS = true := by
  by_cases h1 : eeprom_read_byte .EEPROM_UVLO_E_ABS s.eeprom = 0 <;>
  cases h2 : (recover_mesh s.eeprom 9 0 { s.mbl with active := false }).active <;>
  simp [recover_machine_state_after_power_panic, h1, h2, Function.update_apply, X_AXIS, Y_AXIS,
    Z_AXIS]

theorem uvlo_target_hotend_stored (s : Machine) :
    (uvlo_ s).eeprom.raw .EEPROM_UVLO_TARGET_HOTEND
      = to_uint8 (s.target_temperature s.active_extruder) := by
  cases h : s.card.sdprinting <;>
  simp [uvlo_, h, eeprom_update_byte, eeprom_update_word, eeprom_update_dword,
    eeprom_update_float, EEPROM_save_B, uvlo_store_mesh, Eeprom.write]

theorem uvlo_target_bed_stored (s : Machine) :
    (uvlo_ s).eeprom.raw .EEPROM_UVLO_TARGET_BED = to_uint8 s.target_temperature_bed := by
  cases h : s.card.sdprinting <;>
  simp [uvlo_, h, eeprom_update_byte, eeprom_update_word, eeprom_update_dword,
    eeprom_update_float, EEPROM_save_B, uvlo_store_mesh, Eeprom.write]

theorem uvlo_e_abs_stored (s : Machine) :
    (uvlo_ s).eeprom.raw .EEPROM_UVLO_E_ABS = if s.axis_relative_modes_E then 0 else 1 := by
  cases h : s.card.sdprinting <;> cases h2 : s.axis_relative_modes_E <;>
  simp [uvlo_, h, h2, eeprom_update_byte, eeprom_update_word, eeprom_update_dword,
    eeprom_update_float, EEPROM_save_B, uvlo_store_mesh, Eeprom.write, to_uint8]

theorem uvlo_position_e_stored (s : Machine) :
    (uvlo_ s).eeprom.flt .EEPROM_UVLO_CURRENT_POSITION_E = s.st_position.e := by
  cases h : s.card.sdprinting <;>
  simp [uvlo_, h, eeprom_update_byte, eeprom_update_word, eeprom_update_dword,
    eeprom_update_float, EEPROM_save_B, uvlo_store_mesh, Eeprom.write, st_get_position_mm,
    E_AXIS]

theorem to_uint8_of_range (v : Int) (h1 : 0 ≤ v) (h2 : v ≤ 255) : ((to_uint8 v : Nat) : Int) = v := by
  unfold to_uint8; omega

theorem to_uint8_lt (v : Int) : to_uint8 v < 256 := by
  unfold to_uint8; omega

theorem planner_add_sd_length_sum (n : Nat) (bb : List block_t) :
    planner_sd_sum (planner_add_sd_length n bb)
      = planner_sd_sum bb + (if bb = [] then 0 else n) := by
  induction bb with
  | nil => rfl
  | cons b bs ih =>
      cases bs with
      | nil => simp [planner_add_sd_length, planner_sd_sum]
      | cons b2 bs =>
          simp only [planner_add_sd_length, planner_sd_sum, List.map_cons, List.sum_cons] at ih ⊢
          simp only [reduceCtorEq, if_false] at ih ⊢
          omega

theorem planner_add_sd_length_eq_nil (n : Nat) (bb : List block_t) :
    planner_add_sd_length n bb = [] ↔ bb = [] := by
  cases bb with
  | nil => simp [planner_add_sd_length]
  | cons b bs =>
      cases bs with
      | nil => simp [planner_add_sd_length]
      | cons b2 bs => simp [planner_add_sd_length]

theorem planner_add_sd_length_head (n : Nat) (b b2 : block_t) (bs : List block_t) :
    (planner_add_sd_length n (b :: b2 :: bs)).head? = some b := by
  simp [planner_add_sd_length]

theorem loop_release_front_sdcard (s : Machine) (c : CmdEntry) (rest : List CmdEntry)
    (hp : s.cmdbuffer_front_already_processed = false) (hq : s.cmdbuffer = c :: rest)
    (hc : c.type = .SDCARD) :
    loop_release_front s = cmdqueue_pop_front (loop_move_sd_length c rest s) := by
  unfold loop_release_front
  rw [hp, hq]
  simp only [hc, if_true]

theorem loop_release_front_other (s : Machine) (c : CmdEntry) (rest : List CmdEntry)
    (hp : s.cmdbuffer_front_already_processed = false) (hq : s.cmdbuffer = c :: rest)
    (hc : c.type ≠ .SDCARD) :
    loop_release_front s = cmdqueue_pop_front s := by
  unfold loop_release_front
  rw [hp, hq]
  simp only [hc, if_false]

theorem loop_move_sd_length_block_buffer (c : CmdEntry) (rest : List CmdEntry) (s : Machine) :
    (loop_move_sd_length c rest s).block_buffer
      = planner_add_sd_length (c.lo + 256 * c.hi) s.block_buffer := by
  simp [loop_move_sd_length]

theorem loop_move_sd_length_cmdbuffer (c : CmdEntry) (rest : List CmdEntry) (s : Machine) :
    (loop_move_sd_length c rest s).cmdbuffer = { c with type := .TO_BE_REMOVED } :: rest := by
  simp [loop_move_sd_length]

theorem loop_move_sd_length_log (c : CmdEntry) (rest : List CmdEntry) (s : Machine) :
    (loop_move_sd_length c rest s).log = s.log ++ [.cli, .sei] := by
  simp [loop_move_sd_length]

theorem loop_move_sd_length_sdpos_atomic (c : CmdEntry) (rest : List CmdEntry) (s : Machine) :
    (loop_move_sd_length c rest s).sdpos_atomic = s.sdpos_atomic := by
  simp [loop_move_sd_length]

theorem to_long_sub (x y : Int) : to_long (to_long x - y) = to_long (x - y) := by
  unfold to_long; omega

theorem to_uint32_sub (x y : Int) : to_uint32 ((to_uint32 x : Nat) - y) = to_uint32 (x - y) := by
  unfold to_uint32; omega

theorem planner_calc_sd_length_of_lt (bb : List block_t) (h : planner_sd_sum bb < 65536) :
    planner_calc_sd_length bb = planner_sd_sum bb := by
  unfold planner_calc_sd_length planner_sd_sum to_uint16 at *
  omega

theorem cmdqueue_calc_sd_length_of_lt (cb : List CmdEntry) (h : cmdqueue_sd_sum cb < 65536) :
    cmdqueue_calc_sd_length cb = cmdqueue_sd_sum cb := by
  unfold cmdqueue_calc_sd_length cmdqueue_sd_sum to_uint16 at *
  omega

theorem uvlo_sd_position_sum (a : Nat) (bb : List block_t) (cb : List CmdEntry) :
    uvlo_sd_position a bb cb
      = if to_long ((a : Int)
            - ((planner_calc_sd_length bb + cmdqueue_calc_sd_length cb : Nat) : Int)) < 0
        then 0
        else to_long ((a : Int)
            - ((planner_calc_sd_length bb + cmdqueue_calc_sd_length cb : Nat) : Int)) := by
  have e : to_long (to_long (to_long (a : Int) - (planner_calc_sd_length bb : Int))
        - (cmdqueue_calc_sd_length cb : Int))
      = to_long ((a : Int)
          - ((planner_calc_sd_length bb + cmdqueue_calc_sd_length cb : Nat) : Int)) := by
    rw [to_long_sub, sub_sub, to_long_sub, Nat.cast_add]
  unfold uvlo_sd_position
  simp only
  rw [e]

theorem ram_sd_position_sum (a : Nat) (bb : List block_t) (cb : List CmdEntry) :
    ram_sd_position a bb cb
      = to_uint32 ((a : Int)
          - ((planner_calc_sd_length bb + cmdqueue_calc_sd_length cb : Nat) : Int)) := by
  unfold ram_sd_position
  rw [to_uint32_sub, sub_sub, to_uint32_sub, Nat.cast_add]

theorem sd_lengths_of_sum (bb bb2 : List block_t) (cb cb2 : List CmdEntry)
    (h : planner_sd_sum bb2 + cmdqueue_sd_sum cb2 = planner_sd_sum bb + cmdqueue_sd_sum cb)
    (hlt : planner_sd_sum bb + cmdqueue_sd_sum cb < 65536) :
    planner_calc_sd_length bb2 + cmdqueue_calc_sd_length cb2
      = planner_calc_sd_length bb + cmdqueue_calc_sd_length cb := by
  rw [planner_calc_sd_length_of_lt bb (by omega), planner_calc_sd_length_of_lt bb2 (by omega),
    cmdqueue_calc_sd_length_of_lt cb (by omega), cmdqueue_calc_sd_length_of_lt cb2 (by omega), h]

theorem uvlo_sd_position_of_sum (a : Nat) (bb bb2 : List block_t) (cb cb2 : List CmdEntry)
    (h : planner_sd_sum bb2 + cmdqueue_sd_sum cb2 = planner_sd_sum bb + cmdqueue_sd_sum cb)
    (hlt : planner_sd_sum bb + cmdqueue_sd_sum cb < 65536) :
    uvlo_sd_position a bb2 cb2 = uvlo_sd_position a bb cb := by
  rw [uvlo_sd_position_sum, uvlo_sd_position_sum, sd_lengths_of_sum bb bb2 cb cb2 h hlt]

theorem ram_sd_position_of_sum (a : Nat) (bb bb2 : List block_t) (cb cb2 : List CmdEntry)
    (h : planner_sd_sum bb2 + cmdqueue_sd_sum cb2 = planner_sd_sum bb + cmdqueue_sd_sum cb)
    (hlt : planner_sd_sum bb + cmdqueue_sd_sum cb < 65536) :
    ram_sd_position a bb2 cb2 = ram_sd_position a bb cb := by
  rw [ram_sd_position_sum, ram_sd_position_sum, sd_lengths_of_sum bb bb2 cb cb2 h hlt]

theorem stop_and_save_saved_sdpos (z_move e_move : ℚ) (s : Machine)
    (h : s.saved_printing = false) :
    (stop_and_save_print_to_ram z_move e_move s).saved_sdpos
      = ram_sd_position s.sdpos_atomic s.block_buffer s.cmdbuffer := by
  by_cases hm : z_move ≠ 0 ∨ e_move ≠ 0 <;>
  simp [stop_and_save_print_to_ram, h, hm, ram_sd_position]

theorem cmdqueue_sd_sum_retag (c : CmdEntry) (rest : List CmdEntry) :
    cmdqueue_sd_sum ({ c with type := .TO_BE_REMOVED } :: rest) = cmdqueue_sd_sum rest := by
  simp [cmdqueue_sd_sum, CmdEntry.sdlen]

theorem cmdqueue_sd_sum_cons (c : CmdEntry) (rest : List CmdEntry) :
    cmdqueue_sd_sum (c :: rest) = c.sdlen + cmdqueue_sd_sum rest := by
  simp [cmdqueue_sd_sum]

theorem uvlo_plan_buffer_line_calls (s : Machine) :
    (events_of uvlo_ s).filter Event.is_plan_buffer_line
      = [.plan_buffer_line s.st_position.x s.st_position.y s.st_position.z
            (s.st_position.e - s.cfg.DEFAULT_RETRACTION) 95 s.active_extruder,
         .plan_buffer_line s.st_position.x s.st_position.y
            (s.st_position.z + s.cfg.UVLO_Z_AXIS_SHIFT
              + (full_step_offset (to_uint16 s.tmc2130_MSCNT_Z) : ℚ) / s.cfg.axis_steps_per_unit_Z)
            (s.st_position.e - s.cfg.DEFAULT_RETRACTION) 40 s.active_extruder,
         .plan_buffer_line s.st_position.x s.st_position.y
            (s.st_position.z + s.cfg.UVLO_Z_AXIS_SHIFT
              + (full_step_offset (to_uint16 s.tmc2130_MSCNT_Z) : ℚ) / s.cfg.axis_steps_per_unit_Z)
            (s.st_position.e - s.cfg.DEFAULT_RETRACTION) 40 s.active_extruder] := by
  cases h : s.card.sdprinting <;>
  simp [events_of, uvlo_, h, eeprom_update_byte, eeprom_update_word, eeprom_update_dword,
    eeprom_update_float, EEPROM_save_B, uvlo_store_mesh, List.filter, Event.is_plan_buffer_line]

theorem uvlo_events_head (s : Machine) :
    (events_of uvlo_ s).take 23
      = [.disable_x, .disable_y, .disable_e0,
         .tmc2130_set_current_h Z_AXIS 20, .tmc2130_set_current_r Z_AXIS 20,
         .tmc2130_set_current_h E_AXIS 20, .tmc2130_set_current_r E_AXIS 20,
         .tmc2130_rd_MSCNT, .planner_abort_hard,
         .eeprom (.flt .EEPROM_UVLO_CURRENT_POSITION_E (st_get_position_mm s.st_position E_AXIS)),
         .eeprom (.raw .EEPROM_UVLO_E_ABS (to_uint8 (bif s.axis_relative_modes_E then 0 else 1))),
         .cmdqueue_reset, .sei,
         .plan_buffer_line s.st_position.x s.st_position.y s.st_position.z
            (s.st_position.e - s.cfg.DEFAULT_RETRACTION) 95 s.active_extruder,
         .st_synchronize, .disable_e0,
         .plan_buffer_line s.st_position.x s.st_position.y
            (s.st_position.z + s.cfg.UVLO_Z_AXIS_SHIFT
              + (full_step_offset (to_uint16 s.tmc2130_MSCNT_Z) : ℚ) / s.cfg.axis_steps_per_unit_Z)
            (s.st_position.e - s.cfg.DEFAULT_RETRACTION) 40 s.active_extruder,
         .st_synchronize, .disable_e0,
         .plan_buffer_line s.st_position.x s.st_position.y
            (s.st_position.z + s.cfg.UVLO_Z_AXIS_SHIFT
              + (full_step_offset (to_uint16 s.tmc2130_MSCNT_Z) : ℚ) / s.cfg.axis_steps_per_unit_Z)
            (s.st_position.e - s.cfg.DEFAULT_RETRACTION) 40 s.active_extruder,
         .st_synchronize, .disable_e0, .disable_z] := by
  cases h : s.card.sdprinting <;>
  simp [events_of, uvlo_, h, eeprom_update_byte, eeprom_update_word, eeprom_update_dword,
    eeprom_update_float, EEPROM_save_B, uvlo_store_mesh]

theorem testBit_0xFD (i : Nat) :
    Nat.testBit 0xFD i = (decide (i < 8) && decide (i ≠ 1)) := by
  by_cases h : i < 8
  · interval_cases i <;> decide
  · have : Nat.testBit 0xFD i = false := by
      apply Nat.testBit_lt_two_pow
      calc 0xFD < 2 ^ 8 := by decide
        _ ≤ 2 ^ i := Nat.pow_le_pow_right (by decide) (by omega)
    simp [this, h]

theorem testBit_0x01 (i : Nat) : Nat.testBit 0x01 i = decide (i = 0) := by
  cases i with
  | zero => decide
  | succ n => simp [Nat.testBit_succ]

theorem testBit_0x10 (i : Nat) : Nat.testBit 0x10 i = decide (i = 4) := by
  by_cases h : i < 8
  · interval_cases i <;> decide
  · have : Nat.testBit 0x10 i = false := by
      apply Nat.testBit_lt_two_pow
      calc 0x10 < 2 ^ 8 := by decide
        _ ≤ 2 ^ i := Nat.pow_le_pow_right (by decide) (by omega)
    have hne : i ≠ 4 := by omega
    simp [this, hne]

theorem setup_uvlo_interrupt_EICRB (s : Machine) (i : Nat) :
    (setup_uvlo_interrupt s).EICRB.testBit i
      = ((decide (i < 8) && (s.EICRB.testBit i || decide (i = 0)))
          && (decide (i < 8) && decide (i ≠ 1))) := by
  have h256 : (256 : Nat) = 2 ^ 8 := by decide
  show ((s.EICRB ||| 0x01) % 256 &&& 0xFD).testBit i = _
  rw [Nat.testBit_and, testBit_0xFD, h256, Nat.testBit_mod_two_pow, Nat.testBit_or, testBit_0x01]

theorem setup_uvlo_interrupt_EIMSK (s : Machine) (i : Nat) :
    (setup_uvlo_interrupt s).EIMSK.testBit i
      = (decide (i < 8) && (s.EIMSK.testBit i || decide (i = 4))) := by
  have h256 : (256 : Nat) = 2 ^ 8 := by decide
  show ((s.EIMSK ||| 0x10) % 256).testBit i = _
  rw [h256, Nat.testBit_mod_two_pow, Nat.testBit_or, testBit_0x10]

theorem ram_checkpoint_invariant_step (c : RamCall) (s : Machine)
    (h : s.saved_printing = true → s.card.sdprinting = false) :
    (c.run s).saved_printing = true → (c.run s).card.sdprinting = false := by
  cases c with
  | stop_and_save z_move e_move =>
      intro _
      cases hs : s.saved_printing
      · by_cases hm : z_move ≠ 0 ∨ e_move ≠ 0 <;>
          simp [RamCall.run, stop_and_save_print_to_ram, hs, hm]
      · show (stop_and_save_print_to_ram z_move e_move s).card.sdprinting = false
        rw [stop_and_save_of_saved _ _ _ hs]
        exact h hs
  | restore e_move =>
      intro hr
      cases hs : s.saved_printing
      · have e : RamCall.run (.restore e_move) s = s := by
          simp [RamCall.run, restore_print_from_ram_and_continue, hs]
        rw [e] at hr ⊢
        exact h hr
      · have hf : (RamCall.run (.restore e_move) s).saved_printing = false := by
          simp [RamCall.run, restore_print_from_ram_and_continue, hs]
        rw [hf] at hr
        cases hr

theorem ram_checkpoint_invariant (calls : List RamCall) : ∀ s : Machine,
    (s.saved_printing = true → s.card.sdprinting = false) →
    (run_ram_calls calls s).saved_printing = true →
    (run_ram_calls calls s).card.sdprinting = false := by
  induction calls with
  | nil => intro s h; exact h
  | cons c cs ih =>
      intro s h
      exact ih (c.run s) (ram_checkpoint_invariant_step c s h)

/-! ## Claims on the recovered state and on the RAM checkpoint -/

/-- C21. After `recover_machine_state_after_power_panic`, for every persisted
record: `current_position` X and Y are the persisted logical X and Y;
`axis_known_position` is true for X, Y and Z, although the routine plans no
move and puts no homing command in the queue (its only command is `G92 E..`);
`target_temperature[active_extruder]` is the persisted hotend target byte and
`target_temperature_bed` the persisted bed target byte. When the two cells hold
what `uvlo_` wrote in state `s` and the targets of `s` are in 0..255, these are
the targets of `s`. -/
theorem recovered_state_of_record (s t : Machine) :
    (recover_machine_state_after_power_panic t).current_position.x
        = eeprom_read_float (.EEPROM_UVLO_CURRENT_POSITION 0) t.eeprom
    ∧ (recover_machine_state_after_power_panic t).current_position.y
        = eeprom_read_float (.EEPROM_UVLO_CURRENT_POSITION 4) t.eeprom
    ∧ (recover_machine_state_after_power_panic t).axis_known_position X_AXIS = true
    ∧ (recover_machine_state_after_power_panic t).axis_known_position Y_AXIS = true
    ∧ (recover_machine_state_after_power_panic t).axis_known_position Z_AXIS = true
    ∧ (∀ e ∈ events_of recover_machine_state_after_power_panic t, e.is_plan_buffer_line = false)
    ∧ (∀ c ∈ commands_of recover_machine_state_after_power_panic t, homing_command c = false)
    ∧ (recover_machine_state_after_power_panic t).target_temperature
          (recover_machine_state_after_power_panic t).active_extruder
        = (eeprom_read_byte .EEPROM_UVLO_TARGET_HOTEND t.eeprom : Int)
    ∧ (recover_machine_state_after_power_panic t).target_temperature_bed
        = (eeprom_read_byte .EEPROM_UVLO_TARGET_BED t.eeprom : Int)
    ∧ (t.eeprom.raw .EEPROM_UVLO_TARGET_HOTEND = (uvlo_ s).eeprom.raw .EEPROM_UVLO_TARGET_HOTEND →
        0 ≤ s.target_temperature s.active_extruder →
        s.target_temperature s.active_extruder ≤ 255 →
        (recover_machine_state_after_power_panic t).target_temperature
            (recover_machine_state_after_power_panic t).active_extruder
          = s.target_temperature s.active_extruder)
    ∧ (t.eeprom.raw .EEPROM_UVLO_TARGET_BED = (uvlo_ s).eeprom.raw .EEPROM_UVLO_TARGET_BED →
        0 ≤ s.target_temperature_bed → s.target_temperature_bed ≤ 255 →
        (recover_machine_state_after_power_panic t).target_temperature_bed
          = s.target_temperature_bed) := by
  have hk := recover_machine_state_axis_known t
  have hT : (recover_machine_state_after_power_panic t).target_temperature
        (recover_machine_state_after_power_panic t).active_extruder
      = (eeprom_read_byte .EEPROM_UVLO_TARGET_HOTEND t.eeprom : Int) := by
    rw [recover_machine_state_target_temperature, recover_machine_state_active_extruder,
      if_pos rfl]
  have hB := recover_machine_state_target_temperature_bed t
  have e1 : ("G92 E".data.take 3 == ['G', '2', '8']) = false := by decide
  refine ⟨?_, ?_, hk.1, hk.2.1, hk.2.2, ?_, ?_, hT, hB, ?_, ?_⟩
  · rw [recover_machine_state_current_position]
  · rw [recover_machine_state_current_position]
  · rw [events_of_eq _ _ _ (recover_machine_state_log t)]
    by_cases h0 : eeprom_read_byte .EEPROM_UVLO_E_ABS t.eeprom = 0 <;>
    cases hm : (recovered_mesh t).active <;>
    simp [recover_state_events, recover_state_commands, h0, hm, Event.is_plan_buffer_line]
  · rw [commands_of_eq _ _ _ (recover_machine_state_cmdbuffer t)]
    by_cases h0 : eeprom_read_byte .EEPROM_UVLO_E_ABS t.eeprom = 0 <;>
    simp [recover_state_commands, h0, homing_command, command_head, e1]
  · intro hc h1 h2
    have hlt := to_uint8_lt (s.target_temperature s.active_extruder)
    rw [hT, eeprom_read_byte, hc, uvlo_target_hotend_stored, Nat.mod_eq_of_lt hlt,
      to_uint8_of_range _ h1 h2]
  · intro hc h1 h2
    have hlt := to_uint8_lt s.target_temperature_bed
    rw [hB, eeprom_read_byte, hc, uvlo_target_bed_stored, Nat.mod_eq_of_lt hlt,
      to_uint8_of_range _ h1 h2]

/-- C21 (witness): a print with the hotend target 215 is interrupted and the
machine rebooted with the EEPROM `uvlo_` left: the recovered hotend target is
215. -/
theorem recovered_state_of_record_witness :
    (recover_machine_state_after_power_panic (Machine.rebooted Machine.heated)).target_temperature
        (recover_machine_state_after_power_panic (Machine.rebooted Machine.heated)).active_extruder
      = Machine.heated.target_temperature Machine.heated.active_extruder :=
  (recovered_state_of_record Machine.heated (Machine.rebooted Machine.heated)).2.2.2.2.2.2.2.2.2.1
    (by rw [Machine.rebooted_eeprom]) (by decide) (by decide)

/-- C22. The feedrate captured by `stop_and_save_print_to_ram`, for every
running state (no RAM checkpoint active): when the planner queue holds a block
(`blocks_queued()` true at entry) it is the nominal speed of the block at the
tail of the queue times 60, otherwise the commanded `feedrate`. The value is
taken from the planner queue as it is at entry; after the call
`planner_abort_hard` has run and the queue is empty. -/
theorem saved_feedrate_of_planner (z_move e_move : ℚ) (s : Machine)
    (h : s.saved_printing = false) :
    (∀ b rest, s.block_buffer = b :: rest →
        blocks_queued s.block_buffer = true
        ∧ (stop_and_save_print_to_ram z_move e_move s).saved_feedrate2 = b.nominal_speed * 60)
    ∧ (s.block_buffer = [] →
        blocks_queued s.block_buffer = false
        ∧ (stop_and_save_print_to_ram z_move e_move s).saved_feedrate2 = s.feedrate)
    ∧ Event.planner_abort_hard ∈ events_of (stop_and_save_print_to_ram z_move e_move) s
    ∧ (stop_and_save_print_to_ram z_move e_move s).block_buffer = [] := by
  have hf : (stop_and_save_print_to_ram z_move e_move s).saved_feedrate2
      = feedrate_of_planner s.block_buffer s.feedrate := by
    by_cases hm : z_move ≠ 0 ∨ e_move ≠ 0 <;>
    simp [stop_and_save_print_to_ram, h, hm]
  refine ⟨?_, ?_, ?_, ?_⟩
  · intro b rest hb
    rw [hf, hb]
    exact ⟨rfl, rfl⟩
  · intro hb
    rw [hf, hb]
    exact ⟨rfl, rfl⟩
  · by_cases hm : z_move ≠ 0 ∨ e_move ≠ 0 <;>
    simp [events_of, stop_and_save_print_to_ram, h, hm]
  · by_cases hm : z_move ≠ 0 ∨ e_move ≠ 0 <;>
    simp [stop_and_save_print_to_ram, h, hm]

/-- C22 (witness): a print whose planner holds two blocks of nominal speed
30 mm/s: the saved feedrate is 1800 mm/min. -/
theorem saved_feedrate_of_planner_witness :
    (Machine.printing 100 [10, 20] []).saved_printing = false
    ∧ blocks_queued (Machine.printing 100 [10, 20] []).block_buffer = true
    ∧ (stop_and_save_print_to_ram 10 0 (Machine.printing 100 [10, 20] [])).saved_feedrate2
        = (30 : ℚ) * 60 :=
  ⟨rfl, (saved_feedrate_of_planner 10 0 (Machine.printing 100 [10, 20] []) rfl).1
      { nominal_speed := 30, sdlen := 10 } [{ nominal_speed := 30, sdlen := 20 }] rfl⟩

/-- C23. For every state with no RAM checkpoint active, after
`stop_and_save_print_to_ram(z_move, e_move)`: `planner_abort_hard` has been
called and the planner queue is empty, `card.sdprinting` is false,
`saved_printing` is true; when `z_move` or `e_move` is not 0 the command queue
holds exactly one command, `G1 Z<saved Z + z_move> E<e_move> F<homing feedrate
Z>`, which is at the front and marked by `repeatcommand_front` to be executed,
is not of type SD card and accounts for no byte of the file, `saved_sdpos`
having been computed from the queues as they were at entry; when both are 0 the
command queue is empty. -/
theorem stop_and_save_effects (z_move e_move : ℚ) (s : Machine)
    (h : s.saved_printing = false) :
    Event.planner_abort_hard ∈ events_of (stop_and_save_print_to_ram z_move e_move) s
    ∧ (stop_and_save_print_to_ram z_move e_move s).block_buffer = []
    ∧ (stop_and_save_print_to_ram z_move e_move s).card.sdprinting = false
    ∧ (stop_and_save_print_to_ram z_move e_move s).saved_printing = true
    ∧ (stop_and_save_print_to_ram z_move e_move s).saved_pos = s.st_position
    ∧ (stop_and_save_print_to_ram z_move e_move s).saved_sdpos
        = to_uint32 ((to_uint32 ((to_uint32 s.sdpos_atomic : Nat)
            - (planner_calc_sd_length s.block_buffer : Int)) : Nat)
            - (cmdqueue_calc_sd_length s.cmdbuffer : Int))
    ∧ (z_move ≠ 0 ∨ e_move ≠ 0 →
        (stop_and_save_print_to_ram z_move e_move s).cmdbuffer
          = [{ type := .UI, lo := 0, hi := 0,
               text := [.lit "G1 Z", .dtostrf (s.st_position.z + z_move) 8 3,
                        .lit " E", .dtostrf e_move 6 3,
                        .lit " F", .dtostrf s.cfg.homing_feedrate_Z 8 3] }]
        ∧ (stop_and_save_print_to_ram z_move e_move s).cmdbuffer_front_already_processed = true
        ∧ cmdqueue_calc_sd_length (stop_and_save_print_to_ram z_move e_move s).cmdbuffer = 0)
    ∧ (z_move = 0 ∧ e_move = 0 →
        (stop_and_save_print_to_ram z_move e_move s).cmdbuffer = []) := by
  by_cases hm : z_move ≠ 0 ∨ e_move ≠ 0
  · refine ⟨?_, ?_, ?_, ?_, ?_, ?_, ?_, ?_⟩
    · simp [events_of, stop_and_save_print_to_ram, h, hm]
    · simp [stop_and_save_print_to_ram, h, hm]
    · simp [stop_and_save_print_to_ram, h, hm]
    · simp [stop_and_save_print_to_ram, h, hm]
    · simp [stop_and_save_print_to_ram, h, hm]
    · simp [stop_and_save_print_to_ram, h, hm]
    · intro _
      refine ⟨?_, ?_, ?_⟩
      · simp [stop_and_save_print_to_ram, h, hm]
      · simp [stop_and_save_print_to_ram, h, hm]
      · simp [stop_and_save_print_to_ram, h, hm, cmdqueue_calc_sd_length, CmdEntry.sdlen,
          to_uint16]
    · intro hz
      exact absurd hz (by
        rcases hm with h1 | h1
        · exact fun hh => h1 hh.1
        · exact fun hh => h1 hh.2)
  · have hz : z_move = 0 ∧ e_move = 0 := by
      constructor
      · by_contra hne; exact hm (Or.inl hne)
      · by_contra hne; exact hm (Or.inr hne)
    refine ⟨?_, ?_, ?_, ?_, ?_, ?_, ?_, ?_⟩
    · simp [events_of, stop_and_save_print_to_ram, h, hm]
    · simp [stop_and_save_print_to_ram, h, hm]
    · simp [stop_and_save_print_to_ram, h, hm]
    · simp [stop_and_save_print_to_ram, h, hm]
    · simp [stop_and_save_print_to_ram, h, hm]
    · simp [stop_and_save_print_to_ram, h, hm]
    · intro hne
      exact absurd hne hm
    · intro _
      simp [stop_and_save_print_to_ram, h, hm]

/-- C23 (witness): a print with two queued blocks and one queued SD command,
stopped with a lift of 10 mm: one command is left in the queue. -/
theorem stop_and_save_effects_witness :
    (Machine.printing 100 [10, 20] [5]).saved_printing = false
    ∧ (stop_and_save_print_to_ram 10 0 (Machine.printing 100 [10, 20] [5])).cmdbuffer.length = 1
    ∧ (stop_and_save_print_to_ram 10 0 (Machine.printing 100 [10, 20] [5])).card.sdprinting
        = false :=
  ⟨rfl, by
    rw [((stop_and_save_effects 10 0 (Machine.printing 100 [10, 20] [5]) rfl).2.2.2.2.2.2.1
      (Or.inl (by norm_num))).1]
    rfl,
   (stop_and_save_effects 10 0 (Machine.printing 100 [10, 20] [5]) rfl).2.2.1⟩

/-- C24. For every state with a RAM checkpoint active and every `e_move`,
`restore_print_from_ram_and_continue(e_move)` sets `active_extruder` and
`feedrate` to the saved values; sets the extruder coordinate of the planner to
the saved E minus `e_move` and issues one move to the saved position (so the
move starts from the saved position offset by `-e_move` on E), waits for it and
re-seeks the file; afterwards `current_position` and `destination` are the saved
position, the card index and `sdpos_atomic` are `saved_sdpos`, `card.sdprinting`
is true and `saved_printing` is false. The saved record (`saved_sdpos`,
`saved_pos`, `saved_feedrate2`, `saved_active_extruder`) is not modified. -/
theorem restore_from_ram_effects (e_move : ℚ) (s : Machine) (h : s.saved_printing = true) :
    (restore_print_from_ram_and_continue e_move s).active_extruder = s.saved_active_extruder
    ∧ (restore_print_from_ram_and_continue e_move s).feedrate = s.saved_feedrate2
    ∧ events_of (restore_print_from_ram_and_continue e_move) s
        = [.plan_set_e_position (s.saved_pos.e - e_move),
           .plan_buffer_line s.saved_pos.x s.saved_pos.y s.saved_pos.z s.saved_pos.e
              (s.cfg.homing_feedrate_Z / 13) s.saved_active_extruder,
           .st_synchronize,
           .card_setIndex s.saved_sdpos]
    ∧ (restore_print_from_ram_and_continue e_move s).current_position = s.saved_pos
    ∧ (restore_print_from_ram_and_continue e_move s).destination = s.saved_pos
    ∧ (restore_print_from_ram_and_continue e_move s).card.sdpos = s.saved_sdpos
    ∧ (restore_print_from_ram_and_continue e_move s).sdpos_atomic = s.saved_sdpos
    ∧ (restore_print_from_ram_and_continue e_move s).card.sdprinting = true
    ∧ (restore_print_from_ram_and_continue e_move s).saved_printing = false
    ∧ (restore_print_from_ram_and_continue e_move s).saved_sdpos = s.saved_sdpos
    ∧ (restore_print_from_ram_and_continue e_move s).saved_pos = s.saved_pos
    ∧ (restore_print_from_ram_and_continue e_move s).saved_feedrate2 = s.saved_feedrate2
    ∧ (restore_print_from_ram_and_continue e_move s).saved_active_extruder
        = s.saved_active_extruder := by
  refine ⟨?_, ?_, ?_, ?_, ?_, ?_, ?_, ?_, ?_, ?_, ?_, ?_, ?_⟩ <;>
    simp [events_of, restore_print_from_ram_and_continue, h]

/-- C24 (witness): a print stopped by `stop_and_save_print_to_ram(10, 0)` and
restored with `e_move = 1`: the file offset is the saved one. -/
theorem restore_from_ram_effects_witness :
    (stop_and_save_print_to_ram 10 0 (Machine.printing 100 [10] [])).saved_printing = true
    ∧ (restore_print_from_ram_and_continue 1
        (stop_and_save_print_to_ram 10 0 (Machine.printing 100 [10] []))).sdpos_atomic
      = (stop_and_save_print_to_ram 10 0 (Machine.printing 100 [10] [])).saved_sdpos :=
  ⟨stop_and_save_saved_printing _ _ _,
   (restore_from_ram_effects 1 (stop_and_save_print_to_ram 10 0 (Machine.printing 100 [10] []))
      (stop_and_save_saved_printing _ _ _)).2.2.2.2.2.2.1⟩

/-! ## Claims on the hand-off in `loop()`, the interrupt and the offsets -/

/-- C25 (as stated, refuted). A print with the file read up to byte 1000, no
block in the planner and one processed SD command of 5 bytes (`lo = 5`,
`hi = 0`) at the front of the queue: before the release step of `loop()` the
two queues account for 5 bytes and the checkpoint offset is 995; after it they
account for 0 bytes and the offset is 1000. With no block queued the length
handed to the planner is not kept. -/
theorem loop_handoff_drops_length_without_block :
    (Machine.printing 1000 [] [5]).cmdbuffer_front_already_processed = false
    ∧ (Machine.printing 1000 [] [5]).cmdbuffer
        = [{ type := .SDCARD, lo := 5, hi := 0, text := [] }]
    ∧ (Machine.printing 1000 [] [5]).block_buffer = []
    ∧ planner_calc_sd_length (Machine.printing 1000 [] [5]).block_buffer
        + cmdqueue_calc_sd_length (Machine.printing 1000 [] [5]).cmdbuffer = 5
    ∧ planner_calc_sd_length (loop_release_front (Machine.printing 1000 [] [5])).block_buffer
        + cmdqueue_calc_sd_length (loop_release_front (Machine.printing 1000 [] [5])).cmdbuffer
        = 0
    ∧ uvlo_sd_position (Machine.printing 1000 [] [5]).sdpos_atomic
        (Machine.printing 1000 [] [5]).block_buffer (Machine.printing 1000 [] [5]).cmdbuffer
        = 995
    ∧ uvlo_sd_position (loop_release_front (Machine.printing 1000 [] [5])).sdpos_atomic
        (loop_release_front (Machine.printing 1000 [] [5])).block_buffer
        (loop_release_front (Machine.printing 1000 [] [5])).cmdbuffer
        = 1000 := by
  decide

/-- C25 (amended). The release step of `loop()` for a processed entry `c` at
the front of the queue. When `c` is of type `CMDBUFFER_CURRENT_TYPE_SDCARD`
with header bytes `lo`, `hi`: between one `cli()` and one `sei()` the entry is
retagged `CMDBUFFER_CURRENT_TYPE_TO_BE_REMOVED` and exactly `lo + 256*hi` is
passed to `planner_add_sd_length`; the retagged entry accounts for nothing, so
the command queue's SD length drops by `lo + 256*hi`, and releasing the entry
afterwards changes neither length. When the planner holds a block the length is
added to it and the sum of the two SD lengths is the same before the step,
after the `cli`..`sei` section and after the release, and with it (the sum
fitting in 16 bits) the offsets the two checkpoint paths compute. When the
planner holds no block the length is dropped: the planner stays empty and the
sum decreases by `lo + 256*hi`. An entry of any other type adds nothing: the
planner is untouched, no call is made and the sum is unchanged. -/
theorem loop_handoff_accounting (s : Machine) (c : CmdEntry) (rest : List CmdEntry)
    (hp : s.cmdbuffer_front_already_processed = false) (hq : s.cmdbuffer = c :: rest) :
    (c.type = .SDCARD →
      loop_release_front s = cmdqueue_pop_front (loop_move_sd_length c rest s)
      ∧ events_of loop_release_front s = [.cli, .sei]
      ∧ (loop_move_sd_length c rest s).cmdbuffer = { c with type := .TO_BE_REMOVED } :: rest
      ∧ (loop_move_sd_length c rest s).block_buffer
          = planner_add_sd_length (c.lo + 256 * c.hi) s.block_buffer
      ∧ (loop_release_front s).cmdbuffer = rest
      ∧ (loop_release_front s).block_buffer = (loop_move_sd_length c rest s).block_buffer
      ∧ cmdqueue_sd_sum s.cmdbuffer
          = (c.lo + 256 * c.hi) + cmdqueue_sd_sum (loop_move_sd_length c rest s).cmdbuffer
      ∧ cmdqueue_sd_sum (loop_release_front s).cmdbuffer
          = cmdqueue_sd_sum (loop_move_sd_length c rest s).cmdbuffer
      ∧ (s.block_buffer ≠ [] →
          planner_sd_sum (loop_release_front s).block_buffer
            = planner_sd_sum s.block_buffer + (c.lo + 256 * c.hi)
          ∧ planner_sd_sum (loop_release_front s).block_buffer
              + cmdqueue_sd_sum (loop_release_front s).cmdbuffer
            = planner_sd_sum s.block_buffer + cmdqueue_sd_sum s.cmdbuffer
          ∧ (planner_sd_sum s.block_buffer + cmdqueue_sd_sum s.cmdbuffer < 65536 →
              uvlo_sd_position (loop_release_front s).sdpos_atomic
                  (loop_release_front s).block_buffer (loop_release_front s).cmdbuffer
                = uvlo_sd_position s.sdpos_atomic s.block_buffer s.cmdbuffer
              ∧ uvlo_sd_position (loop_move_sd_length c rest s).sdpos_atomic
                  (loop_move_sd_length c rest s).block_buffer
                  (loop_move_sd_length c rest s).cmdbuffer
                = uvlo_sd_position s.sdpos_atomic s.block_buffer s.cmdbuffer
              ∧ ram_sd_position (loop_release_front s).sdpos_atomic
                  (loop_release_front s).block_buffer (loop_release_front s).cmdbuffer
                = ram_sd_position s.sdpos_atomic s.block_buffer s.cmdbuffer))
      ∧ (s.block_buffer = [] →
          (loop_release_front s).block_buffer = []
          ∧ planner_sd_sum (loop_release_front s).block_buffer
              + cmdqueue_sd_sum (loop_release_front s).cmdbuffer + (c.lo + 256 * c.hi)
            = planner_sd_sum s.block_buffer + cmdqueue_sd_sum s.cmdbuffer))
    ∧ (c.type ≠ .SDCARD →
      loop_release_front s = cmdqueue_pop_front s
      ∧ events_of loop_release_front s = []
      ∧ (loop_release_front s).block_buffer = s.block_buffer
      ∧ (loop_release_front s).cmdbuffer = rest
      ∧ cmdqueue_sd_sum (loop_release_front s).cmdbuffer = cmdqueue_sd_sum s.cmdbuffer) := by
  constructor
  · intro hc
    have hr := loop_release_front_sdcard s c rest hp hq hc
    have hcb : (loop_release_front s).cmdbuffer = rest := by
      rw [hr]; simp [loop_move_sd_length_cmdbuffer]
    have hbb : (loop_release_front s).block_buffer
        = planner_add_sd_length (c.lo + 256 * c.hi) s.block_buffer := by
      rw [hr]; simp [loop_move_sd_length_block_buffer]
    have hsd : (loop_release_front s).sdpos_atomic = s.sdpos_atomic := by
      rw [hr]; simp [loop_move_sd_length_sdpos_atomic]
    have hlen : c.sdlen = c.lo + 256 * c.hi := by simp [CmdEntry.sdlen, hc]
    have hq1 : cmdqueue_sd_sum s.cmdbuffer = (c.lo + 256 * c.hi) + cmdqueue_sd_sum rest := by
      rw [hq, cmdqueue_sd_sum_cons, hlen]
    refine ⟨hr, ?_, loop_move_sd_length_cmdbuffer c rest s,
      loop_move_sd_length_block_buffer c rest s, hcb, ?_, ?_, ?_, ?_, ?_⟩
    · apply events_of_eq
      rw [hr]
      simp [loop_move_sd_length_log]
    · rw [hbb, loop_move_sd_length_block_buffer]
    · rw [loop_move_sd_length_cmdbuffer, cmdqueue_sd_sum_retag, hq1]
    · rw [hcb, loop_move_sd_length_cmdbuffer, cmdqueue_sd_sum_retag]
    · intro hne
      have hP : planner_sd_sum (loop_release_front s).block_buffer
          = planner_sd_sum s.block_buffer + (c.lo + 256 * c.hi) := by
        rw [hbb, planner_add_sd_length_sum, if_neg hne]
      have hsum : planner_sd_sum (loop_release_front s).block_buffer
            + cmdqueue_sd_sum (loop_release_front s).cmdbuffer
          = planner_sd_sum s.block_buffer + cmdqueue_sd_sum s.cmdbuffer := by
        rw [hP, hcb, hq1]; omega
      refine ⟨hP, hsum, ?_⟩
      intro hlt
      have hsum2 : planner_sd_sum (loop_move_sd_length c rest s).block_buffer
            + cmdqueue_sd_sum (loop_move_sd_length c rest s).cmdbuffer
          = planner_sd_sum s.block_buffer + cmdqueue_sd_sum s.cmdbuffer := by
        rw [loop_move_sd_length_block_buffer, loop_move_sd_length_cmdbuffer,
          cmdqueue_sd_sum_retag, ← hbb, ← hsum, hcb]
      refine ⟨?_, ?_, ?_⟩
      · rw [hsd]; exact uvlo_sd_position_of_sum _ _ _ _ _ hsum hlt
      · rw [loop_move_sd_length_sdpos_atomic]
        exact uvlo_sd_position_of_sum _ _ _ _ _ hsum2 hlt
      · rw [hsd]; exact ram_sd_position_of_sum _ _ _ _ _ hsum hlt
    · intro he
      have hnil : (loop_release_front s).block_buffer = [] := by
        rw [hbb, he]; rfl
      refine ⟨hnil, ?_⟩
      rw [hnil, hcb, hq1, he]
      simp [planner_sd_sum]
      omega
  · intro hc
    have hr := loop_release_front_other s c rest hp hq hc
    have hlen : c.sdlen = 0 := by simp [CmdEntry.sdlen, hc]
    refine ⟨hr, ?_, ?_, ?_, ?_⟩
    · apply events_of_eq
      rw [hr]; simp
    · rw [hr]; simp
    · rw [hr]; simp [hq]
    · rw [hr]; simp [hq, cmdqueue_sd_sum_cons, hlen]

/-- C25 (witness): the file read up to byte 1000, two blocks of 12 and 8
bytes in the planner and one processed SD command of 5 bytes at the front of
the queue: the two queues account for 25 bytes before and after the step. -/
theorem loop_handoff_accounting_witness :
    (Machine.printing 1000 [12, 8] [5]).cmdbuffer_front_already_processed = false
    ∧ (Machine.printing 1000 [12, 8] [5]).cmdbuffer = [sd_command 5]
    ∧ planner_sd_sum (loop_release_front (Machine.printing 1000 [12, 8] [5])).block_buffer
        + cmdqueue_sd_sum (loop_release_front (Machine.printing 1000 [12, 8] [5])).cmdbuffer
      = planner_sd_sum (Machine.printing 1000 [12, 8] [5]).block_buffer
        + cmdqueue_sd_sum (Machine.printing 1000 [12, 8] [5]).cmdbuffer :=
  ⟨rfl, rfl,
   (((loop_handoff_accounting (Machine.printing 1000 [12, 8] [5]) (sd_command 5) [] rfl rfl).1
      rfl).2.2.2.2.2.2.2.2.1 (by decide)).2.1⟩

/-- C26 (the code at the failing input). A print at the origin with the Z
driver at phase 0 (`DEFAULT_RETRACTION = 1`, `UVLO_Z_AXIS_SHIFT = 2`, 400 steps
per mm): `uvlo_` calls `plan_buffer_line` three times, not twice. After `sei`
come the retract to E = -1, `st_synchronize`, `disable_e0`; the Z raise to
Z = 2 + 64/400, `st_synchronize`, `disable_e0`; then the same Z raise a second
time, `st_synchronize`, `disable_e0`, and only then `disable_z`. The phase is
read (`tmc2130_rd_MSCNT`) before the moves. -/
theorem uvlo_plans_z_raise_twice :
    (events_of uvlo_ (Machine.printing 1000 [] [])).filter Event.is_plan_buffer_line
      = [.plan_buffer_line 0 0 0 (-1) 95 0,
         .plan_buffer_line 0 0 (54 / 25) (-1) 40 0,
         .plan_buffer_line 0 0 (54 / 25) (-1) 40 0]
    ∧ ((events_of uvlo_ (Machine.printing 1000 [] [])).take 23).drop 12
      = [.sei,
         .plan_buffer_line 0 0 0 (-1) 95 0, .st_synchronize, .disable_e0,
         .plan_buffer_line 0 0 (54 / 25) (-1) 40 0, .st_synchronize, .disable_e0,
         .plan_buffer_line 0 0 (54 / 25) (-1) 40 0, .st_synchronize, .disable_e0,
         .disable_z]
    ∧ ((events_of uvlo_ (Machine.printing 1000 [] [])).take 12).count Event.tmc2130_rd_MSCNT = 1 := by
  have ho : full_step_offset (to_uint16 (Machine.printing 1000 [] []).tmc2130_MSCNT_Z) = 64 := by
    decide
  have hz : ((0 : ℚ) + 2 + ((64 : Nat) : ℚ) / 400) = 54 / 25 := by norm_num
  have he : ((0 : ℚ) - 1) = -1 := by norm_num
  have hx : (Machine.printing 1000 [] []).st_position = { x := 0, y := 0, z := 0, e := 0 } := rfl
  have hc : (Machine.printing 1000 [] []).cfg
      = { DEFAULT_RETRACTION := 1, UVLO_Z_AXIS_SHIFT := 2, homing_feedrate_Z := 800,
          axis_steps_per_unit_Z := 400, AUTOMATIC_UVLO_BED_TEMP_OFFSET := 5 } := rfl
  have ha : (Machine.printing 1000 [] []).active_extruder = 0 := rfl
  have h23 := uvlo_events_head (Machine.printing 1000 [] [])
  rw [ho, hx, hc, ha] at h23
  simp only [hz, he] at h23
  refine ⟨?_, ?_, ?_⟩
  · rw [uvlo_plan_buffer_line_calls, ho, hx, hc, ha]
    simp only [hz, he]
  · rw [h23]
    rfl
  · have h12 : (events_of uvlo_ (Machine.printing 1000 [] [])).take 12
        = ((events_of uvlo_ (Machine.printing 1000 [] [])).take 23).take 12 := by
      have hmin : (12 : Nat) ⊓ 23 = 12 := by decide
      rw [List.take_take, hmin]
    rw [h12, h23]
    simp [List.count_cons]

/-- C27 (the code at the failing input). With `EICRB = 0` and `EIMSK = 0`
before the call, `setup_uvlo_interrupt` leaves `EICRB = 0x01`: the sense-control
bits of INT4 are ISC41 = 0 (bit 1) and ISC40 = 1 (bit 0), the AVR encoding of
"any logical change", not ISC41 = 1, ISC40 = 0 ("falling edge"); bit 4 of
`EIMSK` is set. -/
theorem setup_uvlo_interrupt_senses_any_change :
    Machine.idle.EICRB = 0 ∧ Machine.idle.EIMSK = 0
    ∧ (setup_uvlo_interrupt Machine.idle).EICRB = 0x01
    ∧ (setup_uvlo_interrupt Machine.idle).EICRB.testBit 1 = false
    ∧ (setup_uvlo_interrupt Machine.idle).EICRB.testBit 0 = true
    ∧ (setup_uvlo_interrupt Machine.idle).EIMSK = 0x10 := by
  decide

/-- C28. The full-step rounding count `off(p) = (1024 - p + 7) >> 4` of `uvlo_`
and of the recovery (`full_step_offset`), for every phase `p` in 0..1023:
`off(p)` is `(1024 - p + 7) div 16`, at most 64 (and not negative); `off` is
non-increasing in `p`; `-8 <= 16*off(p) - (1024 - p) <= 7`; `off(0) = 64`; and
`16*off(p) = 1024 - p`, that is `off(p) = (1024 - p)/16` with no rounding, when
`p` is a positive multiple of 16 (the equality holds exactly for the multiples
of 16). -/
theorem full_step_offset_bounds (p : Nat) (hp : p ≤ 1023) :
    full_step_offset p = (1024 - p + 7) / 16
    ∧ 0 ≤ (full_step_offset p : Int) ∧ full_step_offset p ≤ 64
    ∧ (∀ q, p ≤ q → q ≤ 1023 → full_step_offset q ≤ full_step_offset p)
    ∧ -8 ≤ 16 * (full_step_offset p : Int) - (1024 - (p : Int))
    ∧ 16 * (full_step_offset p : Int) - (1024 - (p : Int)) ≤ 7
    ∧ full_step_offset 0 = 64
    ∧ (0 < p → p % 16 = 0 → 16 * (full_step_offset p : Int) = 1024 - (p : Int))
    ∧ (16 * (full_step_offset p : Int) = 1024 - (p : Int) ↔ p % 16 = 0) := by
  have h := full_step_offset_of_phase p hp
  have h0 : full_step_offset 0 = 64 := by decide
  refine ⟨h, by omega, by omega, ?_, by omega, by omega, h0, by omega, by omega⟩
  intro q hq1 hq2
  have hq := full_step_offset_of_phase q hq2
  omega

/-- C28 (witness): at phase 600 the count is 26 and `16*26 - 424 = -8`. -/
theorem full_step_offset_bounds_witness :
    600 ≤ 1023 ∧ full_step_offset 600 = 26
    ∧ -8 ≤ 16 * (full_step_offset 600 : Int) - (1024 - ((600 : Nat) : Int)) :=
  ⟨by decide, by decide, (full_step_offset_bounds 600 (by decide)).2.2.2.2.1⟩

/-- C29. In every state reached from a state without RAM checkpoint
(`saved_printing = false`) by any sequence of calls of
`stop_and_save_print_to_ram` and `restore_print_from_ram_and_continue`,
`saved_printing = true` implies `card.sdprinting = false`. So when
`ISR(INT4_vect)` runs while a RAM checkpoint is active it does not call
`uvlo_`: it only clears bit 4 of `EIMSK`, makes no call, leaves the EEPROM as
it is, and the test of the pending flag at the next boot gives the same answer
as before the interrupt: nothing of the paused print is persisted. -/
theorem ram_checkpoint_excludes_sd_printing (calls : List RamCall) (s : Machine)
    (h : s.saved_printing = false) :
    ((run_ram_calls calls s).saved_printing = true →
      (run_ram_calls calls s).card.sdprinting = false)
    ∧ ((run_ram_calls calls s).saved_printing = true →
      INT4_vect (run_ram_calls calls s)
        = { run_ram_calls calls s with EIMSK := (run_ram_calls calls s).EIMSK &&& 0xEF }
      ∧ events_of INT4_vect (run_ram_calls calls s) = []
      ∧ (INT4_vect (run_ram_calls calls s)).eeprom = (run_ram_calls calls s).eeprom
      ∧ setup_uvlo_pending (INT4_vect (run_ram_calls calls s)).eeprom
          = setup_uvlo_pending (run_ram_calls calls s).eeprom) := by
  have hinv := ram_checkpoint_invariant calls s (fun hs => by rw [h] at hs; cases hs)
  refine ⟨hinv, ?_⟩
  intro hs
  have hsd := hinv hs
  have h0 : INT4_vect (run_ram_calls calls s)
      = { run_ram_calls calls s with EIMSK := (run_ram_calls calls s).EIMSK &&& 0xEF } := by
    simp [INT4_vect, IS_SD_PRINTING, hsd]
  refine ⟨h0, ?_, ?_, ?_⟩
  · simp [events_of, h0]
  · rw [h0]
  · rw [h0]

/-- C29 (witness): a print stopped by `stop_and_save_print_to_ram(10, 0)`,
restored with `restore_print_from_ram_and_continue(0)`, and stopped again: the
RAM checkpoint is active and SD printing is off. -/
theorem ram_checkpoint_excludes_sd_printing_witness :
    (Machine.printing 100 [10] []).saved_printing = false
    ∧ (run_ram_calls [.stop_and_save 10 0, .restore 0, .stop_and_save 10 0]
        (Machine.printing 100 [10] [])).card.sdprinting = false :=
  ⟨rfl,
   (ram_checkpoint_excludes_sd_printing [.stop_and_save 10 0, .restore 0, .stop_and_save 10 0]
      (Machine.printing 100 [10] []) rfl).1 (by
        simp only [run_ram_calls, RamCall.run]
        exact stop_and_save_saved_printing _ _ _)⟩

/-- C30. The extruder mode byte gates the reconstruction of the extruder
position. `uvlo_` stores `EEPROM_UVLO_E_ABS = 1` when `axis_relative_modes[3]`
is false and 0 when it is true, and stores the extruder position in
`EEPROM_UVLO_CURRENT_POSITION_E`. On recovery, when the stored byte is not 0,
`current_position[E_AXIS]` is set to the persisted extruder position,
`G92 E<pos>` is the first command `recover_print` puts in the queue and `M82` is
enqueued right after the feedrate command `G1 F..`, nowhere else; when the
stored byte is 0, `current_position[E_AXIS]` is left as it was and no command
starts with `G92 E` or `M82`. -/
theorem e_mode_byte_gates_extruder (automatic : Nat) (s t : Machine) :
    (uvlo_ s).eeprom.raw .EEPROM_UVLO_E_ABS = (if s.axis_relative_modes_E then 0 else 1)
    ∧ (uvlo_ s).eeprom.flt .EEPROM_UVLO_CURRENT_POSITION_E = st_get_position_mm s.st_position E_AXIS
    ∧ (eeprom_read_byte .EEPROM_UVLO_E_ABS t.eeprom ≠ 0 →
        (recover_machine_state_after_power_panic t).current_position.e
          = eeprom_read_float .EEPROM_UVLO_CURRENT_POSITION_E t.eeprom
        ∧ (∃ rest, commands_of (recover_print automatic) t
            = [.lit "G92 E",
               .dtostrf (eeprom_read_float .EEPROM_UVLO_CURRENT_POSITION_E t.eeprom) 6 3] :: rest
            ∧ ∀ c ∈ rest, command_head c ≠ "G92 E")
        ∧ (∃ A B, commands_of (recover_print automatic) t
            = A ++ [[.lit "G1 F", .d (EEPROM_read_B .EEPROM_UVLO_FEEDRATE t.eeprom)],
                    [.lit "M82"]] ++ B
            ∧ ∀ c ∈ A ++ B, command_head c ≠ "M82" ∧ command_head c ≠ "G1 F"))
    ∧ (eeprom_read_byte .EEPROM_UVLO_E_ABS t.eeprom = 0 →
        (recover_machine_state_after_power_panic t).current_position.e = t.current_position.e
        ∧ ∀ c ∈ commands_of (recover_print automatic) t,
            command_head c ≠ "G92 E" ∧ command_head c ≠ "M82") := by
  refine ⟨uvlo_e_abs_stored s, ?_, ?_, ?_⟩
  · rw [uvlo_position_e_stored]; rfl
  · intro h0
    refine ⟨?_, ?_, ?_⟩
    · rw [recover_machine_state_current_position]
      simp [recovered_e, h0]
    · refine ⟨recover_print_head_commands automatic t ++ restore_commands t.eeprom, ?_, ?_⟩
      · rw [commands_of_recover_print]
        simp [recover_print_commands, recover_state_commands, h0]
      · by_cases h1 : recovered_z t.cfg t.eeprom < 25 <;>
        by_cases h2 : automatic = 0 <;>
        simp [recover_print_head_commands, restore_commands, h0, h1, h2, command_head]
    · refine ⟨recover_state_commands t.eeprom ++ recover_print_head_commands automatic t
          ++ [[.lit "M23 ", .str ((eeprom_read_cstring (fun i => .EEPROM_FILENAME i) 8 t.eeprom
                ++ ".gco").map Char.toLower)],
              [.lit "M83"],
              [.lit "G1 X", .ftostr32 (eeprom_read_float (.EEPROM_UVLO_CURRENT_POSITION 0) t.eeprom),
               .lit " Y", .ftostr32 (eeprom_read_float (.EEPROM_UVLO_CURRENT_POSITION 4) t.eeprom),
               .lit " F2000"],
              [.lit "G1 Z", .ftostr32 (eeprom_read_float .EEPROM_UVLO_CURRENT_POSITION_Z t.eeprom)],
              [.lit "G1 E", .STRINGIFY "2*DEFAULT_RETRACTION", .lit " F480"]],
        [[.lit "M106 S", .itostr3 (eeprom_read_byte .EEPROM_UVLO_FAN_SPEED t.eeprom)],
         [.lit "M26 S", .lu (eeprom_read_dword .EEPROM_FILE_POSITION t.eeprom)],
         [.lit "M24"]], ?_, ?_⟩
      · rw [commands_of_recover_print]
        simp [recover_print_commands, restore_commands, h0]
      · by_cases h1 : recovered_z t.cfg t.eeprom < 25 <;>
        by_cases h2 : automatic = 0 <;>
        simp [recover_print_head_commands, recover_state_commands, h0, h1, h2, command_head]
  · intro h0
    refine ⟨?_, ?_⟩
    · rw [recover_machine_state_current_position]
      simp [recovered_e, h0]
    · rw [commands_of_recover_print]
      by_cases h1 : recovered_z t.cfg t.eeprom < 25 <;>
      by_cases h2 : automatic = 0 <;>
      simp [recover_print_commands, recover_print_head_commands, restore_commands,
        recover_state_commands, h0, h1, h2, command_head]

/-- C30 (witness): a print in absolute extruder mode is interrupted and the
machine rebooted with the EEPROM `uvlo_` left: the stored byte is 1 and the
recovered extruder coordinate is the persisted one. -/
theorem e_mode_byte_gates_extruder_witness :
    eeprom_read_byte .EEPROM_UVLO_E_ABS (Machine.rebooted (Machine.printing 1000 [] [])).eeprom ≠ 0
    ∧ (recover_machine_state_after_power_panic
        (Machine.rebooted (Machine.printing 1000 [] []))).current_position.e
      = eeprom_read_float .EEPROM_UVLO_CURRENT_POSITION_E
          (Machine.rebooted (Machine.printing 1000 [] [])).eeprom := by
  have hb : eeprom_read_byte .EEPROM_UVLO_E_ABS
      (Machine.rebooted (Machine.printing 1000 [] [])).eeprom ≠ 0 := by
    rw [Machine.rebooted_eeprom, eeprom_read_byte, uvlo_e_abs_stored]
    decide
  exact ⟨hb, ((e_mode_byte_gates_extruder 1 (Machine.printing 1000 [] [])
    (Machine.rebooted (Machine.printing 1000 [] []))).2.2.1 hb).1⟩

end Marlin
